import Mathlib

/-!
# Advertisement marketplace: the transactional store and its handlers

A shallow embedding of `internal/models`, of the methods of `internal/store`
and of the request handlers of `internal/handlers`, from the point where the
HTTP method and the authentication have been checked.

Modelling conventions.

* The MySQL database behind `DBStore` is an explicit value `store.DB`: one list
  of rows per table, in insertion order, plus the AUTO_INCREMENT counter of
  each table.  Every store method takes the database and returns its Go result
  together with the database after the call.
* `UPDATE ... SET ... WHERE ...` rewrites every row that satisfies the WHERE
  clause.  `RowsAffected` is the number of rows whose values the statement
  changed (the DSN of `main.go` does not set `clientFoundRows`), so a row that
  satisfies the WHERE clause and already holds the new values is not counted.
* A database transaction works on its own copy of the database; `Commit`
  returns the copy, `Rollback` the database the transaction started from.
* `time.Now()` is an argument (`now`), a count of nanoseconds.
* Go `int`, `int64` and SQL integer columns are `Int`.  The store performs no
  Go-side arithmetic on them; the only arithmetic is the SQL expression
  `balance + ?`, taken over the integers.
* Go `float64` is `float64.F64`: exact dyadic values with IEEE 754
  round-to-nearest-even applied after each operation.
* Driver failures (lost connection, cancelled context) are not modelled: a
  statement that is executed takes effect (the one exception is `LogAdEvent`,
  see the second part).
-/

namespace models

/-- Instants (`time.Time`), as nanoseconds since the Unix epoch. -/
abbrev Time := Int

/-- Go `models.User`. -/
structure User where
  ID : Int
  Username : String := ""
  PasswordHash : String := ""
  Role : String := "user"
  Balance : Int := 0
deriving DecidableEq, Repr

/-- Go `models.Advertisement`. -/
structure Advertisement where
  ID : Int
  Title : String := ""
  ImageURL : String := ""
  TargetURL : String := ""
  UserID : Int
  Status : String
deriving DecidableEq, Repr

/-- Go `models.AdCampaign`. -/
structure AdCampaign where
  ID : Int
  AdvertisementID : Int
  UserID : Int
  StartDate : Time
  EndDate : Time
  Status : String
  CreatedAt : Time := 0
  UpdatedAt : Time := 0
deriving DecidableEq, Repr

/-- Go `models.RechargeTransaction`; `TransactionID` is the nullable
`transaction_id` column (`*string`). -/
structure RechargeTransaction where
  ID : Int
  UserID : Int
  Amount : Int
  Status : String
  TransactionID : Option String := none
  PaymentMethod : String := ""
  CreatedAt : Time := 0
  UpdatedAt : Time := 0
deriving DecidableEq, Repr

/-- Go `models.AdEvent`. -/
structure AdEvent where
  ID : Int
  EventType : String
  AdvertisementID : Int
  CampaignID : Int
  UserID : Int
  EventTimestamp : Time
deriving DecidableEq, Repr

/-- Go `models.InvoiceRequest`. -/
structure InvoiceRequest where
  ID : Int
  UserID : Int
  Status : String
  InvoicePeriodStart : Time
  InvoicePeriodEnd : Time
  TotalAmount : Int
  BillingTitle : String := ""
  TaxID : Option String := none
  BillingAddress : String := ""
  InvoiceNumber : Option String := none
  Notes : Option String := none
  RequestedAt : Time := 0
  ProcessedAt : Option Time := none
deriving DecidableEq, Repr

end models

deriving instance DecidableEq for Except

namespace store

open models

/-- Errors returned by the store: the two sentinels of `store.go` and the
errors built with `fmt.Errorf`, identified by their message. -/
inductive StoreError where
  | ErrNotFound
  | ErrDuplicateUser
  | Errorf (msg : String)
deriving DecidableEq, Repr

/-- The database behind `DBStore`: the six tables and their AUTO_INCREMENT
counters. -/
structure DB where
  users : List User := []
  advertisements : List Advertisement := []
  ad_campaigns : List AdCampaign := []
  recharge_transactions : List RechargeTransaction := []
  ad_events : List AdEvent := []
  invoice_requests : List InvoiceRequest := []
  users_seq : Int := 1
  advertisements_seq : Int := 1
  ad_campaigns_seq : Int := 1
  recharge_transactions_seq : Int := 1
  ad_events_seq : Int := 1
  invoice_requests_seq : Int := 1
deriving DecidableEq, Repr

/-- Rows after `UPDATE t SET set WHERE wh`: every row satisfying `wh` is
rewritten by `set`, the others are kept. -/
def sqlUpdate {α : Type} (rows : List α) (wh : α → Bool) (set : α → α) : List α :=
  rows.map (fun r => if wh r then set r else r)

/-- `RowsAffected` of `UPDATE t SET set WHERE wh`.  `main.go` opens the
connection without `clientFoundRows`, so MySQL reports the rows the statement
changed: a row that satisfies `wh` and already holds the values of `set` is not
counted. -/
def rowsAffected {α : Type} [DecidableEq α] (rows : List α) (wh : α → Bool) (set : α → α) :
    Nat :=
  (rows.filter (fun r => wh r && decide (set r ≠ r))).length

/-- Go `DBStore.CreateRechargeTransaction`:
`INSERT INTO recharge_transactions (user_id, amount, status, payment_method)
VALUES (?, ?, 'Pending', ?)`, returning `LastInsertId`.  The columns the
statement does not name take their defaults: `transaction_id` is NULL and the
two timestamps are the insertion time. -/
def CreateRechargeTransaction (s : DB) (now : Time) (userID : Int) (amountInCents : Int)
    (paymentMethod : String) : Except StoreError Int × DB :=
  let id := s.recharge_transactions_seq
  let row : RechargeTransaction :=
    { ID := id, UserID := userID, Amount := amountInCents, Status := "Pending",
      TransactionID := none, PaymentMethod := paymentMethod,
      CreatedAt := now, UpdatedAt := now }
  (.ok id, { s with recharge_transactions := s.recharge_transactions ++ [row],
                    recharge_transactions_seq := id + 1 })

/-- The error of `ProcessSuccessfulRecharge` when its guarded UPDATE touches no
row: `fmt.Errorf("store: recharge transaction %d not found or not in Pending
state during update", rechargeRecordID)`. -/
def errRechargeNotPending (rechargeRecordID : Int) : StoreError :=
  .Errorf ("store: recharge transaction " ++ toString rechargeRecordID ++
    " not found or not in Pending state during update")

/-- Go `DBStore.ProcessSuccessfulRecharge`.  The two UPDATEs run inside one
database transaction `tx`; every early return leaves through the deferred
`tx.Rollback()`, so the database is the one the call started from, and only
`tx.Commit()` publishes the writes. -/
def ProcessSuccessfulRecharge (s : DB) (now : Time) (userID : Int) (amountInCents : Int)
    (rechargeRecordID : Int) (simulatedTxID : String) : Except StoreError Unit × DB :=
  -- UPDATE users SET balance = balance + ? WHERE id = ?
  let users := sqlUpdate s.users (fun u => u.ID == userID)
    (fun u => { u with Balance := u.Balance + amountInCents })
  let tx : DB := { s with users := users }
  -- UPDATE recharge_transactions SET status = 'Success', transaction_id = ?, updated_at = ?
  -- WHERE id = ? AND status = 'Pending'
  let wh : RechargeTransaction → Bool := fun r => r.ID == rechargeRecordID && r.Status == "Pending"
  let set : RechargeTransaction → RechargeTransaction :=
    fun r => { r with Status := "Success", TransactionID := some simulatedTxID, UpdatedAt := now }
  let n := rowsAffected tx.recharge_transactions wh set
  let rows := sqlUpdate tx.recharge_transactions wh set
  let tx : DB := { tx with recharge_transactions := rows }
  if n = 0 then
    (.error (errRechargeNotPending rechargeRecordID), s)
  else
    (.ok (), tx)

/-- Go `DBStore.UpdateRechargeTransactionStatus`:
`UPDATE recharge_transactions SET status = ?, transaction_id = ?, updated_at = ?
WHERE id = ?`; an empty `simulatedTxID` is sent as NULL. -/
def UpdateRechargeTransactionStatus (s : DB) (now : Time) (rechargeRecordID : Int)
    (status : String) (simulatedTxID : String) : Except StoreError Unit × DB :=
  let txIDArg : Option String := if simulatedTxID != "" then some simulatedTxID else none
  let wh : RechargeTransaction → Bool := fun r => r.ID == rechargeRecordID
  let set : RechargeTransaction → RechargeTransaction :=
    fun r => { r with Status := status, TransactionID := txIDArg, UpdatedAt := now }
  let n := rowsAffected s.recharge_transactions wh set
  let rows := sqlUpdate s.recharge_transactions wh set
  let s' : DB := { s with recharge_transactions := rows }
  if n = 0 then
    (.error .ErrNotFound, s')
  else
    (.ok (), s')

/-- Go `DBStore.GetUserBalance`: `SELECT balance FROM users WHERE id = ?`,
`ErrNotFound` when no row comes back. -/
def GetUserBalance (s : DB) (userID : Int) : Except StoreError Int :=
  match s.users.find? (fun u => u.ID == userID) with
  | some u => .ok u.Balance
  | none => .error .ErrNotFound

/-- The recharge transaction stored under `id` (the row a
`SELECT ... FROM recharge_transactions WHERE id = ?` returns). -/
def rechargeByID (s : DB) (id : Int) : Option RechargeTransaction :=
  s.recharge_transactions.find? (fun r => r.ID == id)

end store

namespace float64

/-- Go `float64` values.  `fin neg m e` is the finite number
`(-1)^neg * m * 2^e`; a value has several such representations and is read
through `toRat`. -/
inductive F64 where
  | fin (neg : Bool) (m : Nat) (e : Int)
  | inf (neg : Bool)
  | nan
deriving DecidableEq, Repr

/-- The rational number a finite float64 stands for (0 for the others). -/
def toRat : F64 → ℚ
  | .fin neg m e => (if neg then -1 else 1) * (m : ℚ) * (2 : ℚ) ^ e
  | _ => 0

/-- The quotient `a / b` rounded to the nearest natural number, ties to the
even one (the IEEE 754 default rounding of a significand). -/
def roundNE (a b : Nat) : Nat :=
  let q := a / b
  let r := a % b
  if 2 * r < b then q
  else if b < 2 * r then q + 1
  else if q % 2 = 0 then q else q + 1

/-- Fuelled computation of the binary logarithm. -/
def log2Fuel : Nat → Nat → Nat
  | 0, _ => 0
  | fuel + 1, n => if 2 ≤ n then log2Fuel fuel (n / 2) + 1 else 0

/-- The binary logarithm of `n`, rounded down (0 for `n = 0`). -/
def log2 (n : Nat) : Nat := log2Fuel n n

/-- Numerator and denominator of `(a / b) / 2^e`. -/
def scale (a b : Nat) (e : Int) : Nat × Nat :=
  if 0 ≤ e then (a, b * 2 ^ e.toNat) else (a * 2 ^ (-e).toNat, b)

/-- The float64 nearest to `(-1)^neg * a / b`, for `b > 0`: a 53-bit
significand at the exponent of the binade of `a / b` (not below the
subnormal exponent -1074), rounded to nearest-even, and an infinity from
`2^1024` on. -/
def ofRat (neg : Bool) (a b : Nat) : F64 :=
  if a = 0 then .fin neg 0 0
  else
    -- a / b lies in [2^(k-1), 2^(k+1))
    let k : Int := (log2 a : Int) - (log2 b : Int)
    let sc := scale a b (k - 52)
    let e0 : Int := if 2 ^ 52 * sc.2 ≤ sc.1 then k - 52 else k - 53
    let e : Int := max e0 (-1074)
    let sc := scale a b e
    let m := roundNE sc.1 sc.2
    if 971 < e ∨ (e = 971 ∧ m = 2 ^ 53) then .inf neg else .fin neg m e

/-- Float64 multiplication `x * y`: the exact product, rounded once. -/
def mul : F64 → F64 → F64
  | .fin n1 m1 e1, .fin n2 m2 e2 =>
    let e := e1 + e2
    if 0 ≤ e then ofRat (xor n1 n2) (m1 * m2 * 2 ^ e.toNat) 1
    else ofRat (xor n1 n2) (m1 * m2) (2 ^ (-e).toNat)
  | .fin n1 m1 _, .inf n2 => if m1 = 0 then .nan else .inf (xor n1 n2)
  | .inf n1, .fin n2 m2 _ => if m2 = 0 then .nan else .inf (xor n1 n2)
  | .inf n1, .inf n2 => .inf (xor n1 n2)
  | _, _ => .nan

/-- The Go comparison `x <= 0`. -/
def le0 : F64 → Bool
  | .fin neg m _ => neg || m == 0
  | .inf neg => neg
  | .nan => false

/-- Go `math.Round`: the nearest integer, halves away from zero; infinities
and NaN are returned as they are. -/
def mathRound : F64 → F64
  | .fin neg m e =>
    if 0 ≤ e then .fin neg m e
    else
      let d := 2 ^ (-e).toNat
      .fin neg ((2 * m + d) / (2 * d)) 0
  | x => x

/-- The Go conversion `int64(x)`: truncation toward zero.  For a value that
int64 cannot hold Go leaves the result to the implementation; it is taken as on
amd64, where the conversion yields `-2^63`. -/
def toInt64 : F64 → Int
  | .fin neg m e =>
    let t : Int := if 0 ≤ e then (m * 2 ^ e.toNat : Nat) else (m / 2 ^ (-e).toNat : Nat)
    let v : Int := if neg then -t else t
    if -(2 : Int) ^ 63 ≤ v ∧ v < (2 : Int) ^ 63 then v else -(2 : Int) ^ 63
  | _ => -(2 : Int) ^ 63

/-- The float64 a JSON number literal `(-1)^neg * digits / 10^scale` decodes to
(`strconv.ParseFloat`, correctly rounded); `none` when the literal is out of
range, which `json.Decoder.Decode` reports as an error. -/
def decode (neg : Bool) (digits : Nat) (scale : Nat) : Option F64 :=
  match ofRat neg digits (10 ^ scale) with
  | .fin n m e => some (.fin n m e)
  | _ => none

end float64

namespace handlers

open models store float64

/-- What a handler writes back: the HTTP status code and, for a successful
recharge, the `transaction_id` of the response data.  The human-readable
message is left out. -/
structure Response where
  Code : Nat
  Data : Option String := none
deriving DecidableEq, Repr

/-- `RechargeHandler`, the conversion of the requested amount in major units
to minor units: `int64(math.Round(req.Amount * 100))`. -/
def amountInCents (Amount : F64) : Int :=
  toInt64 (mathRound (mul Amount (.fin false 100 0)))

/-- `RechargeHandler`, steps 3 and 4: the amount is validated and converted
(400 Bad Request when it is not positive before or after the conversion), then
the Pending recharge record is created with payment method "Simulated".
Returns the amount in minor units and the id of the new record. -/
def RechargeHandler_open (s : DB) (now : Time) (userID : Int) (Amount : F64) :
    Except Response (Int × Int) × DB :=
  if le0 Amount then
    (.error { Code := 400 }, s)
  else
    let amountInCents := amountInCents Amount
    if amountInCents ≤ 0 then
      (.error { Code := 400 }, s)
    else
      match CreateRechargeTransaction s now userID amountInCents "Simulated" with
      | (.error _, s1) => (.error { Code := 500 }, s1)
      | (.ok rechargeRecordID, s1) => (.ok (amountInCents, rechargeRecordID), s1)

/-- Go `Handler.RechargeHandler` for an authenticated POST whose body decoded
to `Amount`.  `paymentSuccess` is the outcome of the simulated payment
(`rand.Float32() < 0.80`). -/
def RechargeHandler (s : DB) (now : Time) (userID : Int) (Amount : F64)
    (paymentSuccess : Bool) : Response × DB :=
  match RechargeHandler_open s now userID Amount with
  | (.error resp, s1) => (resp, s1)
  | (.ok (amountInCents, rechargeRecordID), s1) =>
    if paymentSuccess then
      let simulatedTxID := "SIM_TX_" ++ toString now ++ "_" ++ toString rechargeRecordID
      match ProcessSuccessfulRecharge s1 now userID amountInCents rechargeRecordID simulatedTxID with
      | (.error _, s2) =>
        let s3 := (UpdateRechargeTransactionStatus s2 now rechargeRecordID "Failed"
          "PROCESSING_ERROR").2
        ({ Code := 500 }, s3)
      | (.ok _, s2) => ({ Code := 200, Data := some simulatedTxID }, s2)
    else
      let simulatedTxID := "SIM_FAIL_" ++ toString now ++ "_" ++ toString rechargeRecordID
      let s2 := (UpdateRechargeTransactionStatus s1 now rechargeRecordID "Failed" simulatedTxID).2
      ({ Code := 400 }, s2)

end handlers

namespace store

open models

/-- A call of one of the three store methods that write `recharge_transactions`
or `users.balance`, with its arguments. -/
inductive LedgerOp where
  | create (now : Time) (userID : Int) (amountInCents : Int) (paymentMethod : String)
  | process (now : Time) (userID : Int) (amountInCents : Int) (rechargeRecordID : Int)
      (simulatedTxID : String)
  | update (now : Time) (rechargeRecordID : Int) (status : String) (simulatedTxID : String)
deriving DecidableEq, Repr

/-- The database after the call `op`. -/
def LedgerOp.run (s : DB) : LedgerOp → DB
  | .create now userID amountInCents paymentMethod =>
    (CreateRechargeTransaction s now userID amountInCents paymentMethod).2
  | .process now userID amountInCents rechargeRecordID simulatedTxID =>
    (ProcessSuccessfulRecharge s now userID amountInCents rechargeRecordID simulatedTxID).2
  | .update now rechargeRecordID status simulatedTxID =>
    (UpdateRechargeTransactionStatus s now rechargeRecordID status simulatedTxID).2

/-- The database after a sequence of calls, first call first. -/
def runAll (s : DB) (ops : List LedgerOp) : DB :=
  ops.foldl LedgerOp.run s

/-- The sum of the amounts of the rows of `rows` that belong to `userID` and
have status Success. -/
def successSum (rows : List RechargeTransaction) (userID : Int) : Int :=
  ((rows.filter (fun r => r.UserID == userID && r.Status == "Success")).map
    (fun r => r.Amount)).sum

/-- The sum of the amounts of the Success recharge transactions of `userID`. -/
def successTotal (s : DB) (userID : Int) : Int :=
  successSum s.recharge_transactions userID

/-- Every user's balance is the sum of that user's Success recharges. -/
def BalanceInvariant (s : DB) : Prop :=
  ∀ u ∈ s.users, u.Balance = successTotal s u.ID

instance (s : DB) : Decidable (BalanceInvariant s) :=
  inferInstanceAs (Decidable (∀ u ∈ s.users, u.Balance = successTotal s u.ID))

/-- An empty store: no recharge transaction yet and every balance 0. -/
def EmptyLedger (s : DB) : Prop :=
  s.recharge_transactions = [] ∧ ∀ u ∈ s.users, u.Balance = 0

instance (s : DB) : Decidable (EmptyLedger s) :=
  inferInstanceAs (Decidable (s.recharge_transactions = [] ∧ ∀ u ∈ s.users, u.Balance = 0))

/-- Calls that keep balances and records in step: a completion carries the
user and the amount of the Pending record it names, and a plain status update
neither sets Success nor rewrites a Success record. -/
def LedgerOp.Matched (s : DB) : LedgerOp → Prop
  | .create _ _ _ _ => True
  | .process _ userID amountInCents rechargeRecordID _ =>
    ∀ r ∈ s.recharge_transactions, r.ID = rechargeRecordID → r.Status = "Pending" →
      r.UserID = userID ∧ r.Amount = amountInCents
  | .update _ rechargeRecordID status _ =>
    status ≠ "Success" ∧
      ∀ r ∈ s.recharge_transactions, r.ID = rechargeRecordID → r.Status ≠ "Success"

instance (s : DB) : (op : LedgerOp) → Decidable (op.Matched s)
  | .create _ _ _ _ => isTrue trivial
  | .process _ userID amountInCents rechargeRecordID _ =>
    inferInstanceAs (Decidable (∀ r ∈ s.recharge_transactions, r.ID = rechargeRecordID →
      r.Status = "Pending" → r.UserID = userID ∧ r.Amount = amountInCents))
  | .update _ rechargeRecordID status _ =>
    inferInstanceAs (Decidable (status ≠ "Success" ∧
      ∀ r ∈ s.recharge_transactions, r.ID = rechargeRecordID → r.Status ≠ "Success"))

/-- Ids handed out by AUTO_INCREMENT: every recharge id is below the counter
and no two rows share an id. -/
def LedgerWF (s : DB) : Prop :=
  (∀ r ∈ s.recharge_transactions, r.ID < s.recharge_transactions_seq) ∧
    (s.recharge_transactions.map (fun r => r.ID)).Nodup

/-- Every call of the sequence is `Matched` in the database it runs in. -/
def MatchedFrom : DB → List LedgerOp → Prop
  | _, [] => True
  | s, op :: ops => op.Matched s ∧ MatchedFrom (op.run s) ops

/-- Decision procedure for `MatchedFrom`. -/
def decMatchedFrom : (s : DB) → (ops : List LedgerOp) → Decidable (MatchedFrom s ops)
  | _, [] => isTrue trivial
  | s, op :: ops =>
    have := decMatchedFrom (op.run s) ops
    inferInstanceAs (Decidable (op.Matched s ∧ MatchedFrom (op.run s) ops))

instance (s : DB) (ops : List LedgerOp) : Decidable (MatchedFrom s ops) := decMatchedFrom s ops

end store

namespace handlers

open models store float64

/-- The database after a sequence of recharge requests of one user whose
simulated payments all go through; each request is the request time and the
decoded amount. -/
def runRecharges (s : DB) (userID : Int) (reqs : List (Time × F64)) : DB :=
  reqs.foldl (fun s req => (RechargeHandler s req.1 userID req.2 true).2) s

/-- The responses to the requests of `runRecharges`, in order. -/
def rechargeResponses : DB → Int → List (Time × F64) → List Response
  | _, _, [] => []
  | s, userID, req :: reqs =>
    (RechargeHandler s req.1 userID req.2 true).1 ::
      rechargeResponses (RechargeHandler s req.1 userID req.2 true).2 userID reqs

end handlers

namespace spec

/-- The amount the specification asks for, for the decimal amount
`(-1)^neg * digits / 10^scale` in major units: `100 * x` rounded to the nearest
integer, halves away from zero, computed exactly. -/
def minorUnits (neg : Bool) (digits : Nat) (scale : Nat) : Int :=
  let n : Nat := (2 * (100 * digits) + 10 ^ scale) / (2 * 10 ^ scale)
  if neg then -(n : Int) else n

end spec

namespace examples

open models store float64 handlers

/-- A small ledger: two users, and recharge records in each of the three
states. -/
def ledgerDB : DB :=
  { users := [{ ID := 1, Username := "ann", Balance := 700 },
              { ID := 2, Username := "bob", Balance := 40 }],
    recharge_transactions :=
      [{ ID := 1, UserID := 1, Amount := 700, Status := "Success",
         TransactionID := some "SIM_TX_10_1", PaymentMethod := "Simulated",
         CreatedAt := 10, UpdatedAt := 10 },
       { ID := 2, UserID := 1, Amount := 500, Status := "Pending",
         PaymentMethod := "Simulated", CreatedAt := 20, UpdatedAt := 20 },
       { ID := 3, UserID := 2, Amount := 40, Status := "Success",
         TransactionID := some "SIM_TX_30_3", PaymentMethod := "Simulated",
         CreatedAt := 30, UpdatedAt := 30 },
       { ID := 4, UserID := 2, Amount := 90, Status := "Failed",
         TransactionID := some "SIM_FAIL_40_4", PaymentMethod := "Simulated",
         CreatedAt := 40, UpdatedAt := 40 }],
    recharge_transactions_seq := 5 }

/-- The ledger calls of two recharge requests of user 1: one of 500 that is
paid, one of 90 whose payment fails. -/
def matchedOps : List LedgerOp :=
  [.create 10 1 500 "Simulated", .process 11 1 500 1 "SIM_TX_11_1",
   .create 20 1 90 "Simulated", .update 21 2 "Failed" "SIM_FAIL_21_2"]

/-- A recharge of 500 by user 1 that is completed and afterwards marked
Failed by a plain status update. -/
def failAfterSuccessOps : List LedgerOp :=
  [.create 10 1 500 "Simulated", .process 11 1 500 1 "SIM_TX_11_1",
   .update 12 1 "Failed" "PROCESSING_ERROR"]

/-- The float64 that the JSON number `1.005` decodes to. -/
def amount1005 : F64 := .fin false 4526117625507348 (-52)

/-- Two recharge requests: 1.5 and 10.25 major units, at times 10 and 20. -/
def twoRequests : List (Time × F64) :=
  [(10, .fin false 3 (-1)), (20, .fin false 41 (-2))]

/-- A store with two registered users and nothing else. -/
def freshDB : DB :=
  { users := [{ ID := 1, Username := "ann" }, { ID := 2, Username := "bob" }],
    users_seq := 3 }

end examples

/-!
## Listings, creatives, campaigns and events

Further conventions.

* `SELECT ... WHERE c1 AND ... AND cn` keeps the rows that satisfy every
  condition of the list the method builds; `ORDER BY key DESC` sorts them by
  decreasing key (rows with equal keys come in some order, here the one of a
  stable insertion sort); string comparison is exact.
* `ORDER BY RAND() LIMIT 1` takes the row at an index drawn by the caller
  (`rand`), reduced modulo the number of selected rows.
* MySQL `NOW()` is the argument `now`.
* Calendar days are whole multiples of 24 hours since the Unix epoch:
  `time.Parse("2006-01-02", ...)` yields midnight UTC and, on such times,
  `AddDate(0, 0, 1)` adds 24 hours.
* `LogAdEvent` is the one statement whose failure is modelled, through the
  argument `dbOK`, because the handlers deliberately survive it.
-/

namespace models

/-- Go `models.RechargeHistoryFilters`; a nil pointer is `none`. -/
structure RechargeHistoryFilters where
  StartDate : Option Time := none
  EndDate : Option Time := none
  MinAmount : Option Int := none
  MaxAmount : Option Int := none
  Status : Option String := none
deriving DecidableEq, Repr

/-- Go `models.CampaignFilters`. -/
structure CampaignFilters where
  StartDate : Option Time := none
  EndDate : Option Time := none
  Status : Option String := none
deriving DecidableEq, Repr

/-- Go `models.CampaignWithAdDetails`. -/
structure CampaignWithAdDetails where
  ID : Int
  AdvertisementID : Int
  UserID : Int
  StartDate : Time
  EndDate : Time
  Status : String
  CreatedAt : Time
  UpdatedAt : Time
  AdTitle : String
  AdImageURL : String
deriving DecidableEq, Repr

/-- Go `models.InvoiceRequestFilter`. -/
structure InvoiceRequestFilter where
  Status : Option String := none
  StartDate : Option Time := none
  EndDate : Option Time := none
deriving DecidableEq, Repr

/-- Nanoseconds in a calendar day (24 hours). -/
def nsPerDay : Int := 86400000000000

/-- The instant `time.Parse("2006-01-02", ...)` returns for the calendar day
number `day` (days since 1970-01-01): midnight UTC of that day. -/
def dayStart (day : Int) : Time := day * nsPerDay

/-- Go `t.AddDate(0, 0, 1).Add(-1 * time.Nanosecond)`: the last instant of the
day that starts at `t`. -/
def endOfDay (t : Time) : Time := t + nsPerDay - 1

/-- Go `t.Truncate(24 * time.Hour)`. -/
def truncateDay (t : Time) : Time := t - t % nsPerDay

end models

namespace store

open models

/-- Rows of `SELECT ... WHERE c1 AND c2 AND ...`, for the list of conditions
that the method has collected. -/
def sqlWhere {α : Type} (conditions : List (α → Bool)) (rows : List α) : List α :=
  rows.filter (fun r => conditions.all (fun c => c r))

/-- Rows in the order of `ORDER BY key DESC`. -/
def orderByDesc {α : Type} (key : α → Int) (rows : List α) : List α :=
  rows.insertionSort (fun a b => key b ≤ key a)

/-- A condition that a method appends only when the optional filter value is
present (`if filters.X != nil`). -/
def optCond {α β : Type} (v : Option β) (cond : β → α → Bool) : List (α → Bool) :=
  match v with
  | some x => [cond x]
  | none => []

/-- Go `DBStore.GetUserRechargeHistory`: the conditions start with
`user_id = ?`, each filter that is set appends one more, they are joined with
AND, and the rows come back `ORDER BY created_at DESC`. -/
def GetUserRechargeHistory (s : DB) (userID : Int) (filters : RechargeHistoryFilters) :
    Except StoreError (List RechargeTransaction) :=
  let conditions : List (RechargeTransaction → Bool) :=
    [fun r => r.UserID == userID]
    ++ optCond filters.Status (fun st r => r.Status == st)
    ++ optCond filters.StartDate (fun t r => decide (r.CreatedAt ≥ t))
    ++ optCond filters.EndDate (fun t r => decide (r.CreatedAt ≤ t))
    ++ optCond filters.MinAmount (fun a r => decide (r.Amount ≥ a))
    ++ optCond filters.MaxAmount (fun a r => decide (r.Amount ≤ a))
  .ok (orderByDesc (fun r => r.CreatedAt) (sqlWhere conditions s.recharge_transactions))

/-- Rows of `ad_campaigns camp JOIN advertisements adv ON
camp.advertisement_id = adv.id`, with the columns both campaign listings
select. -/
def campaignsJoinAds (s : DB) : List CampaignWithAdDetails :=
  s.ad_campaigns.flatMap (fun camp =>
    (s.advertisements.filter (fun adv => camp.AdvertisementID == adv.ID)).map (fun adv =>
      { ID := camp.ID, AdvertisementID := camp.AdvertisementID, UserID := camp.UserID,
        StartDate := camp.StartDate, EndDate := camp.EndDate, Status := camp.Status,
        CreatedAt := camp.CreatedAt, UpdatedAt := camp.UpdatedAt,
        AdTitle := adv.Title, AdImageURL := adv.ImageURL }))

/-- Go `DBStore.GetAdCampaignsByUserID`: the optional bounds are compared
with the campaign's own `start_date` and `end_date`. -/
def GetAdCampaignsByUserID (s : DB) (userID : Int) (filters : CampaignFilters) :
    Except StoreError (List CampaignWithAdDetails) :=
  let conditions : List (CampaignWithAdDetails → Bool) :=
    [fun c => c.UserID == userID]
    ++ optCond filters.Status (fun st c => c.Status == st)
    ++ optCond filters.StartDate (fun t c => decide (c.StartDate ≥ t))
    ++ optCond filters.EndDate (fun t c => decide (c.EndDate ≤ t))
  .ok (orderByDesc (fun c => c.CreatedAt) (sqlWhere conditions (campaignsJoinAds s)))

/-- Go `DBStore.GetInvoiceRequestsByUserID`: the end bound is moved to the end
of its day before it is compared with `requested_at`. -/
def GetInvoiceRequestsByUserID (s : DB) (userID : Int) (filters : InvoiceRequestFilter) :
    Except StoreError (List InvoiceRequest) :=
  let conditions : List (InvoiceRequest → Bool) :=
    [fun r => r.UserID == userID]
    ++ optCond filters.Status (fun st r => r.Status == st)
    ++ optCond filters.StartDate (fun t r => decide (r.RequestedAt ≥ t))
    ++ optCond filters.EndDate (fun t r => decide (r.RequestedAt ≤ endOfDay t))
  .ok (orderByDesc (fun r => r.RequestedAt) (sqlWhere conditions s.invoice_requests))

/-- Go `DBStore.CreateAdvertisement`: `INSERT INTO advertisements (title,
image_url, target_url, user_id, status)`, returning `LastInsertId`. -/
def CreateAdvertisement (s : DB) (ad : Advertisement) : Except StoreError Int × DB :=
  let id := s.advertisements_seq
  let row : Advertisement :=
    { ID := id, Title := ad.Title, ImageURL := ad.ImageURL, TargetURL := ad.TargetURL,
      UserID := ad.UserID, Status := ad.Status }
  (.ok id, { s with advertisements := s.advertisements ++ [row],
                    advertisements_seq := id + 1 })

/-- Go `DBStore.GetAdvertisementByID`: `SELECT ... FROM advertisements WHERE
id = ?`, `ErrNotFound` when no row comes back. -/
def GetAdvertisementByID (s : DB) (adID : Int) : Except StoreError Advertisement :=
  match s.advertisements.find? (fun a => a.ID == adID) with
  | some a => .ok a
  | none => .error .ErrNotFound

/-- Go `DBStore.UpdateAdvertisementStatus`: `UPDATE advertisements SET status
= ? WHERE id = ?`, `ErrNotFound` when `RowsAffected` is 0, which is the case
when no row has the id and also when the row already has that status. -/
def UpdateAdvertisementStatus (s : DB) (adID : Int) (status : String) :
    Except StoreError Unit × DB :=
  let wh : Advertisement → Bool := fun a => a.ID == adID
  let set : Advertisement → Advertisement := fun a => { a with Status := status }
  let n := rowsAffected s.advertisements wh set
  let rows := sqlUpdate s.advertisements wh set
  let s' : DB := { s with advertisements := rows }
  if n = 0 then (.error .ErrNotFound, s') else (.ok (), s')

/-- Go `DBStore.CreateAdCampaign`: `INSERT INTO ad_campaigns (advertisement_id,
user_id, start_date, end_date, status)`, returning `LastInsertId`; the two
timestamps take the insertion time. -/
def CreateAdCampaign (s : DB) (now : Time) (campaign : AdCampaign) : Except StoreError Int × DB :=
  let id := s.ad_campaigns_seq
  let row : AdCampaign :=
    { ID := id, AdvertisementID := campaign.AdvertisementID, UserID := campaign.UserID,
      StartDate := campaign.StartDate, EndDate := campaign.EndDate, Status := campaign.Status,
      CreatedAt := now, UpdatedAt := now }
  (.ok id, { s with ad_campaigns := s.ad_campaigns ++ [row], ad_campaigns_seq := id + 1 })

/-- Go `DBStore.GetAdCampaignByID`: `SELECT ... FROM ad_campaigns WHERE id = ?`,
`ErrNotFound` when no row comes back. -/
def GetAdCampaignByID (s : DB) (campaignID : Int) : Except StoreError AdCampaign :=
  match s.ad_campaigns.find? (fun c => c.ID == campaignID) with
  | some c => .ok c
  | none => .error .ErrNotFound

/-- Go `DBStore.UpdateAdCampaignStatus`: `UPDATE ad_campaigns SET status = ?
WHERE id = ?`, `ErrNotFound` when `RowsAffected` is 0, which is the case when
no row has the id and also when the row already has that status. -/
def UpdateAdCampaignStatus (s : DB) (campaignID : Int) (status : String) :
    Except StoreError Unit × DB :=
  let wh : AdCampaign → Bool := fun c => c.ID == campaignID
  let set : AdCampaign → AdCampaign := fun c => { c with Status := status }
  let n := rowsAffected s.ad_campaigns wh set
  let rows := sqlUpdate s.ad_campaigns wh set
  let s' : DB := { s with ad_campaigns := rows }
  if n = 0 then (.error .ErrNotFound, s') else (.ok (), s')

/-- Go `DBStore.UpdateAdCampaignStatusByUser`: `UPDATE ad_campaigns SET status
= ?, updated_at = ? WHERE id = ? AND user_id = ?`, `ErrNotFound` when
`RowsAffected` is 0.  The WHERE clause names the id and the owner only. -/
def UpdateAdCampaignStatusByUser (s : DB) (now : Time) (campaignID : Int) (userID : Int)
    (newStatus : String) : Except StoreError Unit × DB :=
  let wh : AdCampaign → Bool := fun c => c.ID == campaignID && c.UserID == userID
  let set : AdCampaign → AdCampaign := fun c => { c with Status := newStatus, UpdatedAt := now }
  let n := rowsAffected s.ad_campaigns wh set
  let rows := sqlUpdate s.ad_campaigns wh set
  let s' : DB := { s with ad_campaigns := rows }
  if n = 0 then (.error .ErrNotFound, s') else (.ok (), s')

/-- Go `DBStore.LogAdEvent`: `INSERT INTO ad_events (event_type,
advertisement_id, campaign_id, user_id, event_timestamp)`.  When the statement
fails (`dbOK = false`) nothing is written and the wrapped error is returned. -/
def LogAdEvent (s : DB) (dbOK : Bool) (event : AdEvent) : Except StoreError Unit × DB :=
  if dbOK then
    let row : AdEvent :=
      { ID := s.ad_events_seq, EventType := event.EventType,
        AdvertisementID := event.AdvertisementID, CampaignID := event.CampaignID,
        UserID := event.UserID, EventTimestamp := event.EventTimestamp }
    (.ok (), { s with ad_events := s.ad_events ++ [row], ad_events_seq := s.ad_events_seq + 1 })
  else
    (.error (.Errorf "store: failed to log ad event"), s)

/-- Go `DBStore.GetRandomActiveCampaign`: `SELECT ... FROM ad_campaigns WHERE
status = 'Active' AND start_date <= NOW() AND end_date >= NOW() ORDER BY
RAND() LIMIT 1`, `ErrNotFound` when no row comes back. -/
def GetRandomActiveCampaign (s : DB) (now : Time) (rand : Nat) : Except StoreError AdCampaign :=
  let rows := s.ad_campaigns.filter
    (fun c => c.Status == "Active" && decide (c.StartDate ≤ now) && decide (c.EndDate ≥ now))
  match rows[rand % rows.length]? with
  | some c => .ok c
  | none => .error .ErrNotFound

/-- The campaign stored under `id`. -/
def campaignByID (s : DB) (id : Int) : Option AdCampaign :=
  s.ad_campaigns.find? (fun c => c.ID == id)

/-- The advertisement stored under `id`. -/
def advertisementByID (s : DB) (id : Int) : Option Advertisement :=
  s.advertisements.find? (fun a => a.ID == id)

end store

namespace float64

/-- The Go comparison `x < 0`. -/
def lt0 : F64 → Bool
  | .fin neg m _ => neg && m != 0
  | .inf neg => neg
  | .nan => false

end float64

namespace handlers

open models store float64

/-- A path value or query parameter after the handler's parsing step
(`strconv.Atoi`, `strconv.ParseFloat`, `time.Parse`): not supplied (the empty
string), supplied but rejected by the parser, or parsed. -/
inductive Param (α : Type) where
  | absent
  | invalid
  | valid (v : α)
deriving DecidableEq, Repr

/-- What a handler writes back: the HTTP status code and the payload that
matters to the caller (the `data` of the JSON body, or the `Location` of a
redirect).  Messages are left out. -/
structure Reply (α : Type) where
  Code : Nat
  Data : Option α := none
deriving DecidableEq, Repr

/-- Go `unicode.IsSpace`. -/
def isSpace (c : Char) : Bool :=
  let n := c.toNat
  (0x09 ≤ n && n ≤ 0x0D) || n == 0x20 || n == 0x85 || n == 0xA0 || n == 0x1680 ||
    (0x2000 ≤ n && n ≤ 0x200A) || n == 0x2028 || n == 0x2029 || n == 0x202F ||
    n == 0x205F || n == 0x3000

/-- Go `strings.TrimSpace`. -/
def TrimSpace (str : String) : String :=
  String.mk ((str.data.dropWhile isSpace).reverse.dropWhile isSpace).reverse

/-- Go `handlers.SubmitAdRequest`. -/
structure SubmitAdRequest where
  Title : String
  ImageURL : String
  TargetURL : String
deriving DecidableEq, Repr

/-- Go `Handler.SubmitAdHandler` for an authenticated POST; `body` is the
decoded request body, `none` when decoding fails. -/
def SubmitAdHandler (s : DB) (userID : Int) (body : Option SubmitAdRequest) : Reply Int × DB :=
  match body with
  | none => ({ Code := 400 }, s)
  | some req =>
    if TrimSpace req.Title == "" then ({ Code := 400 }, s)
    else if TrimSpace req.ImageURL == "" then ({ Code := 400 }, s)
    else if TrimSpace req.TargetURL == "" then ({ Code := 400 }, s)
    else
      let ad : Advertisement :=
        { ID := 0, Title := req.Title, ImageURL := req.ImageURL, TargetURL := req.TargetURL,
          UserID := userID, Status := "Pending" }
      match CreateAdvertisement s ad with
      | (.error _, s1) => ({ Code := 500 }, s1)
      | (.ok newAdID, s1) => ({ Code := 201, Data := some newAdID }, s1)

/-- Go `Handler.ReviewAdHandler` for an administrator's PATCH; `id` is the path
value `id` after `strconv.Atoi`, `body` the decoded `ReviewAdRequest.Status`,
`none` when decoding fails. -/
def ReviewAdHandler (s : DB) (id : Param Int) (body : Option String) : Reply Unit × DB :=
  match id with
  | .absent => ({ Code := 400 }, s)
  | .invalid => ({ Code := 400 }, s)
  | .valid adID =>
    if adID ≤ 0 then ({ Code := 400 }, s)
    else
      match GetAdvertisementByID s adID with
      | .error .ErrNotFound => ({ Code := 404 }, s)
      | .error _ => ({ Code := 500 }, s)
      | .ok _ =>
        match body with
        | none => ({ Code := 400 }, s)
        | some status =>
          let newStatus := TrimSpace status
          if newStatus != "Approved" && newStatus != "Rejected" then ({ Code := 400 }, s)
          else
            match UpdateAdvertisementStatus s adID newStatus with
            | (.error .ErrNotFound, s1) => ({ Code := 404 }, s1)
            | (.error _, s1) => ({ Code := 500 }, s1)
            | (.ok _, s1) => ({ Code := 200 }, s1)

/-- Go `models.CampaignRequestData` after the two `time.Parse` calls: each
date is the calendar day number it denotes, `none` when `time.Parse` rejects
the string. -/
structure CampaignRequestData where
  AdvertisementID : Int
  StartDate : Option Int
  EndDate : Option Int
deriving DecidableEq, Repr

/-- Go `Handler.RequestCampaignHandler` for an authenticated POST; `body` is
the decoded request body, `none` when decoding fails. -/
def RequestCampaignHandler (s : DB) (now : Time) (userID : Int)
    (body : Option CampaignRequestData) : Reply Int × DB :=
  match body with
  | none => ({ Code := 400 }, s)
  | some reqData =>
    if reqData.AdvertisementID ≤ 0 then ({ Code := 400 }, s)
    else
      match reqData.StartDate with
      | none => ({ Code := 400 }, s)
      | some startDay =>
        match reqData.EndDate with
        | none => ({ Code := 400 }, s)
        | some endDay =>
          let startDate := dayStart startDay
          let endDate := dayStart endDay
          if endDate < startDate then ({ Code := 400 }, s)
          else
            match GetAdvertisementByID s reqData.AdvertisementID with
            | .error .ErrNotFound => ({ Code := 404 }, s)
            | .error _ => ({ Code := 500 }, s)
            | .ok adCreative =>
              if adCreative.UserID != userID then ({ Code := 403 }, s)
              else if adCreative.Status != "Approved" then ({ Code := 400 }, s)
              else
                let campaign : AdCampaign :=
                  { ID := 0, AdvertisementID := reqData.AdvertisementID, UserID := userID,
                    StartDate := startDate, EndDate := endDate, Status := "Pending" }
                match CreateAdCampaign s now campaign with
                | (.error _, s1) => ({ Code := 500 }, s1)
                | (.ok campaignID, s1) => ({ Code := 201, Data := some campaignID }, s1)

/-- Go `Handler.ReviewCampaignHandler` for an administrator's PATCH.  With an
empty path value the handler returns without writing anything, which the HTTP
server sends as an empty 200. -/
def ReviewCampaignHandler (s : DB) (id : Param Int) (body : Option String) : Reply Unit × DB :=
  match id with
  | .absent => ({ Code := 200 }, s)
  | .invalid => ({ Code := 400 }, s)
  | .valid campaignID =>
    if campaignID ≤ 0 then ({ Code := 400 }, s)
    else
      match body with
      | none => ({ Code := 400 }, s)
      | some status =>
        let newStatus := TrimSpace status
        if newStatus != "Approved" && newStatus != "Rejected" then ({ Code := 400 }, s)
        else
          match UpdateAdCampaignStatus s campaignID newStatus with
          | (.error .ErrNotFound, s1) => ({ Code := 404 }, s1)
          | (.error _, s1) => ({ Code := 500 }, s1)
          | (.ok _, s1) => ({ Code := 200 }, s1)

/-- Go `Handler.CancelCampaignHandler` for an authenticated PATCH. -/
def CancelCampaignHandler (s : DB) (now : Time) (userID : Int) (id : Param Int) :
    Reply Unit × DB :=
  match id with
  | .absent => ({ Code := 400 }, s)
  | .invalid => ({ Code := 400 }, s)
  | .valid campaignID =>
    if campaignID ≤ 0 then ({ Code := 400 }, s)
    else
      match UpdateAdCampaignStatusByUser s now campaignID userID "Cancelled" with
      | (.error .ErrNotFound, s1) => ({ Code := 404 }, s1)
      | (.error _, s1) => ({ Code := 500 }, s1)
      | (.ok _, s1) => ({ Code := 200 }, s1)

/-- The `adResponse` that `GetAdHandler` returns to the ad slot. -/
structure AdResponse where
  CampaignID : Int
  AdvertisementID : Int
  Title : String
  ImageURL : String
  TargetURL : String
deriving DecidableEq, Repr

/-- Go `Handler.GetAdHandler` for a GET: a campaign is drawn, its creative
loaded, an Impression logged (a logging failure is only written to the log),
and the creative returned.  With no campaign to serve the answer is 200
without data. -/
def GetAdHandler (s : DB) (now : Time) (rand : Nat) (dbOK : Bool) : Reply AdResponse × DB :=
  match GetRandomActiveCampaign s now rand with
  | .error .ErrNotFound => ({ Code := 200 }, s)
  | .error _ => ({ Code := 500 }, s)
  | .ok campaign =>
    match GetAdvertisementByID s campaign.AdvertisementID with
    | .error _ => ({ Code := 500 }, s)
    | .ok ad =>
      let impressionEvent : AdEvent :=
        { ID := 0, EventType := "Impression", AdvertisementID := ad.ID,
          CampaignID := campaign.ID, UserID := campaign.UserID, EventTimestamp := now }
      let s1 := (LogAdEvent s dbOK impressionEvent).2
      ({ Code := 200,
         Data := some { CampaignID := campaign.ID, AdvertisementID := ad.ID, Title := ad.Title,
                        ImageURL := ad.ImageURL, TargetURL := ad.TargetURL } }, s1)

/-- Go `Handler.AdClickHandler` for a GET; the two ids are the path values
after `strconv.Atoi`, `none` when it fails.  On success the reply is the 302
redirect and `Data` its `Location`. -/
def AdClickHandler (s : DB) (now : Time) (dbOK : Bool) (campaignIDArg adIDArg : Option Int) :
    Reply String × DB :=
  match campaignIDArg, adIDArg with
  | some campaignID, some adID =>
    if campaignID ≤ 0 || adID ≤ 0 then ({ Code := 400 }, s)
    else
      match GetAdCampaignByID s campaignID with
      | .error _ => ({ Code := 404 }, s)
      | .ok campaign =>
        match GetAdvertisementByID s adID with
        | .error _ => ({ Code := 404 }, s)
        | .ok ad =>
          if campaign.AdvertisementID != ad.ID then ({ Code := 400 }, s)
          else
            let clickEvent : AdEvent :=
              { ID := 0, EventType := "Click", AdvertisementID := adID,
                CampaignID := campaignID, UserID := campaign.UserID, EventTimestamp := now }
            let s1 := (LogAdEvent s dbOK clickEvent).2
            let targetURL := ad.TargetURL
            if targetURL == "" then ({ Code := 500 }, s1)
            else ({ Code := 302, Data := some targetURL }, s1)
  | _, _ => ({ Code := 400 }, s)

end handlers

namespace handlers

open models store float64

/-- The query parameters of `GET /recharges` after parsing: the two dates as
calendar day numbers, the two amounts in major units, and the raw `status`
(`none` when it is empty). -/
structure RechargeHistoryQuery where
  start_date : Param Int := .absent
  end_date : Param Int := .absent
  min_amount : Param F64 := .absent
  max_amount : Param F64 := .absent
  status : Option String := none
deriving DecidableEq, Repr

/-- A date parameter of a listing: absent gives no bound, a string that
`time.Parse` rejects is answered 400, a day is turned into the bound by
`adjust`. -/
def dateBound (p : Param Int) (adjust : Time → Time) : Except Nat (Option Time) :=
  match p with
  | .absent => .ok none
  | .invalid => .error 400
  | .valid d => .ok (some (adjust (dayStart d)))

/-- An amount parameter of `GET /recharges`: absent gives no bound, a string
that `strconv.ParseFloat` rejects or a negative amount is answered 400, an
amount in major units is converted with `int64(math.Round(x * 100))`. -/
def amountBound (p : Param F64) : Except Nat (Option Int) :=
  match p with
  | .absent => .ok none
  | .invalid => .error 400
  | .valid x => if lt0 x then .error 400 else .ok (some (amountInCents x))

/-- The check `a != nil && b != nil && *b < *a` on two optional bounds. -/
def crossed (a b : Option Int) : Bool :=
  match a, b with
  | some x, some y => decide (y < x)
  | _, _ => false

/-- The status parameter of a listing: empty gives no bound, otherwise the
normalized status must be one of `valid`, else 400. -/
def statusBound (normalize : String → String) (valid : List String) (p : Option String) :
    Except Nat (Option String) :=
  match p with
  | none => .ok none
  | some status =>
    let normalizedStatus := normalize status
    if valid.contains normalizedStatus then .ok (some normalizedStatus) else .error 400

/-- `GetRechargeHistoryHandler`, step 2: the filter the handler builds from the
query, or the status code of the error reply, checked in the handler's order.
The start date is truncated to its day, the end date is moved to the last
instant of its day, the amounts are converted to minor units.  `normalize` is
`strings.Title(strings.ToLower(...))`. -/
def rechargeHistoryFilters (normalize : String → String) (q : RechargeHistoryQuery) :
    Except Nat RechargeHistoryFilters :=
  match dateBound q.start_date truncateDay with
  | .error code => .error code
  | .ok StartDate =>
    match dateBound q.end_date endOfDay with
    | .error code => .error code
    | .ok EndDate =>
      if crossed StartDate EndDate then .error 400
      else
        match amountBound q.min_amount with
        | .error code => .error code
        | .ok MinAmount =>
          match amountBound q.max_amount with
          | .error code => .error code
          | .ok MaxAmount =>
            if crossed MinAmount MaxAmount then .error 400
            else
              match statusBound normalize ["Success", "Failed", "Pending"] q.status with
              | .error code => .error code
              | .ok Status =>
                .ok { StartDate := StartDate, EndDate := EndDate, MinAmount := MinAmount,
                      MaxAmount := MaxAmount, Status := Status }

/-- Go `Handler.GetRechargeHistoryHandler` for an authenticated GET. -/
def GetRechargeHistoryHandler (s : DB) (userID : Int) (normalize : String → String)
    (q : RechargeHistoryQuery) : Reply (List RechargeTransaction) :=
  match rechargeHistoryFilters normalize q with
  | .error code => { Code := code }
  | .ok filters =>
    match GetUserRechargeHistory s userID filters with
    | .error _ => { Code := 500 }
    | .ok history => { Code := 200, Data := some history }

/-- The query parameters of `GET /my-campaigns` and of `GET /invoices` after
parsing. -/
structure ListingQuery where
  start_date : Param Int := .absent
  end_date : Param Int := .absent
  status : Option String := none
deriving DecidableEq, Repr

/-- `GetUserCampaignsHandler`, step 2: the filter built from the query, or the
status code of the error reply.  Both dates are passed on as parsed. -/
def campaignFilters (normalize : String → String) (q : ListingQuery) :
    Except Nat CampaignFilters :=
  match dateBound q.start_date id with
  | .error code => .error code
  | .ok StartDate =>
    match dateBound q.end_date id with
    | .error code => .error code
    | .ok EndDate =>
      if crossed StartDate EndDate then .error 400
      else
        match statusBound normalize
            ["Pending", "Approved", "Rejected", "Cancelled", "Active", "Completed"]
            q.status with
        | .error code => .error code
        | .ok Status => .ok { StartDate := StartDate, EndDate := EndDate, Status := Status }

/-- Go `Handler.GetUserCampaignsHandler` for an authenticated GET. -/
def GetUserCampaignsHandler (s : DB) (userID : Int) (normalize : String → String)
    (q : ListingQuery) : Reply (List CampaignWithAdDetails) :=
  match campaignFilters normalize q with
  | .error code => { Code := code }
  | .ok filters =>
    match GetAdCampaignsByUserID s userID filters with
    | .error _ => { Code := 500 }
    | .ok campaigns => { Code := 200, Data := some campaigns }

/-- `GetUserInvoicesHandler`, step 2: a date that does not parse is ignored,
and the status is passed on as given. -/
def invoiceFilters (q : ListingQuery) : InvoiceRequestFilter :=
  { Status := q.status,
    StartDate := match q.start_date with
      | .valid d => some (dayStart d)
      | _ => none,
    EndDate := match q.end_date with
      | .valid d => some (dayStart d)
      | _ => none }

/-- Go `Handler.GetUserInvoicesHandler` for an authenticated GET. -/
def GetUserInvoicesHandler (s : DB) (userID : Int) (q : ListingQuery) :
    Reply (List InvoiceRequest) :=
  match GetInvoiceRequestsByUserID s userID (invoiceFilters q) with
  | .error _ => { Code := 500 }
  | .ok invoices => { Code := 200, Data := some invoices }

end handlers

namespace spec

open models

/-- The rows a recharge-history query asks for: the transactions of `userID`
that satisfy every bound that is set. -/
def HistoryMatch (userID : Int) (f : RechargeHistoryFilters) (r : RechargeTransaction) : Prop :=
  r.UserID = userID ∧
  (∀ st, f.Status = some st → r.Status = st) ∧
  (∀ t, f.StartDate = some t → t ≤ r.CreatedAt) ∧
  (∀ t, f.EndDate = some t → r.CreatedAt ≤ t) ∧
  (∀ a, f.MinAmount = some a → a ≤ r.Amount) ∧
  (∀ a, f.MaxAmount = some a → r.Amount ≤ a)

end spec

namespace examples

open models store float64 handlers

/-- A store with one approved creative of user 1 and campaigns of user 1 in
several states.  Day 10 starts at `dayStart 10`; campaign 3 ends at noon of
day 10, the others end at midnight. -/
def campaignDB : DB :=
  { users := [{ ID := 1, Username := "ann" }, { ID := 2, Username := "bob" }],
    users_seq := 3,
    advertisements :=
      [{ ID := 1, Title := "Shoes", ImageURL := "https://img.example/shoes.png",
         TargetURL := "https://shop.example/shoes", UserID := 1, Status := "Approved" },
       { ID := 2, Title := "Hats", ImageURL := "https://img.example/hats.png",
         TargetURL := "", UserID := 2, Status := "Pending" }],
    advertisements_seq := 3,
    ad_campaigns :=
      [{ ID := 1, AdvertisementID := 1, UserID := 1, StartDate := dayStart 5,
         EndDate := dayStart 10, Status := "Approved", CreatedAt := 100, UpdatedAt := 100 },
       { ID := 2, AdvertisementID := 1, UserID := 1, StartDate := dayStart 5,
         EndDate := dayStart 10, Status := "Rejected", CreatedAt := 200, UpdatedAt := 200 },
       { ID := 3, AdvertisementID := 1, UserID := 1, StartDate := dayStart 5,
         EndDate := dayStart 10 + 43200000000000, Status := "Active",
         CreatedAt := 300, UpdatedAt := 300 },
       { ID := 4, AdvertisementID := 1, UserID := 1, StartDate := dayStart 5,
         EndDate := dayStart 10, Status := "Pending", CreatedAt := 400, UpdatedAt := 400 }],
    ad_campaigns_seq := 5 }

end examples

namespace examples

open models store float64 handlers

/-- A store for the campaign listing of user 1, queried with end date 10:
campaign 1 ends at the start of day 10; campaign 2 ends at noon of day 10;
campaign 3 is created one hour into day 10 and runs from day 11 to day 12. -/
def listingDB : DB :=
  { users := [{ ID := 1, Username := "ann" }],
    users_seq := 2,
    advertisements :=
      [{ ID := 1, Title := "Shoes", ImageURL := "https://img.example/shoes.png",
         TargetURL := "https://shop.example/shoes", UserID := 1, Status := "Approved" }],
    advertisements_seq := 2,
    ad_campaigns :=
      [{ ID := 1, AdvertisementID := 1, UserID := 1, StartDate := dayStart 5,
         EndDate := dayStart 10, Status := "Approved",
         CreatedAt := dayStart 4, UpdatedAt := dayStart 4 },
       { ID := 2, AdvertisementID := 1, UserID := 1, StartDate := dayStart 5,
         EndDate := dayStart 10 + 43200000000000, Status := "Approved",
         CreatedAt := dayStart 4 + 1, UpdatedAt := dayStart 4 + 1 },
       { ID := 3, AdvertisementID := 1, UserID := 1, StartDate := dayStart 11,
         EndDate := dayStart 12, Status := "Pending",
         CreatedAt := dayStart 10 + 3600000000000, UpdatedAt := dayStart 10 + 3600000000000 }],
    ad_campaigns_seq := 4 }

/-- The end-to-end scenario, step by step: user 1 recharges 50.00, submits a
creative, the administrator approves it, the user requests a campaign for days
5 to 10, the administrator approves the campaign. -/
def e2eRecharged : DB := (RechargeHandler freshDB 10 1 (.fin false 50 0) true).2

/-- The scenario after the creative has been submitted. -/
def e2eSubmitted : DB :=
  (SubmitAdHandler e2eRecharged 1
    (some { Title := "Shoes", ImageURL := "https://img.example/shoes.png",
            TargetURL := "https://shop.example/shoes" })).2

/-- The scenario after the creative has been approved. -/
def e2eAdApproved : DB := (ReviewAdHandler e2eSubmitted (.valid 1) (some "Approved")).2

/-- The scenario after the campaign has been requested. -/
def e2eRequested : DB :=
  (RequestCampaignHandler e2eAdApproved 30 1
    (some { AdvertisementID := 1, StartDate := some 5, EndDate := some 10 })).2

/-- The scenario after the campaign has been approved. -/
def e2eApproved : DB := (ReviewCampaignHandler e2eRequested (.valid 1) (some "Approved")).2

/-- The scenario after the ad slot has asked for an ad at the start of day 7. -/
def e2eServed : DB := (GetAdHandler e2eApproved (dayStart 7) 0 true).2

/-- The scenario after the click on campaign 1 and creative 1. -/
def e2eClicked : DB := (AdClickHandler e2eServed (dayStart 7 + 1) true (some 1) (some 1)).2

end examples

namespace spec

open models store handlers

/-- The campaign requests that lead to a new campaign: a positive creative id,
two well-formed dates with the end not before the start, and a creative that
exists, belongs to the requester and is Approved. -/
def CampaignRequestOK (s : DB) (userID : Int) (req : CampaignRequestData) : Prop :=
  0 < req.AdvertisementID ∧
  ∃ sd ed, req.StartDate = some sd ∧ req.EndDate = some ed ∧ sd ≤ ed ∧
    ∃ ad, advertisementByID s req.AdvertisementID = some ad ∧
      ad.UserID = userID ∧ ad.Status = "Approved"

end spec
/-! ## Performance summary, invoices and the request log

The embedding of `GetAdPerformanceSummary`, `GetAdPerformanceHandler`,
`GetSuccessfulRechargeTotalInRange`, `CreateInvoiceRequest` and
`RequestInvoiceHandler`, the float64 operations the click-through rate needs,
and sequences of requests served one after the other.
-/

namespace float64

/-- The Go conversion `float64(n)` of an integer: the nearest float64, ties to
even. -/
def ofInt64 (n : Int) : F64 :=
  ofRat (decide (n < 0)) n.natAbs 1

/-- Float64 division `x / y`: the exact quotient, rounded once; a finite
non-zero value over zero is an infinity, zero over zero is NaN. -/
def div : F64 → F64 → F64
  | .fin n1 m1 e1, .fin n2 m2 e2 =>
    if m2 = 0 then (if m1 = 0 then .nan else .inf (xor n1 n2))
    else
      let e := e1 - e2
      if 0 ≤ e then ofRat (xor n1 n2) (m1 * 2 ^ e.toNat) m2
      else ofRat (xor n1 n2) m1 (m2 * 2 ^ (-e).toNat)
  | .fin n1 _ _, .inf n2 => .fin (xor n1 n2) 0 0
  | .inf n1, .fin n2 _ _ => .inf (xor n1 n2)
  | _, _ => .nan

end float64

namespace models

open float64

/-- Go `models.AdPerformanceFilter`. -/
structure AdPerformanceFilter where
  StartDate : Option Time := none
  EndDate : Option Time := none
  CampaignID : Option Int := none
deriving DecidableEq, Repr

/-- Go `models.AdPerformanceSummary`. -/
structure AdPerformanceSummary where
  CampaignID : Int
  CampaignName : String
  AdvertisementID : Int
  AdTitle : String
  Impressions : Int
  Clicks : Int
  CTR : F64 := .fin false 0 0
deriving DecidableEq, Repr

/-- Go `models.InvoiceRequestPayload` after the two `time.Parse` calls: each
date is the calendar day number it denotes, `none` when `time.Parse` rejects
the string. -/
structure InvoiceRequestPayload where
  StartDate : Option Int
  EndDate : Option Int
  BillingTitle : String
  TaxID : String := ""
  BillingAddress : String
deriving DecidableEq, Repr

end models

namespace store

open models

/-- Rows of `ad_events evt JOIN ad_campaigns camp ON evt.campaign_id = camp.id
JOIN advertisements adv ON evt.advertisement_id = adv.id`. -/
def eventsJoinCampaignsAds (s : DB) : List (AdEvent × AdCampaign × Advertisement) :=
  s.ad_events.flatMap (fun evt =>
    (s.ad_campaigns.filter (fun camp => evt.CampaignID == camp.ID)).flatMap (fun camp =>
      (s.advertisements.filter (fun adv => evt.AdvertisementID == adv.ID)).map (fun adv =>
        (evt, camp, adv))))

/-- The joined row of an event in a store whose campaign ids and
advertisement ids are unique: the event with its campaign and its
advertisement, when both exist. -/
def joinRow (s : DB) (evt : AdEvent) : Option (AdEvent × AdCampaign × Advertisement) :=
  match campaignByID s evt.CampaignID, advertisementByID s evt.AdvertisementID with
  | some camp, some adv => some (evt, camp, adv)
  | _, _ => none

/-- The `GROUP BY evt.campaign_id, camp.name, evt.advertisement_id, adv.title`
key of a joined row.  `campaignName` reads the column `name` of `ad_campaigns`,
which `models.AdCampaign` does not carry. -/
def groupKey (campaignName : AdCampaign → String) (r : AdEvent × AdCampaign × Advertisement) :
    Int × String × Int × String :=
  (r.1.CampaignID, campaignName r.2.1, r.1.AdvertisementID, r.2.2.Title)

/-- The aggregate `SUM(CASE WHEN evt.event_type = eventType THEN 1 ELSE 0 END)`
over the rows of one group. -/
def sumCase (campaignName : AdCampaign → String)
    (rows : List (AdEvent × AdCampaign × Advertisement)) (key : Int × String × Int × String)
    (eventType : String) : Int :=
  ((rows.filter (fun r => groupKey campaignName r == key)).map
    (fun r => if r.1.EventType == eventType then (1 : Int) else 0)).sum

/-- Group keys in the order of `ORDER BY evt.campaign_id, evt.advertisement_id`. -/
def orderByCampaignAd (keys : List (Int × String × Int × String)) :
    List (Int × String × Int × String) :=
  keys.insertionSort (fun a b => a.1 < b.1 ∨ (a.1 = b.1 ∧ a.2.2.1 ≤ b.2.2.1))

/-- Go `DBStore.GetAdPerformanceSummary`: the events of the user, filtered by
the optional start date, end date (moved to the last instant of its day) and
campaign, joined with their campaign and advertisement, grouped, counted by
event type, and ordered by campaign and advertisement.  The CTR is left at its
zero value. -/
def GetAdPerformanceSummary (s : DB) (campaignName : AdCampaign → String) (userID : Int)
    (filters : AdPerformanceFilter) : Except StoreError (List AdPerformanceSummary) :=
  let conditions : List (AdEvent × AdCampaign × Advertisement → Bool) :=
    [fun r => r.1.UserID == userID]
    ++ optCond filters.StartDate (fun t r => decide (r.1.EventTimestamp ≥ t))
    ++ optCond filters.EndDate (fun t r => decide (r.1.EventTimestamp ≤ endOfDay t))
    ++ optCond filters.CampaignID (fun c r => r.1.CampaignID == c)
  let rows := sqlWhere conditions (eventsJoinCampaignsAds s)
  let groups := orderByCampaignAd ((rows.map (groupKey campaignName)).dedup)
  .ok (groups.map (fun key =>
    { CampaignID := key.1, CampaignName := key.2.1, AdvertisementID := key.2.2.1,
      AdTitle := key.2.2.2,
      Impressions := sumCase campaignName rows key "Impression",
      Clicks := sumCase campaignName rows key "Click" }))

/-- Go `DBStore.GetSuccessfulRechargeTotalInRange`: `SELECT
COALESCE(SUM(amount), 0) FROM recharge_transactions WHERE user_id = ? AND
status = 'Success' AND created_at >= ? AND created_at <= ?`, the upper bound
being the last instant of the day of `endDate`. -/
def GetSuccessfulRechargeTotalInRange (s : DB) (userID : Int) (startDate endDate : Time) :
    Except StoreError Int :=
  let endOfDay := endOfDay endDate
  let rows := sqlWhere
    [fun r => r.UserID == userID, fun r => r.Status == "Success",
     fun r => decide (r.CreatedAt ≥ startDate), fun r => decide (r.CreatedAt ≤ endOfDay)]
    s.recharge_transactions
  .ok (rows.map (fun r => r.Amount)).sum

/-- Go `DBStore.CreateInvoiceRequest`: one row is inserted with the nine
columns of the statement, `tax_id` being NULL when `req.TaxID` is nil or empty;
the columns the statement does not name stay NULL.  Returns the new id. -/
def CreateInvoiceRequest (s : DB) (req : InvoiceRequest) : Except StoreError Int × DB :=
  let taxIDArg : Option String :=
    match req.TaxID with
    | some t => if t != "" then some t else none
    | none => none
  let row : InvoiceRequest :=
    { ID := s.invoice_requests_seq, UserID := req.UserID, Status := req.Status,
      InvoicePeriodStart := req.InvoicePeriodStart, InvoicePeriodEnd := req.InvoicePeriodEnd,
      TotalAmount := req.TotalAmount, BillingTitle := req.BillingTitle, TaxID := taxIDArg,
      BillingAddress := req.BillingAddress, RequestedAt := req.RequestedAt }
  (.ok s.invoice_requests_seq,
   { s with invoice_requests := s.invoice_requests ++ [row],
            invoice_requests_seq := s.invoice_requests_seq + 1 })

end store

namespace handlers

open models store float64

/-- `GetAdPerformanceHandler`, step 4, for one row: the click-through rate in
percent, `math.Round((float64(Clicks)/float64(Impressions))*100*100) / 100`
when there are impressions and 0 otherwise. -/
def withCTR (row : AdPerformanceSummary) : AdPerformanceSummary :=
  if row.Impressions > 0 then
    { row with
      CTR := div (mathRound (mul (mul (div (ofInt64 row.Clicks) (ofInt64 row.Impressions))
        (.fin false 100 0)) (.fin false 100 0))) (.fin false 100 0) }
  else
    { row with CTR := .fin false 0 0 }

/-- The query parameters of `GET /performance` after parsing: the two dates as
calendar day numbers and the campaign id after `strconv.Atoi`. -/
structure PerformanceQuery where
  start_date : Param Int := .absent
  end_date : Param Int := .absent
  campaign_id : Param Int := .absent
deriving DecidableEq, Repr

/-- A date parameter of `GET /performance`: a string that `time.Parse` rejects
is skipped like an absent one. -/
def lenientDate (p : Param Int) : Option Time :=
  match p with
  | .valid d => some (dayStart d)
  | _ => none

/-- `GetAdPerformanceHandler`, step 2: the filter built from the query, or the
status code of the error reply.  Without dates the range is the last seven days
up to the end of today; with a start date only it ends now; an end date alone is
refused. -/
def performanceFilter (now : Time) (q : PerformanceQuery) : Except Nat AdPerformanceFilter :=
  let StartDate := lenientDate q.start_date
  let EndDate := lenientDate q.end_date
  if crossed StartDate EndDate then .error 400
  else
    let range : Except Nat (Option Time × Option Time) :=
      match StartDate, EndDate with
      | none, none =>
        let sevenDaysAgo := truncateDay (now - 7 * nsPerDay)
        let todayEnd := truncateDay now + nsPerDay - 1
        .ok (some sevenDaysAgo, some todayEnd)
      | some a, none => .ok (some a, some now)
      | none, some _ => .error 400
      | some a, some b => .ok (some a, some b)
    match range with
    | .error code => .error code
    | .ok (StartDate, EndDate) =>
      match q.campaign_id with
      | .absent => .ok { StartDate := StartDate, EndDate := EndDate }
      | .invalid => .error 400
      | .valid campID =>
        if campID > 0 then
          .ok { StartDate := StartDate, EndDate := EndDate, CampaignID := some campID }
        else .error 400

/-- Go `Handler.GetAdPerformanceHandler` for an authenticated GET. -/
def GetAdPerformanceHandler (s : DB) (campaignName : AdCampaign → String) (now : Time)
    (userID : Int) (q : PerformanceQuery) : Reply (List AdPerformanceSummary) :=
  match performanceFilter now q with
  | .error code => { Code := code }
  | .ok filters =>
    match GetAdPerformanceSummary s campaignName userID filters with
    | .error _ => { Code := 500 }
    | .ok summaryData => { Code := 200, Data := some (summaryData.map withCTR) }

/-- Go `Handler.RequestInvoiceHandler` for an authenticated POST; `body` is the
decoded request body, `none` when decoding fails.  On success `Data` is the
`invoice_request_id`. -/
def RequestInvoiceHandler (s : DB) (now : Time) (userID : Int)
    (body : Option InvoiceRequestPayload) : Reply Int × DB :=
  match body with
  | none => ({ Code := 400 }, s)
  | some payload =>
    if payload.BillingTitle == "" then ({ Code := 400 }, s)
    else if payload.BillingAddress == "" then ({ Code := 400 }, s)
    else
      match payload.StartDate with
      | none => ({ Code := 400 }, s)
      | some startDay =>
        match payload.EndDate with
        | none => ({ Code := 400 }, s)
        | some endDay =>
          let startDate := dayStart startDay
          let endDate := dayStart endDay
          if endDate < startDate then ({ Code := 400 }, s)
          else
            match GetSuccessfulRechargeTotalInRange s userID startDate endDate with
            | .error _ => ({ Code := 500 }, s)
            | .ok totalAmountCents =>
              if totalAmountCents ≤ 0 then ({ Code := 400 }, s)
              else
                let invoiceReq : InvoiceRequest :=
                  { ID := 0, UserID := userID, Status := "Pending",
                    InvoicePeriodStart := startDate, InvoicePeriodEnd := endDate,
                    TotalAmount := totalAmountCents, BillingTitle := payload.BillingTitle,
                    TaxID := if payload.TaxID != "" then some payload.TaxID else none,
                    BillingAddress := payload.BillingAddress, RequestedAt := now }
                match CreateInvoiceRequest s invoiceReq with
                | (.error _, s1) => ({ Code := 500 }, s1)
                | (.ok newInvoiceID, s1) => ({ Code := 201, Data := some newInvoiceID }, s1)

/-- One request to a handler that can write to the database, with its parsed
inputs. -/
inductive Request where
  | submitAd (userID : Int) (body : Option SubmitAdRequest)
  | reviewAd (id : Param Int) (body : Option String)
  | requestCampaign (now : Time) (userID : Int) (body : Option CampaignRequestData)
  | reviewCampaign (id : Param Int) (body : Option String)
  | cancelCampaign (now : Time) (userID : Int) (id : Param Int)
  | getAd (now : Time) (rand : Nat) (dbOK : Bool)
  | adClick (now : Time) (dbOK : Bool) (campaignIDArg adIDArg : Option Int)
  | recharge (now : Time) (userID : Int) (Amount : F64) (paymentSuccess : Bool)
  | requestInvoice (now : Time) (userID : Int) (body : Option InvoiceRequestPayload)

/-- The database after the handler has served the request. -/
def Request.serve (s : DB) : Request → DB
  | .submitAd userID body => (SubmitAdHandler s userID body).2
  | .reviewAd id body => (ReviewAdHandler s id body).2
  | .requestCampaign now userID body => (RequestCampaignHandler s now userID body).2
  | .reviewCampaign id body => (ReviewCampaignHandler s id body).2
  | .cancelCampaign now userID id => (CancelCampaignHandler s now userID id).2
  | .getAd now rand dbOK => (GetAdHandler s now rand dbOK).2
  | .adClick now dbOK campaignIDArg adIDArg => (AdClickHandler s now dbOK campaignIDArg adIDArg).2
  | .recharge now userID Amount paymentSuccess =>
    (RechargeHandler s now userID Amount paymentSuccess).2
  | .requestInvoice now userID body => (RequestInvoiceHandler s now userID body).2

/-- The database after the requests have been served one after the other. -/
def serveAll (s : DB) (reqs : List Request) : DB :=
  reqs.foldl Request.serve s

end handlers

namespace spec

open models store

/-- The successful total of the specification: the sum of the amounts of the
recharge transactions of `userID` with status Success that were created
between `start` and the last instant of the day of `stop`. -/
def successfulTotal (userID : Int) (start stop : Time) : List RechargeTransaction → Int
  | [] => 0
  | r :: rest =>
    if r.UserID = userID ∧ r.Status = "Success" ∧ start ≤ r.CreatedAt ∧
        r.CreatedAt ≤ endOfDay stop then
      r.Amount + successfulTotal userID start stop rest
    else successfulTotal userID start stop rest

/-- The click-through rate of the specification in hundredths of a percent:
`clicks * 10000 / impressions` rounded to the nearest integer, halves upward,
computed exactly; 0 without impressions.  The rate itself is this number
divided by 100. -/
def ctrHundredths (clicks impressions : Int) : Int :=
  if impressions > 0 then (2 * (clicks * 10000) + impressions) / (2 * impressions) else 0

/-- The database `s1` holds the users with their balances, the recharge
transactions, the campaigns, the advertisements and the invoice requests of
`s`. -/
def BusinessDataKept (s s1 : DB) : Prop :=
  s1.users = s.users ∧ s1.recharge_transactions = s.recharge_transactions ∧
    s1.ad_campaigns = s.ad_campaigns ∧ s1.advertisements = s.advertisements ∧
    s1.invoice_requests = s.invoice_requests

/-- The campaign statuses that the request handlers write. -/
def handlerStatuses : List String := ["Pending", "Approved", "Rejected", "Cancelled"]

/-- Every campaign carries one of the statuses the request handlers write, and
no Impression is in the event log. -/
def NothingServed (s : DB) : Prop :=
  (∀ c ∈ s.ad_campaigns, c.Status ∈ handlerStatuses) ∧
    ∀ e ∈ s.ad_events, e.EventType ≠ "Impression"

/-- An event that a performance summary of `userID` under `filters` counts:
it belongs to the user, lies between the start date and the last instant of
the day of the end date where these are set, and is of the campaign where one
is set. -/
def EventMatch (userID : Int) (filters : AdPerformanceFilter) (e : AdEvent) : Prop :=
  e.UserID = userID ∧ (∀ t, filters.StartDate = some t → t ≤ e.EventTimestamp) ∧
    (∀ t, filters.EndDate = some t → e.EventTimestamp ≤ endOfDay t) ∧
    (∀ c, filters.CampaignID = some c → e.CampaignID = c)

instance (userID : Int) (filters : AdPerformanceFilter) (e : AdEvent) :
    Decidable (EventMatch userID filters e) :=
  decidable_of_iff
    (e.UserID = userID ∧
      filters.StartDate.all (fun t => decide (t ≤ e.EventTimestamp)) = true ∧
      filters.EndDate.all (fun t => decide (e.EventTimestamp ≤ endOfDay t)) = true ∧
      filters.CampaignID.all (fun c => decide (e.CampaignID = c)) = true)
    (by
      unfold EventMatch
      cases filters.StartDate <;> cases filters.EndDate <;> cases filters.CampaignID <;>
        simp [Option.all])

/-- The number of events of type `eventType` for the pair `(campaignID,
advertisementID)` that a summary of `userID` under `filters` counts. -/
def eventCount (s : DB) (userID : Int) (filters : AdPerformanceFilter) (campaignID adID : Int)
    (eventType : String) : Int :=
  ((s.ad_events.filter (fun e => decide (EventMatch userID filters e) &&
      e.CampaignID == campaignID && e.AdvertisementID == adID &&
      e.EventType == eventType)).length : Int)

end spec

namespace examples

open models store float64 handlers

/-- The sample store with a fifth campaign, of user 2, for the creative 2
whose target URL is empty. -/
def clickDB : DB :=
  { campaignDB with
    ad_campaigns := campaignDB.ad_campaigns ++
      [{ ID := 5, AdvertisementID := 2, UserID := 2, StartDate := dayStart 5,
         EndDate := dayStart 10, Status := "Approved", CreatedAt := 500, UpdatedAt := 500 }],
    ad_campaigns_seq := 6 }

/-- A store with one Active campaign that runs from day 5 to day 10, both
dates stored at 00:00 as `RequestCampaignHandler` writes them. -/
def servingDB : DB :=
  { users := [{ ID := 1, Username := "ann" }],
    users_seq := 2,
    advertisements :=
      [{ ID := 1, Title := "Shoes", ImageURL := "https://img.example/shoes.png",
         TargetURL := "https://shop.example/shoes", UserID := 1, Status := "Approved" }],
    advertisements_seq := 2,
    ad_campaigns :=
      [{ ID := 1, AdvertisementID := 1, UserID := 1, StartDate := dayStart 5,
         EndDate := dayStart 10, Status := "Active", CreatedAt := 100, UpdatedAt := 100 }],
    ad_campaigns_seq := 2 }

/-- Recharges around the period from day 3 to day 4: of user 1 two Success
records inside the period (the second in its last nanosecond), a Failed and a
Pending one inside, and a Success one the instant after it; of user 2 a
Success record inside. -/
def invoiceDB : DB :=
  { users := [{ ID := 1, Username := "ann", Balance := 3400 },
              { ID := 2, Username := "bob", Balance := 800 }],
    users_seq := 3,
    recharge_transactions :=
      [{ ID := 1, UserID := 1, Amount := 1000, Status := "Success",
         CreatedAt := dayStart 3, UpdatedAt := dayStart 3 },
       { ID := 2, UserID := 1, Amount := 2000, Status := "Success",
         CreatedAt := dayStart 5 - 1, UpdatedAt := dayStart 5 - 1 },
       { ID := 3, UserID := 1, Amount := 5000, Status := "Failed",
         CreatedAt := dayStart 4, UpdatedAt := dayStart 4 },
       { ID := 4, UserID := 1, Amount := 700, Status := "Pending",
         CreatedAt := dayStart 4, UpdatedAt := dayStart 4 },
       { ID := 5, UserID := 1, Amount := 400, Status := "Success",
         CreatedAt := dayStart 5, UpdatedAt := dayStart 5 },
       { ID := 6, UserID := 2, Amount := 800, Status := "Success",
         CreatedAt := dayStart 4, UpdatedAt := dayStart 4 }],
    recharge_transactions_seq := 7 }

/-- An event log of user 1 over the sample store: for campaign 1 and creative
1 two Impressions and one Click, for campaign 3 and creative 1 one Impression,
one event of a campaign 9 that is not in the store, and one event of user 2. -/
def eventsDB : DB :=
  { campaignDB with
    ad_events :=
      [{ ID := 1, EventType := "Impression", AdvertisementID := 1, CampaignID := 3,
         UserID := 1, EventTimestamp := dayStart 6 },
       { ID := 2, EventType := "Impression", AdvertisementID := 1, CampaignID := 1,
         UserID := 1, EventTimestamp := dayStart 6 + 5 },
       { ID := 3, EventType := "Click", AdvertisementID := 1, CampaignID := 1,
         UserID := 1, EventTimestamp := dayStart 6 + 9 },
       { ID := 4, EventType := "Impression", AdvertisementID := 1, CampaignID := 1,
         UserID := 1, EventTimestamp := dayStart 7 },
       { ID := 5, EventType := "Impression", AdvertisementID := 1, CampaignID := 9,
         UserID := 1, EventTimestamp := dayStart 7 },
       { ID := 6, EventType := "Click", AdvertisementID := 1, CampaignID := 3,
         UserID := 2, EventTimestamp := dayStart 7 }],
    ad_events_seq := 7 }

/-- The column `name` of `ad_campaigns` in the examples: "Campaign " followed
by the id. -/
def campaignName (c : AdCampaign) : String :=
  "Campaign " ++ toString c.ID

end examples
/-! ## Theorems -/


namespace store

open models

/-- An UPDATE reports no affected row exactly when every row that satisfies
its WHERE clause already holds the new values. -/
theorem rowsAffected_eq_zero_iff_unchanged {α : Type} [DecidableEq α] (rows : List α)
    (wh : α → Bool) (set : α → α) :
    rowsAffected rows wh set = 0 ↔ ∀ r ∈ rows, wh r = true → set r = r := by
  unfold rowsAffected
  rw [List.length_eq_zero, List.filter_eq_nil_iff]
  simp

/-- An UPDATE that changes every row it matches reports no affected row
exactly when no row satisfies its WHERE clause. -/
theorem rowsAffected_eq_zero_iff {α : Type} [DecidableEq α] (rows : List α) (wh : α → Bool)
    (set : α → α) (hset : ∀ r, wh r = true → set r ≠ r) :
    rowsAffected rows wh set = 0 ↔ ∀ r ∈ rows, wh r = false := by
  rw [rowsAffected_eq_zero_iff_unchanged]
  constructor
  · intro h r hr
    by_contra hw
    rw [Bool.not_eq_false] at hw
    exact hset r hw (h r hr hw)
  · intro h r hr hw
    rw [h r hr] at hw
    cases hw

/-- An UPDATE whose WHERE clause no row satisfies reports no affected row. -/
theorem rowsAffected_of_no_match {α : Type} [DecidableEq α] (rows : List α) (wh : α → Bool)
    (set : α → α) (h : ∀ r ∈ rows, wh r = false) : rowsAffected rows wh set = 0 := by
  rw [rowsAffected_eq_zero_iff_unchanged]
  intro r hr hw
  rw [h r hr] at hw
  cases hw

/-- An UPDATE that changes a row it matches reports an affected row. -/
theorem rowsAffected_ne_zero {α : Type} [DecidableEq α] (rows : List α) (wh : α → Bool)
    (set : α → α) (r : α) (hr : r ∈ rows) (hw : wh r = true) (hset : set r ≠ r) :
    rowsAffected rows wh set ≠ 0 := by
  rw [Ne, rowsAffected_eq_zero_iff_unchanged]
  intro hall
  exact hset (hall r hr hw)

/-- An UPDATE that reports no affected row leaves the table as it is. -/
theorem sqlUpdate_of_unchanged {α : Type} (rows : List α) (wh : α → Bool) (set : α → α)
    (h : ∀ r ∈ rows, wh r = true → set r = r) : sqlUpdate rows wh set = rows := by
  unfold sqlUpdate
  induction rows with
  | nil => rfl
  | cons a l ih =>
    have hl : ∀ r ∈ l, wh r = true → set r = r := fun r hr => h r (List.mem_cons_of_mem a hr)
    by_cases ha : wh a = true
    · simp [ha, h a (List.mem_cons_self a l) ha, ih hl]
    · simp [ha, ih hl]

/-- An UPDATE whose WHERE clause no row satisfies leaves the table as it is. -/
theorem sqlUpdate_of_no_match {α : Type} (rows : List α) (wh : α → Bool) (set : α → α)
    (h : ∀ r ∈ rows, wh r = false) : sqlUpdate rows wh set = rows := by
  unfold sqlUpdate
  induction rows with
  | nil => rfl
  | cons a l ih =>
    have ha : wh a = false := h a (List.mem_cons_self a l)
    have hl : ∀ r ∈ l, wh r = false := fun r hr => h r (List.mem_cons_of_mem a hr)
    simp [ha, ih hl]

/-- Looking a row up by a key that the SET clause does not change: the row
found after the UPDATE is the row found before, rewritten if it matched. -/
theorem find?_sqlUpdate {α : Type} (rows : List α) (wh key : α → Bool) (set : α → α)
    (hkey : ∀ r, key (set r) = key r) :
    (sqlUpdate rows wh set).find? key =
      (rows.find? key).map (fun r => if wh r then set r else r) := by
  unfold sqlUpdate
  induction rows with
  | nil => rfl
  | cons a l ih =>
    by_cases hw : wh a = true
    · by_cases hk : key a = true
      · simp [List.find?, hw, hk, hkey]
      · simp [List.find?, hw, hk, hkey, ih]
    · by_cases hk : key a = true
      · simp [List.find?, hw, hk]
      · simp [List.find?, hw, hk, ih]

/-- The rows outside the WHERE clause of an UPDATE are the same before and
after, when the SET clause keeps rewritten rows inside a class `keep`
excludes. -/
theorem filter_sqlUpdate {α : Type} (rows : List α) (wh keep : α → Bool) (set : α → α)
    (h1 : ∀ r, wh r = true → keep r = false)
    (h2 : ∀ r, wh r = true → keep (set r) = false) :
    (sqlUpdate rows wh set).filter keep = rows.filter keep := by
  unfold sqlUpdate
  induction rows with
  | nil => rfl
  | cons a l ih =>
    by_cases hw : wh a = true
    · simp [List.filter, hw, h1 a hw, h2 a hw, ih]
    · simp [List.filter, hw, ih]

/-- The guarded UPDATE of `ProcessSuccessfulRecharge` changes every row it
matches: the row is Pending before and Success after. -/
theorem process_changes_row (now : Time) (rechargeRecordID : Int) (simulatedTxID : String)
    (r : RechargeTransaction)
    (h : (r.ID == rechargeRecordID && r.Status == "Pending") = true) :
    ({ r with Status := "Success", TransactionID := some simulatedTxID, UpdatedAt := now } :
      RechargeTransaction) ≠ r := by
  intro heq
  have hs := congrArg RechargeTransaction.Status heq
  simp only [Bool.and_eq_true, beq_iff_eq] at h
  rw [h.2] at hs
  simp at hs

/-- When no row with the given id is Pending, the guarded UPDATE of
`ProcessSuccessfulRecharge` touches nothing and the call is rolled back. -/
theorem ProcessSuccessfulRecharge_not_pending (s : DB) (now : Time)
    (userID amountInCents rechargeRecordID : Int) (simulatedTxID : String)
    (h : ∀ r ∈ s.recharge_transactions, r.ID = rechargeRecordID → r.Status ≠ "Pending") :
    ProcessSuccessfulRecharge s now userID amountInCents rechargeRecordID simulatedTxID =
      (.error (errRechargeNotPending rechargeRecordID), s) := by
  have hz : rowsAffected s.recharge_transactions
      (fun r => r.ID == rechargeRecordID && r.Status == "Pending")
      (fun r => { r with Status := "Success", TransactionID := some simulatedTxID,
                         UpdatedAt := now }) = 0 := by
    rw [rowsAffected_eq_zero_iff _ _ _ (process_changes_row now rechargeRecordID simulatedTxID)]
    intro r hr
    by_cases hid : r.ID = rechargeRecordID
    · have := h r hr hid
      simp [hid, this]
    · simp [hid]
  simp [ProcessSuccessfulRecharge, hz]

/-- The balance read by `GetUserBalance` is the balance of the first row of
`users` with that id. -/
theorem GetUserBalance_eq_ok_iff (s : DB) (userID b : Int) :
    GetUserBalance s userID = .ok b ↔
      ∃ u, s.users.find? (fun u => u.ID == userID) = some u ∧ u.Balance = b := by
  unfold GetUserBalance
  cases h : s.users.find? (fun u => u.ID == userID) with
  | none => simp
  | some u => simp

/-- The database a committed `ProcessSuccessfulRecharge` leaves: it commits
as soon as some row with the given id is Pending. -/
theorem ProcessSuccessfulRecharge_pending (s : DB) (now : Time)
    (userID amountInCents rechargeRecordID : Int) (simulatedTxID : String)
    (h : ∃ r ∈ s.recharge_transactions, r.ID = rechargeRecordID ∧ r.Status = "Pending") :
    ProcessSuccessfulRecharge s now userID amountInCents rechargeRecordID simulatedTxID =
      (.ok (), { s with
        users := sqlUpdate s.users (fun u => u.ID == userID)
          (fun u => { u with Balance := u.Balance + amountInCents }),
        recharge_transactions := sqlUpdate s.recharge_transactions
          (fun r => r.ID == rechargeRecordID && r.Status == "Pending")
          (fun r => { r with Status := "Success", TransactionID := some simulatedTxID,
                             UpdatedAt := now }) }) := by
  have hz : rowsAffected s.recharge_transactions
      (fun r => r.ID == rechargeRecordID && r.Status == "Pending")
      (fun r => { r with Status := "Success", TransactionID := some simulatedTxID,
                         UpdatedAt := now }) ≠ 0 := by
    rw [Ne, rowsAffected_eq_zero_iff _ _ _
      (process_changes_row now rechargeRecordID simulatedTxID)]
    intro hall
    obtain ⟨r, hr, hid, hp⟩ := h
    have := hall r hr
    simp [hid, hp] at this
  simp [ProcessSuccessfulRecharge, hz]

/-- A row found by id is a row of the table and carries that id. -/
theorem rechargeByID_some (s : DB) (id : Int) (r : RechargeTransaction)
    (h : rechargeByID s id = some r) : r ∈ s.recharge_transactions ∧ r.ID = id := by
  refine ⟨List.mem_of_find?_eq_some h, ?_⟩
  have := List.find?_some h
  simpa using this

/-- The balance read after `UPDATE users SET balance = balance + ? WHERE id = ?`. -/
theorem GetUserBalance_credit (s : DB) (rows : List RechargeTransaction) (userID a b : Int)
    (hu : GetUserBalance s userID = .ok b) :
    GetUserBalance { s with
      users := sqlUpdate s.users (fun u => u.ID == userID)
        (fun u => { u with Balance := u.Balance + a }),
      recharge_transactions := rows } userID = .ok (b + a) := by
  obtain ⟨u, hfind, hb⟩ := (GetUserBalance_eq_ok_iff s userID b).1 hu
  have huid : u.ID = userID := by
    have := List.find?_some hfind
    simpa using this
  rw [GetUserBalance_eq_ok_iff]
  refine ⟨{ u with Balance := u.Balance + a }, ?_, by simp [hb]⟩
  simp only
  rw [find?_sqlUpdate _ _ _ _ (by intro _; rfl), hfind]
  simp [huid]

/-- After the guarded UPDATE of `ProcessSuccessfulRecharge` no row with that id
is Pending any more. -/
theorem no_pending_after_process (rows : List RechargeTransaction) (now : Time)
    (rechargeRecordID : Int) (simulatedTxID : String) :
    ∀ x ∈ sqlUpdate rows (fun r => r.ID == rechargeRecordID && r.Status == "Pending")
        (fun r => { r with Status := "Success", TransactionID := some simulatedTxID,
                           UpdatedAt := now }),
      x.ID = rechargeRecordID → x.Status ≠ "Pending" := by
  intro x hx hid
  unfold sqlUpdate at hx
  rw [List.mem_map] at hx
  obtain ⟨y, _, hxy⟩ := hx
  by_cases hw : (y.ID == rechargeRecordID && y.Status == "Pending") = true
  · rw [if_pos hw] at hxy
    rw [← hxy]
    simp
  · rw [if_neg hw] at hxy
    subst hxy
    intro hp
    apply hw
    simp [hid, hp]

/-- The database after `UpdateAdvertisementStatus`. -/
theorem UpdateAdvertisementStatus_state (s : DB) (adID : Int) (status : String) :
    (UpdateAdvertisementStatus s adID status).2 =
      { s with advertisements := sqlUpdate s.advertisements (fun a => a.ID == adID)
                 (fun a => { a with Status := status }) } := by
  unfold UpdateAdvertisementStatus
  simp only
  split_ifs <;> rfl

/-- The database after `UpdateAdCampaignStatus`. -/
theorem UpdateAdCampaignStatus_state (s : DB) (campaignID : Int) (status : String) :
    (UpdateAdCampaignStatus s campaignID status).2 =
      { s with ad_campaigns := sqlUpdate s.ad_campaigns (fun c => c.ID == campaignID)
                 (fun c => { c with Status := status }) } := by
  unfold UpdateAdCampaignStatus
  simp only
  split_ifs <;> rfl

/-- The database after `UpdateAdCampaignStatusByUser`. -/
theorem UpdateAdCampaignStatusByUser_state (s : DB) (now : Time) (campaignID userID : Int)
    (newStatus : String) :
    (UpdateAdCampaignStatusByUser s now campaignID userID newStatus).2 =
      { s with ad_campaigns := sqlUpdate s.ad_campaigns
                 (fun c => c.ID == campaignID && c.UserID == userID)
                 (fun c => { c with Status := newStatus, UpdatedAt := now }) } := by
  unfold UpdateAdCampaignStatusByUser
  simp only
  split_ifs <;> rfl

end store

namespace store

open models

/-- C1. When no recharge transaction with the given id is Pending (the id is
unknown, or the transaction is already Success or Failed),
`ProcessSuccessfulRecharge` fails with its dedicated "not found or not in
Pending state" error, and the database after the call is the database before
it: no balance and no recharge transaction has changed. -/
theorem C1_process_not_pending_fails_unchanged (s : DB) (now : Time)
    (userID amountInCents rechargeRecordID : Int) (simulatedTxID : String)
    (h : ∀ r ∈ s.recharge_transactions, r.ID = rechargeRecordID → r.Status ≠ "Pending") :
    ProcessSuccessfulRecharge s now userID amountInCents rechargeRecordID simulatedTxID =
      (.error (errRechargeNotPending rechargeRecordID), s) :=
  ProcessSuccessfulRecharge_not_pending s now userID amountInCents rechargeRecordID
    simulatedTxID h

/-- C1 on the sample ledger: completing record 1, which is already Success. -/
theorem C1_witness :
    (∀ r ∈ examples.ledgerDB.recharge_transactions, r.ID = 1 → r.Status ≠ "Pending") ∧
    ProcessSuccessfulRecharge examples.ledgerDB 50 1 700 1 "SIM_TX_50_1" =
      (.error (errRechargeNotPending 1), examples.ledgerDB) :=
  ⟨by decide,
   C1_process_not_pending_fails_unchanged examples.ledgerDB 50 1 700 1 "SIM_TX_50_1" (by decide)⟩

/-- C2. When user `userID` exists (with balance `b`) and transaction
`rechargeRecordID` exists and is Pending, `ProcessSuccessfulRecharge` succeeds;
afterwards the user's balance is `b + amountInCents`, the transaction is
Success with `simulatedTxID` as its reference, and every other user's row,
every other recharge transaction and every other table are unchanged. -/
theorem C2_process_pending_credits (s : DB) (now : Time)
    (userID amountInCents rechargeRecordID : Int) (simulatedTxID : String)
    (b : Int) (r : RechargeTransaction)
    (hu : GetUserBalance s userID = .ok b)
    (ht : rechargeByID s rechargeRecordID = some r) (hp : r.Status = "Pending") :
    ∃ s', ProcessSuccessfulRecharge s now userID amountInCents rechargeRecordID simulatedTxID =
        (.ok (), s') ∧
      GetUserBalance s' userID = .ok (b + amountInCents) ∧
      rechargeByID s' rechargeRecordID =
        some { r with Status := "Success", TransactionID := some simulatedTxID,
                      UpdatedAt := now } ∧
      (∀ v, v ≠ userID → GetUserBalance s' v = GetUserBalance s v) ∧
      (∀ id, id ≠ rechargeRecordID → rechargeByID s' id = rechargeByID s id) ∧
      s'.users.filter (fun u => u.ID != userID) = s.users.filter (fun u => u.ID != userID) ∧
      s'.recharge_transactions.filter (fun x => x.ID != rechargeRecordID) =
        s.recharge_transactions.filter (fun x => x.ID != rechargeRecordID) ∧
      { s' with users := s.users, recharge_transactions := s.recharge_transactions } = s := by
  obtain ⟨hmem, hid⟩ := rechargeByID_some s rechargeRecordID r ht
  refine ⟨_, ProcessSuccessfulRecharge_pending s now userID amountInCents rechargeRecordID
    simulatedTxID ⟨r, hmem, hid, hp⟩, ?_, ?_, ?_, ?_, ?_, ?_, ?_⟩
  · exact GetUserBalance_credit s _ userID amountInCents b hu
  · unfold rechargeByID at ht ⊢
    simp only
    rw [find?_sqlUpdate _ _ _ _ (by intro _; rfl), ht]
    simp [hid, hp]
  · intro v hv
    unfold GetUserBalance
    simp only
    rw [find?_sqlUpdate _ _ _ _ (by intro _; rfl)]
    cases hf : s.users.find? (fun u => u.ID == v) with
    | none => simp
    | some u =>
      have huv : u.ID = v := by
        have := List.find?_some hf
        simpa using this
      have : ¬ u.ID = userID := by rw [huv]; exact hv
      simp [this]
  · intro id hne
    unfold rechargeByID
    simp only
    rw [find?_sqlUpdate _ _ _ _ (by intro _; rfl)]
    cases hf : s.recharge_transactions.find? (fun x => x.ID == id) with
    | none => simp
    | some x =>
      have hx : x.ID = id := by
        have := List.find?_some hf
        simpa using this
      have : ¬ x.ID = rechargeRecordID := by rw [hx]; exact hne
      simp [this]
  · simp only
    apply filter_sqlUpdate
    · intro x hx
      simpa using hx
    · intro x hx
      simpa using hx
  · simp only
    apply filter_sqlUpdate
    · intro x hx
      simp at hx
      simp [hx.1]
    · intro x hx
      simp at hx
      simp [hx.1]
  · rfl

/-- C2 on the sample ledger: user 1 (balance 700) completes the Pending
record 2 of 500. -/
theorem C2_witness :
    GetUserBalance examples.ledgerDB 1 = .ok 700 ∧
    (∃ r, rechargeByID examples.ledgerDB 2 = some r ∧ r.Status = "Pending") ∧
    ∃ s', ProcessSuccessfulRecharge examples.ledgerDB 50 1 500 2 "SIM_TX_50_2" = (.ok (), s') ∧
      GetUserBalance s' 1 = .ok 1200 :=
  ⟨by decide, ⟨_, rfl, by decide⟩,
   (C2_process_pending_credits examples.ledgerDB 50 1 500 2 "SIM_TX_50_2" 700
      { ID := 2, UserID := 1, Amount := 500, Status := "Pending",
        PaymentMethod := "Simulated", CreatedAt := 20, UpdatedAt := 20 }
      (by decide) (by decide) (by decide)).imp (fun _ h => ⟨h.1, h.2.1⟩)⟩

/-- C3. With a Pending transaction and an existing user (balance `b`), two
successive `ProcessSuccessfulRecharge` calls for the same transaction id, user
and amount: the first succeeds, the second fails with the "not found or not in
Pending state" error and changes nothing, and the balance at the end is
`b + amountInCents`, exactly one amount above the initial balance. -/
theorem C3_second_completion_rejected (s : DB) (now1 now2 : Time)
    (userID amountInCents rechargeRecordID : Int) (simulatedTxID1 simulatedTxID2 : String)
    (b : Int) (r : RechargeTransaction)
    (hu : GetUserBalance s userID = .ok b)
    (ht : rechargeByID s rechargeRecordID = some r) (hp : r.Status = "Pending") :
    ∃ s1, ProcessSuccessfulRecharge s now1 userID amountInCents rechargeRecordID simulatedTxID1 =
        (.ok (), s1) ∧
      ProcessSuccessfulRecharge s1 now2 userID amountInCents rechargeRecordID simulatedTxID2 =
        (.error (errRechargeNotPending rechargeRecordID), s1) ∧
      GetUserBalance s1 userID = .ok (b + amountInCents) := by
  obtain ⟨hmem, hid⟩ := rechargeByID_some s rechargeRecordID r ht
  refine ⟨_, ProcessSuccessfulRecharge_pending s now1 userID amountInCents rechargeRecordID
    simulatedTxID1 ⟨r, hmem, hid, hp⟩, ?_, ?_⟩
  · apply ProcessSuccessfulRecharge_not_pending
    exact no_pending_after_process s.recharge_transactions now1 rechargeRecordID simulatedTxID1
  · exact GetUserBalance_credit s _ userID amountInCents b hu

/-- C3 on the sample ledger: record 2 of user 1 is completed twice in a row. -/
theorem C3_witness :
    GetUserBalance examples.ledgerDB 1 = .ok 700 ∧
    ∃ s1, ProcessSuccessfulRecharge examples.ledgerDB 50 1 500 2 "SIM_TX_50_2" = (.ok (), s1) ∧
      ProcessSuccessfulRecharge s1 60 1 500 2 "SIM_TX_60_2" =
        (.error (errRechargeNotPending 2), s1) ∧
      GetUserBalance s1 1 = .ok 1200 :=
  ⟨by decide,
   C3_second_completion_rejected examples.ledgerDB 50 60 1 500 2 "SIM_TX_50_2" "SIM_TX_60_2" 700
      { ID := 2, UserID := 1, Amount := 500, Status := "Pending",
        PaymentMethod := "Simulated", CreatedAt := 20, UpdatedAt := 20 }
      (by decide) (by decide) (by decide)⟩

end store

namespace store

open models

/-- The Success sum of a table, row by row. -/
theorem successSum_cons (x : RechargeTransaction) (l : List RechargeTransaction) (v : Int) :
    successSum (x :: l) v =
      (if x.UserID = v ∧ x.Status = "Success" then x.Amount else 0) + successSum l v := by
  unfold successSum
  by_cases h : x.UserID = v ∧ x.Status = "Success"
  · simp [List.filter_cons, h.1, h.2]
  · have hb : (x.UserID == v && x.Status == "Success") = false := by
      by_cases h1 : x.UserID = v
      · have : ¬ x.Status = "Success" := fun h2 => h ⟨h1, h2⟩
        simp [h1, this]
      · simp [h1]
    rw [List.filter_cons, if_neg h]
    simp only [hb]
    simp

/-- Appending a Pending row does not change any Success sum. -/
theorem successSum_append_pending (l : List RechargeTransaction) (x : RechargeTransaction)
    (v : Int) (hx : x.Status = "Pending") : successSum (l ++ [x]) v = successSum l v := by
  induction l with
  | nil =>
    rw [List.nil_append, successSum_cons]
    simp [hx, successSum]
  | cons y l ih => rw [List.cons_append, successSum_cons, successSum_cons, ih]

/-- An UPDATE that neither rewrites a Success row nor writes Success keeps
every Success sum. -/
theorem successSum_update (l : List RechargeTransaction) (wh : RechargeTransaction → Bool)
    (set : RechargeTransaction → RechargeTransaction) (v : Int)
    (h1 : ∀ r ∈ l, wh r = true → r.Status ≠ "Success")
    (h2 : ∀ r, (set r).Status ≠ "Success") :
    successSum (sqlUpdate l wh set) v = successSum l v := by
  induction l with
  | nil => rfl
  | cons x l ih =>
    have ih' := ih (fun r hr => h1 r (List.mem_cons_of_mem x hr))
    have hcons : sqlUpdate (x :: l) wh set = (if wh x then set x else x) :: sqlUpdate l wh set := rfl
    rw [hcons, successSum_cons, successSum_cons, ih']
    by_cases hw : wh x = true
    · have hx := h1 x (List.mem_cons_self x l) hw
      simp [hw, hx, h2 x]
    · simp [hw]

/-- The guarded UPDATE of `ProcessSuccessfulRecharge`, when ids are unique and
the Pending row it completes belongs to `u` and has amount `a`: the Success sum
of `u` grows by `a` and the other sums stay. -/
theorem successSum_process (l : List RechargeTransaction) (now : Time) (id : Int)
    (ref : String) (u a v : Int)
    (hnd : (l.map (fun r => r.ID)).Nodup)
    (hm : ∀ r ∈ l, r.ID = id → r.Status = "Pending" → r.UserID = u ∧ r.Amount = a)
    (hex : ∃ r ∈ l, r.ID = id ∧ r.Status = "Pending") :
    successSum (sqlUpdate l (fun r => r.ID == id && r.Status == "Pending")
        (fun r => { r with Status := "Success", TransactionID := some ref, UpdatedAt := now })) v =
      successSum l v + (if v = u then a else 0) := by
  induction l with
  | nil =>
    obtain ⟨r, hr, _⟩ := hex
    cases hr
  | cons x l ih =>
    rw [List.map_cons, List.nodup_cons] at hnd
    have hcons : ∀ (wh : RechargeTransaction → Bool) (set : RechargeTransaction → RechargeTransaction),
        sqlUpdate (x :: l) wh set = (if wh x then set x else x) :: sqlUpdate l wh set :=
      fun _ _ => rfl
    rw [hcons, successSum_cons, successSum_cons]
    by_cases hw : x.ID = id ∧ x.Status = "Pending"
    · -- the head is the completed row; by uniqueness of ids the tail is untouched
      have htail : ∀ r ∈ l, (r.ID == id && r.Status == "Pending") = false := by
        intro r hr
        have hne : r.ID ≠ id := by
          intro hrid
          apply hnd.1
          rw [List.mem_map]
          exact ⟨r, hr, by rw [hrid, hw.1]⟩
        simp [hne]
      rw [sqlUpdate_of_no_match l _ _ htail]
      obtain ⟨hxu, hxa⟩ := hm x (List.mem_cons_self x l) hw.1 hw.2
      by_cases hv : v = u
      · simp [hw.1, hw.2, hv, hxu, hxa, add_comm]
      · have hv' : ¬ u = v := fun h => hv h.symm
        simp [hw.1, hw.2, hv, hv', hxu]
    · have hwb : (x.ID == id && x.Status == "Pending") = false := by
        by_cases hid : x.ID = id
        · have : ¬ x.Status = "Pending" := fun hp => hw ⟨hid, hp⟩
          simp [hid, this]
        · simp [hid]
      have hex' : ∃ r ∈ l, r.ID = id ∧ r.Status = "Pending" := by
        obtain ⟨r, hr, hrid, hrp⟩ := hex
        rcases List.mem_cons.1 hr with h | h
        · exact absurd ⟨h ▸ hrid, h ▸ hrp⟩ hw
        · exact ⟨r, h, hrid, hrp⟩
      rw [ih hnd.2 (fun r hr => hm r (List.mem_cons_of_mem x hr)) hex']
      simp only [hwb]
      simp
      ring

/-- An UPDATE whose SET clause keeps the id keeps the column of ids. -/
theorem map_ID_sqlUpdate (l : List RechargeTransaction) (wh : RechargeTransaction → Bool)
    (set : RechargeTransaction → RechargeTransaction) (h : ∀ r, (set r).ID = r.ID) :
    (sqlUpdate l wh set).map (fun r => r.ID) = l.map (fun r => r.ID) := by
  unfold sqlUpdate
  rw [List.map_map]
  apply List.map_congr_left
  intro r _
  by_cases hw : wh r = true
  · simp [hw, h r]
  · simp [hw]

/-- Well-formedness of the ids depends only on the id column and the counter. -/
theorem LedgerWF_of_same_ids (s s' : DB)
    (hids : s'.recharge_transactions.map (fun r => r.ID) =
      s.recharge_transactions.map (fun r => r.ID))
    (hseq : s'.recharge_transactions_seq = s.recharge_transactions_seq)
    (h : LedgerWF s) : LedgerWF s' := by
  unfold LedgerWF at h ⊢
  rw [hids, hseq]
  refine ⟨?_, h.2⟩
  intro r hr
  have hmem : r.ID ∈ s'.recharge_transactions.map (fun r => r.ID) :=
    List.mem_map.2 ⟨r, hr, rfl⟩
  rw [hids, List.mem_map] at hmem
  obtain ⟨r0, hr0, hid⟩ := hmem
  rw [← hid]
  exact h.1 r0 hr0

/-- The database after `UpdateRechargeTransactionStatus`, whatever it returns. -/
theorem UpdateRechargeTransactionStatus_state (s : DB) (now : Time) (rechargeRecordID : Int)
    (status simulatedTxID : String) :
    (UpdateRechargeTransactionStatus s now rechargeRecordID status simulatedTxID).2 =
      { s with
        recharge_transactions := sqlUpdate s.recharge_transactions
          (fun r => r.ID == rechargeRecordID)
          (fun r => { r with Status := status,
                             TransactionID :=
                               if simulatedTxID != "" then some simulatedTxID else none,
                             UpdatedAt := now }) } := by
  unfold UpdateRechargeTransactionStatus
  simp only
  split_ifs <;> rfl

/-- One matched ledger call keeps the ids well-formed and every balance equal
to the user's Success sum. -/
theorem matched_step (s : DB) (op : LedgerOp) (hwf : LedgerWF s) (hinv : BalanceInvariant s)
    (hm : op.Matched s) : LedgerWF (op.run s) ∧ BalanceInvariant (op.run s) := by
  cases op with
  | create now userID amountInCents paymentMethod =>
    constructor
    · unfold LedgerWF at hwf ⊢
      simp only [LedgerOp.run, CreateRechargeTransaction]
      constructor
      · intro r hr
        rcases List.mem_append.1 hr with h | h
        · have := hwf.1 r h
          omega
        · rw [List.mem_singleton] at h
          rw [h]
          simp
      · rw [List.map_append, List.nodup_append]
        refine ⟨hwf.2, by simp, ?_⟩
        intro a ha hb
        rw [List.map_cons, List.map_nil, List.mem_singleton] at hb
        rw [List.mem_map] at ha
        obtain ⟨r, hr, hra⟩ := ha
        have := hwf.1 r hr
        rw [hra, hb] at this
        exact lt_irrefl _ this
    · intro u hu
      have := hinv u hu
      simp only [LedgerOp.run, CreateRechargeTransaction, successTotal] at this ⊢
      rw [successSum_append_pending _ _ _ rfl]
      exact this
  | process now userID amountInCents rechargeRecordID simulatedTxID =>
    by_cases hex : ∃ r ∈ s.recharge_transactions, r.ID = rechargeRecordID ∧ r.Status = "Pending"
    · have hrun := ProcessSuccessfulRecharge_pending s now userID amountInCents rechargeRecordID
        simulatedTxID hex
      simp only [LedgerOp.run, hrun]
      constructor
      · refine LedgerWF_of_same_ids s _ ?_ rfl hwf
        exact map_ID_sqlUpdate _ _ _ (fun _ => rfl)
      · intro u hu
        simp only [successTotal]
        simp only [sqlUpdate, List.mem_map] at hu
        obtain ⟨y, hy, hyu⟩ := hu
        have hy' := hinv y hy
        unfold successTotal at hy'
        have hsum := successSum_process s.recharge_transactions now rechargeRecordID
          simulatedTxID userID amountInCents u.ID hwf.2 hm hex
        rw [hsum]
        by_cases hid : y.ID = userID
        · simp only [hid, beq_self_eq_true, if_true] at hyu
          subst hyu
          simp [hid, hy']
        · have hb : (y.ID == userID) = false := by simp [hid]
          simp only [hb] at hyu
          simp at hyu
          subst hyu
          simp [hid, hy']
    · have hno : ∀ r ∈ s.recharge_transactions, r.ID = rechargeRecordID →
          r.Status ≠ "Pending" := fun r hr hid hp => hex ⟨r, hr, hid, hp⟩
      have hrun := ProcessSuccessfulRecharge_not_pending s now userID amountInCents
        rechargeRecordID simulatedTxID hno
      simp only [LedgerOp.run, hrun]
      exact ⟨hwf, hinv⟩
  | update now rechargeRecordID status simulatedTxID =>
    have hstate := UpdateRechargeTransactionStatus_state s now rechargeRecordID status
      simulatedTxID
    simp only [LedgerOp.run, hstate]
    constructor
    · refine LedgerWF_of_same_ids s _ ?_ rfl hwf
      exact map_ID_sqlUpdate _ _ _ (fun _ => rfl)
    · intro u hu
      simp only [successTotal]
      rw [successSum_update]
      · exact hinv u hu
      · intro r hr hw
        apply hm.2 r hr
        simpa using hw
      · intro r
        exact hm.1

/-- Along a matched sequence of ledger calls the balance invariant holds at
the end. -/
theorem matched_run (ops : List LedgerOp) :
    ∀ s : DB, LedgerWF s → BalanceInvariant s → MatchedFrom s ops →
      LedgerWF (runAll s ops) ∧ BalanceInvariant (runAll s ops) := by
  induction ops with
  | nil => intro s hwf hinv _; exact ⟨hwf, hinv⟩
  | cons op ops ih =>
    intro s hwf hinv hm
    obtain ⟨h1, h2⟩ := matched_step s op hwf hinv hm.1
    exact ih (op.run s) h1 h2 hm.2

/-- An empty ledger has well-formed ids and satisfies the balance invariant. -/
theorem empty_ledger_inv (s : DB) (h : EmptyLedger s) : LedgerWF s ∧ BalanceInvariant s := by
  obtain ⟨hnil, hbal⟩ := h
  refine ⟨⟨?_, ?_⟩, ?_⟩
  · rw [hnil]; intro r hr; cases hr
  · rw [hnil]; exact List.nodup_nil
  · intro u hu
    rw [hbal u hu]
    simp [successTotal, successSum, hnil]

end store

namespace store

open models

/-- C4, as stated, fails: from an empty store, a recharge of 500 is created
and completed, then `UpdateRechargeTransactionStatus` marks the same record
Failed; user 1 keeps balance 500 while the sum of the user's Success recharges
is 0. -/
theorem C4_counterexample :
    EmptyLedger examples.freshDB ∧
    GetUserBalance (runAll examples.freshDB examples.failAfterSuccessOps) 1 = .ok 500 ∧
    successTotal (runAll examples.freshDB examples.failAfterSuccessOps) 1 = 0 ∧
    ¬ BalanceInvariant (runAll examples.freshDB examples.failAfterSuccessOps) := by
  decide

/-- C4, amended. In every state reached from an empty store by a sequence of
`CreateRechargeTransaction`, `ProcessSuccessfulRecharge` and
`UpdateRechargeTransactionStatus` calls in which every completion carries the
user and amount of the Pending record it names and no status update sets
Success or rewrites a Success record, each user's balance equals the sum of
the amounts of that user's Success recharge transactions. -/
theorem C4_balance_invariant_matched (s : DB) (ops : List LedgerOp)
    (hempty : EmptyLedger s) (hm : MatchedFrom s ops) :
    BalanceInvariant (runAll s ops) :=
  (matched_run ops s (empty_ledger_inv s hempty).1 (empty_ledger_inv s hempty).2 hm).2

/-- C4 amended, on two recharge requests of user 1, one paid and one failed. -/
theorem C4_witness :
    EmptyLedger examples.freshDB ∧ MatchedFrom examples.freshDB examples.matchedOps ∧
    BalanceInvariant (runAll examples.freshDB examples.matchedOps) ∧
    GetUserBalance (runAll examples.freshDB examples.matchedOps) 1 = .ok 500 :=
  ⟨by decide, by decide,
   C4_balance_invariant_matched examples.freshDB examples.matchedOps (by decide) (by decide),
   by decide⟩

end store

namespace store

open models

/-- An insert keeps every row that could already be found by its id. -/
theorem rechargeByID_create (s : DB) (now : Time) (userID amountInCents : Int)
    (paymentMethod : String) (id : Int) (r : RechargeTransaction)
    (hr : rechargeByID s id = some r) :
    rechargeByID (CreateRechargeTransaction s now userID amountInCents paymentMethod).2 id =
      some r := by
  unfold rechargeByID at hr ⊢
  simp only [CreateRechargeTransaction]
  rw [List.find?_append, hr]
  rfl

/-- `ProcessSuccessfulRecharge` keeps every row that is not Pending, whether it
commits or rolls back. -/
theorem rechargeByID_process (s : DB) (now : Time)
    (userID amountInCents rechargeRecordID : Int) (simulatedTxID : String)
    (id : Int) (r : RechargeTransaction)
    (hr : rechargeByID s id = some r) (hnp : r.Status ≠ "Pending") :
    rechargeByID
      (ProcessSuccessfulRecharge s now userID amountInCents rechargeRecordID simulatedTxID).2 id =
      some r := by
  by_cases hex : ∃ x ∈ s.recharge_transactions, x.ID = rechargeRecordID ∧ x.Status = "Pending"
  · rw [ProcessSuccessfulRecharge_pending s now userID amountInCents rechargeRecordID
      simulatedTxID hex]
    unfold rechargeByID at hr ⊢
    simp only
    rw [find?_sqlUpdate _ _ _ _ (by intro _; rfl), hr]
    simp [hnp]
  · have hno : ∀ x ∈ s.recharge_transactions, x.ID = rechargeRecordID →
        x.Status ≠ "Pending" := fun x hx hid hp => hex ⟨x, hx, hid, hp⟩
    rw [ProcessSuccessfulRecharge_not_pending s now userID amountInCents rechargeRecordID
      simulatedTxID hno]
    exact hr

/-- C5, as stated, fails: record 1 of the sample ledger is Success with
reference "SIM_TX_10_1"; `UpdateRechargeTransactionStatus` on it succeeds and
leaves it Failed with the new reference. -/
theorem C5_counterexample :
    (rechargeByID examples.ledgerDB 1).map (fun r => (r.Status, r.TransactionID)) =
      some ("Success", some "SIM_TX_10_1") ∧
    (UpdateRechargeTransactionStatus examples.ledgerDB 50 1 "Failed" "PROCESSING_ERROR").1 =
      .ok () ∧
    (rechargeByID
      (UpdateRechargeTransactionStatus examples.ledgerDB 50 1 "Failed" "PROCESSING_ERROR").2
      1).map (fun r => (r.Status, r.TransactionID)) =
      some ("Failed", some "PROCESSING_ERROR") := by
  decide

/-- C5, amended. `CreateRechargeTransaction` and `ProcessSuccessfulRecharge`
leave every recharge transaction whose status is already Success or Failed
exactly as it is (status, reference and all other columns);
`UpdateRechargeTransactionStatus` carries no such guard and is left out. -/
theorem C5_terminal_kept_by_create_and_process (s : DB) (op : LedgerOp)
    (hop : ∀ now id status ref, op ≠ .update now id status ref)
    (id : Int) (r : RechargeTransaction)
    (hr : rechargeByID s id = some r)
    (hterm : r.Status = "Success" ∨ r.Status = "Failed") :
    rechargeByID (op.run s) id = some r := by
  cases op with
  | create now userID amountInCents paymentMethod =>
    exact rechargeByID_create s now userID amountInCents paymentMethod id r hr
  | process now userID amountInCents rechargeRecordID simulatedTxID =>
    apply rechargeByID_process s now userID amountInCents rechargeRecordID simulatedTxID id r hr
    rcases hterm with h | h <;> rw [h] <;> decide
  | update now rechargeRecordID status simulatedTxID =>
    exact absurd rfl (hop now rechargeRecordID status simulatedTxID)

/-- C5 amended, on the sample ledger: completing record 1 (already Success)
once more, with another amount and reference, leaves it as it was. -/
theorem C5_witness :
    rechargeByID examples.ledgerDB 1 =
      some { ID := 1, UserID := 1, Amount := 700, Status := "Success",
             TransactionID := some "SIM_TX_10_1", PaymentMethod := "Simulated",
             CreatedAt := 10, UpdatedAt := 10 } ∧
    rechargeByID ((LedgerOp.process 50 1 999 1 "SIM_TX_50_1").run examples.ledgerDB) 1 =
      some { ID := 1, UserID := 1, Amount := 700, Status := "Success",
             TransactionID := some "SIM_TX_10_1", PaymentMethod := "Simulated",
             CreatedAt := 10, UpdatedAt := 10 } :=
  ⟨by decide,
   C5_terminal_kept_by_create_and_process examples.ledgerDB
     (.process 50 1 999 1 "SIM_TX_50_1") (by intro _ _ _ _ h; cases h) 1 _
     (by decide) (Or.inl rfl)⟩

end store

namespace float64

/-- Rounding a rational to float64 keeps its sign bit. -/
theorem ofRat_sign (neg : Bool) (a b : Nat) :
    (∃ m e, ofRat neg a b = .fin neg m e) ∨ ofRat neg a b = .inf neg := by
  unfold ofRat
  simp only
  split_ifs <;> first | exact Or.inr rfl | exact Or.inl ⟨_, _, rfl⟩

/-- Rounding zero gives zero. -/
theorem ofRat_zero (neg : Bool) (b : Nat) : ofRat neg 0 b = .fin neg 0 0 := by
  simp [ofRat]

/-- `math.Round` keeps the sign bit of a finite value. -/
theorem mathRound_fin (neg : Bool) (m : Nat) (e : Int) :
    ∃ m1 e1, mathRound (.fin neg m e) = .fin neg m1 e1 := by
  by_cases h : 0 ≤ e
  · exact ⟨m, e, by simp [mathRound, h]⟩
  · exact ⟨(2 * m + 2 ^ (-e).toNat) / (2 * 2 ^ (-e).toNat), 0, by
      simp only [mathRound, if_neg h]⟩

/-- The conversion to int64 of a value with the sign bit set is never
positive. -/
theorem toInt64_neg (m : Nat) (e : Int) : toInt64 (.fin true m e) ≤ 0 := by
  have ht : (0 : Int) ≤ (if 0 ≤ e then ((m * 2 ^ e.toNat : Nat) : Int)
      else ((m / 2 ^ (-e).toNat : Nat) : Int)) := by
    split <;> exact Int.natCast_nonneg _
  unfold toInt64
  simp only [if_true]
  generalize (if 0 ≤ e then ((m * 2 ^ e.toNat : Nat) : Int)
    else ((m / 2 ^ (-e).toNat : Nat) : Int)) = t at ht
  split
  · omega
  · norm_num

/-- Amounts with two decimals from 0.00 to 2.00 convert to exactly their
number of minor units. -/
theorem amountInCents_two_decimals_small : ∀ n ∈ List.range 201,
    (decode false n 2).map
      (fun x => toInt64 (mathRound (mul x (.fin false 100 0)))) = some (n : Int) := by
  set_option maxRecDepth 100000 in
  set_option maxHeartbeats 4000000 in
  decide

end float64

namespace handlers

open models store float64

/-- An amount that is `<= 0` as a float64 converts to a non-positive number of
minor units, so the second check of `RechargeHandler` subsumes the first. -/
theorem amountInCents_nonpos_of_le0 (Amount : F64) (h : le0 Amount = true) :
    amountInCents Amount ≤ 0 := by
  unfold amountInCents
  cases Amount with
  | nan => simp [le0] at h
  | inf neg =>
    simp only [le0] at h
    subst h
    simp [mul, mathRound, toInt64]
  | fin neg m e =>
    simp only [le0, Bool.or_eq_true, beq_iff_eq] at h
    rcases h with h | h
    · subst h
      have key : ∀ a b, toInt64 (mathRound (ofRat true a b)) ≤ 0 := by
        intro a b
        rcases ofRat_sign true a b with ⟨m1, e1, h1⟩ | h1
        · rw [h1]
          obtain ⟨m2, e2, h2⟩ := mathRound_fin true m1 e1
          rw [h2]
          exact toInt64_neg m2 e2
        · rw [h1]
          simp [mathRound, toInt64]
      simp only [mul, Bool.xor_false]
      split
      · exact key _ _
      · exact key _ _
    · subst h
      simp only [mul, Nat.zero_mul, ofRat_zero]
      split <;> simp [mathRound, toInt64]

/-- Steps 3 and 4 of `RechargeHandler` reject the request exactly when the
amount in minor units is not positive. -/
theorem RechargeHandler_open_reject (s : DB) (now : Time) (userID : Int) (Amount : F64)
    (h : amountInCents Amount ≤ 0) :
    RechargeHandler_open s now userID Amount = (.error { Code := 400 }, s) := by
  unfold RechargeHandler_open
  split
  · rfl
  · simp [h]

/-- Steps 3 and 4 of `RechargeHandler` on a positive amount: the Pending record
is inserted and its id returned. -/
theorem RechargeHandler_open_accept (s : DB) (now : Time) (userID : Int) (Amount : F64)
    (h : 0 < amountInCents Amount) :
    RechargeHandler_open s now userID Amount =
      (.ok (amountInCents Amount, s.recharge_transactions_seq),
       (CreateRechargeTransaction s now userID (amountInCents Amount) "Simulated").2) := by
  have hle : le0 Amount = false := by
    cases hl : le0 Amount with
    | false => rfl
    | true => exact absurd (amountInCents_nonpos_of_le0 Amount hl) (not_le.2 h)
  have hn : ¬ amountInCents Amount ≤ 0 := not_le.2 h
  simp [RechargeHandler_open, hle, hn, CreateRechargeTransaction]

/-- The whole `RechargeHandler` on a rejected amount. -/
theorem RechargeHandler_reject (s : DB) (now : Time) (userID : Int) (Amount : F64)
    (paymentSuccess : Bool) (h : amountInCents Amount ≤ 0) :
    RechargeHandler s now userID Amount paymentSuccess = ({ Code := 400 }, s) := by
  unfold RechargeHandler
  rw [RechargeHandler_open_reject s now userID Amount h]

/-- The whole `RechargeHandler` on a positive amount whose payment goes through:
200 OK, and the database is the one after the insert and the committed
completion of the new record. -/
theorem RechargeHandler_paid (s : DB) (now : Time) (userID : Int) (Amount : F64)
    (h : 0 < amountInCents Amount) :
    ∃ s2, RechargeHandler s now userID Amount true =
        ({ Code := 200,
           Data := some ("SIM_TX_" ++ toString now ++ "_" ++
             toString s.recharge_transactions_seq) }, s2) ∧
      ∀ b, GetUserBalance s userID = .ok b →
        GetUserBalance s2 userID = .ok (b + amountInCents Amount) := by
  have hex : ∃ r ∈ (CreateRechargeTransaction s now userID (amountInCents Amount)
      "Simulated").2.recharge_transactions,
      r.ID = s.recharge_transactions_seq ∧ r.Status = "Pending" := by
    refine ⟨{ ID := s.recharge_transactions_seq, UserID := userID,
              Amount := amountInCents Amount, Status := "Pending", TransactionID := none,
              PaymentMethod := "Simulated", CreatedAt := now, UpdatedAt := now }, ?_, rfl, rfl⟩
    simp [CreateRechargeTransaction]
  have hp := ProcessSuccessfulRecharge_pending
    (CreateRechargeTransaction s now userID (amountInCents Amount) "Simulated").2 now userID
    (amountInCents Amount) s.recharge_transactions_seq
    ("SIM_TX_" ++ toString now ++ "_" ++ toString s.recharge_transactions_seq) hex
  refine ⟨(ProcessSuccessfulRecharge
    (CreateRechargeTransaction s now userID (amountInCents Amount) "Simulated").2 now userID
    (amountInCents Amount) s.recharge_transactions_seq
    ("SIM_TX_" ++ toString now ++ "_" ++ toString s.recharge_transactions_seq)).2, ?_, ?_⟩
  · unfold RechargeHandler
    rw [RechargeHandler_open_accept s now userID Amount h]
    simp only [if_true]
    rw [hp]
  · intro b hb
    rw [hp]
    apply GetUserBalance_credit
    exact hb

end handlers

namespace handlers

open models store float64

/-- Responses that are all 200 OK come from requests whose amount in minor
units is positive. -/
theorem positive_of_all_ok (userID : Int) (reqs : List (Time × F64)) :
    ∀ s : DB, (∀ resp ∈ rechargeResponses s userID reqs, resp.Code = 200) →
      ∀ r ∈ reqs, 0 < amountInCents r.2 := by
  induction reqs with
  | nil => intro s _ r hr; cases hr
  | cons req reqs ih =>
    intro s hok r hr
    have hhead : 0 < amountInCents req.2 := by
      by_contra hn
      have hrej := RechargeHandler_reject s req.1 userID req.2 true (not_lt.1 hn)
      have h200 := hok (RechargeHandler s req.1 userID req.2 true).1
        (by simp [rechargeResponses])
      rw [hrej] at h200
      simp at h200
    rcases List.mem_cons.1 hr with h | h
    · rw [h]; exact hhead
    · apply ih (RechargeHandler s req.1 userID req.2 true).2 _ r h
      intro resp hresp
      apply hok
      simp [rechargeResponses, hresp]

/-- A run of paid recharges of positive amounts adds their sum to the balance. -/
theorem balance_after_recharges (userID : Int) (reqs : List (Time × F64)) :
    ∀ (s : DB) (b : Int), GetUserBalance s userID = .ok b →
      (∀ r ∈ reqs, 0 < amountInCents r.2) →
      GetUserBalance (runRecharges s userID reqs) userID =
        .ok (b + (reqs.map (fun r => amountInCents r.2)).sum) := by
  induction reqs with
  | nil =>
    intro s b hb _
    simpa [runRecharges] using hb
  | cons req reqs ih =>
    intro s b hb hpos
    obtain ⟨s2, hrun, hbal⟩ := RechargeHandler_paid s req.1 userID req.2
      (hpos req (List.mem_cons_self req reqs))
    have hstep : runRecharges s userID (req :: reqs) = runRecharges s2 userID reqs := by
      simp [runRecharges, hrun]
    rw [hstep, ih s2 (b + amountInCents req.2) (hbal b hb)
      (fun r hr => hpos r (List.mem_cons_of_mem req hr))]
    simp [add_assoc]

/-- A sum of positive amounts is not negative. -/
theorem sum_cents_nonneg (reqs : List (Time × F64)) (h : ∀ r ∈ reqs, 0 < amountInCents r.2) :
    0 ≤ (reqs.map (fun r => amountInCents r.2)).sum := by
  apply List.sum_nonneg
  intro x hx
  rw [List.mem_map] at hx
  obtain ⟨r, hr, hrx⟩ := hx
  rw [← hrx]
  exact le_of_lt (h r hr)

/-- C6. A user starts at balance 0 and sends a sequence of recharge requests
that all succeed (each creates its Pending record and completes it, response
200).  Then the final balance is the sum of the requested amounts in minor
units, and after every request of the sequence the balance is the sum of the
amounts so far, which is not negative. -/
theorem C6_successful_recharges_sum (s : DB) (userID : Int) (reqs : List (Time × F64))
    (h0 : GetUserBalance s userID = .ok 0)
    (hok : ∀ resp ∈ rechargeResponses s userID reqs, resp.Code = 200) :
    GetUserBalance (runRecharges s userID reqs) userID =
        .ok ((reqs.map (fun r => amountInCents r.2)).sum) ∧
      ∀ k : Nat, ∃ b : Int,
        GetUserBalance (runRecharges s userID (reqs.take k)) userID = .ok b ∧
        b = ((reqs.take k).map (fun r => amountInCents r.2)).sum ∧ 0 ≤ b := by
  have hpos := positive_of_all_ok userID reqs s hok
  constructor
  · have := balance_after_recharges userID reqs s 0 h0 hpos
    simpa using this
  · intro k
    have hposk : ∀ r ∈ reqs.take k, 0 < amountInCents r.2 :=
      fun r hr => hpos r (List.mem_of_mem_take hr)
    refine ⟨_, ?_, rfl, sum_cents_nonneg _ hposk⟩
    have := balance_after_recharges userID (reqs.take k) s 0 h0 hposk
    simpa using this

/-- C6 on a fresh store: user 1 recharges 1.5 and then 10.25 major units and
ends with 1175 minor units. -/
theorem C6_witness :
    GetUserBalance examples.freshDB 1 = .ok 0 ∧
    (∀ resp ∈ rechargeResponses examples.freshDB 1 examples.twoRequests, resp.Code = 200) ∧
    GetUserBalance (runRecharges examples.freshDB 1 examples.twoRequests) 1 = .ok 1175 :=
  ⟨by decide, by decide,
   (C6_successful_recharges_sum examples.freshDB 1 examples.twoRequests
      (by decide) (by decide)).1⟩

end handlers

namespace store

open models

/-- C8, as stated, fails for the empty reason: `UpdateRechargeTransactionStatus`
sends an empty reference as NULL, so record 2 of the sample ledger ends with no
reference at all instead of the empty string. -/
theorem C8_counterexample :
    (UpdateRechargeTransactionStatus examples.ledgerDB 50 2 "Failed" "").1 = .ok () ∧
    (rechargeByID (UpdateRechargeTransactionStatus examples.ledgerDB 50 2 "Failed" "").2
      2).map (fun r => r.TransactionID) = some none ∧
    (rechargeByID (UpdateRechargeTransactionStatus examples.ledgerDB 50 2 "Failed" "").2
      2).map (fun r => r.TransactionID) ≠ some (some "") := by
  decide

/-- C8, amended. For an existing transaction, `UpdateRechargeTransactionStatus`
with status Failed leaves it Failed, with the reason as its reference when the
reason is not empty and with no reference (NULL) when it is empty, and with the
current time as update time; the `users` table, hence every balance, is
unchanged.  The call returns nil whenever this changes the record, that is
unless the record already holds exactly these three values.  For an unknown id
it returns `ErrNotFound` and the database is unchanged. -/
theorem C8_fail_recharge (s : DB) (now : Time) (rechargeRecordID : Int) (reason : String) :
    (∀ r, rechargeByID s rechargeRecordID = some r →
      ∃ s', (UpdateRechargeTransactionStatus s now rechargeRecordID "Failed" reason).2 = s' ∧
        (({ r with Status := "Failed",
                   TransactionID := if reason = "" then none else some reason,
                   UpdatedAt := now } : RechargeTransaction) ≠ r →
          UpdateRechargeTransactionStatus s now rechargeRecordID "Failed" reason =
            (.ok (), s')) ∧
        rechargeByID s' rechargeRecordID =
          some { r with Status := "Failed",
                        TransactionID := if reason = "" then none else some reason,
                        UpdatedAt := now } ∧
        s'.users = s.users ∧ ∀ v, GetUserBalance s' v = GetUserBalance s v) ∧
    (rechargeByID s rechargeRecordID = none →
      UpdateRechargeTransactionStatus s now rechargeRecordID "Failed" reason =
        (.error .ErrNotFound, s)) := by
  constructor
  · intro r hr
    obtain ⟨hmem, hid⟩ := rechargeByID_some s rechargeRecordID r hr
    refine ⟨(UpdateRechargeTransactionStatus s now rechargeRecordID "Failed" reason).2,
      rfl, ?_, ?_, ?_, ?_⟩
    · intro hne
      have hz : rowsAffected s.recharge_transactions (fun x => x.ID == rechargeRecordID)
          (fun x => { x with Status := "Failed",
                             TransactionID := if reason != "" then some reason else none,
                             UpdatedAt := now }) ≠ 0 := by
        apply rowsAffected_ne_zero _ _ _ r hmem (by simp [hid])
        by_cases hreason : reason = ""
        · simpa [hreason] using hne
        · simpa [hreason] using hne
      simp only [UpdateRechargeTransactionStatus, if_neg hz]
    · rw [UpdateRechargeTransactionStatus_state]
      unfold rechargeByID at hr ⊢
      simp only
      rw [find?_sqlUpdate _ _ _ _ (by intro _; rfl), hr]
      by_cases hreason : reason = "" <;> simp [hid, hreason]
    · rw [UpdateRechargeTransactionStatus_state]
    · intro v
      rw [UpdateRechargeTransactionStatus_state]
      rfl
  · intro hnone
    have hall : ∀ x ∈ s.recharge_transactions, (x.ID == rechargeRecordID) = false := by
      unfold rechargeByID at hnone
      rw [List.find?_eq_none] at hnone
      intro x hx
      simpa using hnone x hx
    have hz := rowsAffected_of_no_match s.recharge_transactions
      (fun x => x.ID == rechargeRecordID)
      (fun x => { x with Status := "Failed",
                         TransactionID := if reason != "" then some reason else none,
                         UpdatedAt := now }) hall
    simp only [UpdateRechargeTransactionStatus, hz, if_true]
    rw [sqlUpdate_of_no_match _ _ _ hall]

/-- C8 amended, on the sample ledger: failing the Pending record 2 with a
reason, and failing the unknown id 9. -/
theorem C8_witness :
    (∃ s', UpdateRechargeTransactionStatus examples.ledgerDB 50 2 "Failed" "SIM_FAIL_50_2" =
        (.ok (), s') ∧
      (rechargeByID s' 2).map (fun r => (r.Status, r.TransactionID)) =
        some ("Failed", some "SIM_FAIL_50_2") ∧
      s'.users = examples.ledgerDB.users) ∧
    UpdateRechargeTransactionStatus examples.ledgerDB 50 9 "Failed" "SIM_FAIL_50_9" =
      (.error .ErrNotFound, examples.ledgerDB) :=
  ⟨((C8_fail_recharge examples.ledgerDB 50 2 "SIM_FAIL_50_2").1 _ rfl).imp
      (fun _ h => ⟨h.2.1 (by decide), by rw [h.2.2.1]; decide, h.2.2.2.1⟩),
   (C8_fail_recharge examples.ledgerDB 50 9 "SIM_FAIL_50_9").2 (by decide)⟩

end store

namespace handlers

open models store float64

/-- C9, counterexample: `CreateRechargeTransaction` checks no amount.  Called
for user 1 with the amount -5 on the store with two users it returns the new
id 1 without error and inserts a Pending recharge transaction of -5. -/
theorem C9_counterexample :
    CreateRechargeTransaction examples.freshDB 10 1 (-5) "Simulated" =
      (.ok 1,
       { examples.freshDB with
         recharge_transactions :=
           [{ ID := 1, UserID := 1, Amount := -5, Status := "Pending", TransactionID := none,
              PaymentMethod := "Simulated", CreatedAt := 10, UpdatedAt := 10 }],
         recharge_transactions_seq := 2 }) := by
  decide

/-- C9, amended. `CreateRechargeTransaction` called with any amount, positive
or not, appends exactly one row to `recharge_transactions`, Pending, with the
given user, amount and payment method, leaves the rest of the database
unchanged and returns the id of that row.  The amount is checked by
`RechargeHandler` before it calls the store (steps 3 and 4): with an amount in
minor units that is 0 or negative the request is answered 400 Bad Request and
the database is unchanged; with a positive amount exactly one row is appended,
Pending, with the requesting user, that amount and the handler's payment
method, the rest of the database is unchanged, and the id returned is the id of
that row. -/
theorem C9_open_recharge_intent (s : DB) (now : Time) (userID : Int) (Amount : F64) :
    (∀ (amountInCents : Int) (paymentMethod : String),
      CreateRechargeTransaction s now userID amountInCents paymentMethod =
        (.ok s.recharge_transactions_seq,
         { s with
           recharge_transactions := s.recharge_transactions ++
             [{ ID := s.recharge_transactions_seq, UserID := userID, Amount := amountInCents,
                Status := "Pending", TransactionID := none, PaymentMethod := paymentMethod,
                CreatedAt := now, UpdatedAt := now }],
           recharge_transactions_seq := s.recharge_transactions_seq + 1 })) ∧
    (amountInCents Amount ≤ 0 →
      RechargeHandler_open s now userID Amount = (.error { Code := 400 }, s)) ∧
    (0 < amountInCents Amount →
      ∃ id s', RechargeHandler_open s now userID Amount =
          (.ok (amountInCents Amount, id), s') ∧
        s' = (CreateRechargeTransaction s now userID (amountInCents Amount) "Simulated").2 ∧
        s'.recharge_transactions = s.recharge_transactions ++
          [{ ID := id, UserID := userID, Amount := amountInCents Amount, Status := "Pending",
             TransactionID := none, PaymentMethod := "Simulated",
             CreatedAt := now, UpdatedAt := now }] ∧
        { s' with recharge_transactions := s.recharge_transactions,
                  recharge_transactions_seq := s.recharge_transactions_seq } = s) := by
  refine ⟨fun _ _ => rfl, ?_, ?_⟩
  · exact RechargeHandler_open_reject s now userID Amount
  · intro h
    exact ⟨s.recharge_transactions_seq, _, RechargeHandler_open_accept s now userID Amount h,
      rfl, rfl, rfl⟩

/-- C9 amended, on the sample ledger: an amount of 0 is refused by the handler,
an amount of 1.5 major units opens record 5 of 150 minor units. -/
theorem C9_witness :
    (amountInCents (.fin false 0 0) ≤ 0 ∧
      RechargeHandler_open examples.ledgerDB 50 2 (.fin false 0 0) =
        (.error { Code := 400 }, examples.ledgerDB)) ∧
    (0 < amountInCents (.fin false 3 (-1)) ∧
      ∃ id s', RechargeHandler_open examples.ledgerDB 50 2 (.fin false 3 (-1)) =
          (.ok (amountInCents (.fin false 3 (-1)), id), s') ∧
        s'.recharge_transactions = examples.ledgerDB.recharge_transactions ++
          [{ ID := id, UserID := 2, Amount := amountInCents (.fin false 3 (-1)),
             Status := "Pending", TransactionID := none, PaymentMethod := "Simulated",
             CreatedAt := 50, UpdatedAt := 50 }]) :=
  ⟨⟨by decide,
    (C9_open_recharge_intent examples.ledgerDB 50 2 (.fin false 0 0)).2.1 (by decide)⟩,
   ⟨by decide,
    ((C9_open_recharge_intent examples.ledgerDB 50 2 (.fin false 3 (-1))).2.2 (by decide)).imp
      (fun _ h => h.imp (fun _ h2 => ⟨h2.1, h2.2.2.1⟩))⟩⟩

/-- C10 at the amount 1.005: the JSON number decodes to the nearest float64,
which lies below 1.005; its float64 product with 100 lies below 100.5, so
`math.Round` gives 100 and 100 minor units enter the ledger and are credited,
while 100 * 1.005 rounded half away from zero is 101. -/
theorem C10_amount_1005_enters_as_100 :
    decode false 1005 3 = some examples.amount1005 ∧
    toRat examples.amount1005 < 1005 / 1000 ∧
    mul examples.amount1005 (.fin false 100 0) = .fin false 7072058789855231 (-46) ∧
    toRat (.fin false 7072058789855231 (-46)) < 201 / 2 ∧
    amountInCents examples.amount1005 = 100 ∧
    spec.minorUnits false 1005 3 = 101 ∧
    (RechargeHandler_open examples.freshDB 10 1 examples.amount1005).1 = .ok (100, 1) ∧
    (RechargeHandler examples.freshDB 10 1 examples.amount1005 true).1.Code = 200 ∧
    GetUserBalance (RechargeHandler examples.freshDB 10 1 examples.amount1005 true).2 1 =
      .ok 100 := by
  refine ⟨by decide, ?_, by decide, ?_, by decide, by decide, by decide, by decide, by decide⟩
  · norm_num [toRat, examples.amount1005]
  · norm_num [toRat]

end handlers

namespace store

open models

/-- The rows of `sqlWhere` are the rows of the table that satisfy every
condition. -/
theorem mem_sqlWhere {α : Type} (conditions : List (α → Bool)) (rows : List α) (r : α) :
    r ∈ sqlWhere conditions rows ↔ r ∈ rows ∧ ∀ c ∈ conditions, c r = true := by
  simp [sqlWhere, List.mem_filter, List.all_eq_true]

/-- `ORDER BY` only rearranges the rows. -/
theorem orderByDesc_perm {α : Type} (key : α → Int) (rows : List α) :
    (orderByDesc key rows).Perm rows :=
  List.perm_insertionSort _ rows

/-- After `ORDER BY key DESC` the keys never increase. -/
theorem orderByDesc_sorted {α : Type} (key : α → Int) (rows : List α) :
    (orderByDesc key rows).Sorted (fun a b => key b ≤ key a) := by
  haveI : IsTotal α (fun a b => key b ≤ key a) := ⟨fun a b => le_total (key b) (key a)⟩
  haveI : IsTrans α (fun a b => key b ≤ key a) := ⟨fun a b c hab hbc => le_trans hbc hab⟩
  exact List.sorted_insertionSort _ rows

/-- The conjunction of the conditions `GetUserRechargeHistory` collects is the
predicate the query asks for. -/
theorem history_conditions_iff (userID : Int) (f : RechargeHistoryFilters)
    (r : RechargeTransaction) :
    (∀ c ∈ ([fun r => r.UserID == userID]
        ++ optCond f.Status (fun st r => r.Status == st)
        ++ optCond f.StartDate (fun t r => decide (r.CreatedAt ≥ t))
        ++ optCond f.EndDate (fun t r => decide (r.CreatedAt ≤ t))
        ++ optCond f.MinAmount (fun a r => decide (r.Amount ≥ a))
        ++ optCond f.MaxAmount (fun a r => decide (r.Amount ≤ a)) :
        List (RechargeTransaction → Bool)), c r = true) ↔
      spec.HistoryMatch userID f r := by
  obtain ⟨sd, ed, mn, mx, st⟩ := f
  unfold spec.HistoryMatch
  cases sd <;> cases ed <;> cases mn <;> cases mx <;> cases st <;>
    simp [optCond]

/-- The rows `GetUserRechargeHistory` returns, as a set. -/
theorem mem_GetUserRechargeHistory (s : DB) (userID : Int) (f : RechargeHistoryFilters)
    (res : List RechargeTransaction) (h : GetUserRechargeHistory s userID f = .ok res)
    (r : RechargeTransaction) :
    r ∈ res ↔ r ∈ s.recharge_transactions ∧ spec.HistoryMatch userID f r := by
  unfold GetUserRechargeHistory at h
  simp only [Except.ok.injEq] at h
  rw [← h, (orderByDesc_perm _ _).mem_iff, mem_sqlWhere, history_conditions_iff]

/-- C11. `GetUserRechargeHistory` always returns a list; a row is in it exactly
when it is a recharge transaction of the store that belongs to the user and
satisfies every bound that is set (status equal, creation time within the
inclusive date bounds, amount within the inclusive amount bounds); such a row
occurs in the result as often as in the table, that is once; the result is
ordered by creation time descending; and with no bound set the result is a
rearrangement of all the user's transactions. -/
theorem C11_history_filter (s : DB) (userID : Int) (f : RechargeHistoryFilters) :
    ∃ res, GetUserRechargeHistory s userID f = .ok res ∧
      (∀ r, r ∈ res ↔ r ∈ s.recharge_transactions ∧ spec.HistoryMatch userID f r) ∧
      (∀ r, spec.HistoryMatch userID f r → res.count r = s.recharge_transactions.count r) ∧
      res.Sorted (fun a b => b.CreatedAt ≤ a.CreatedAt) ∧
      (f = {} → res.Perm (s.recharge_transactions.filter (fun r => r.UserID == userID))) := by
  refine ⟨_, rfl, ?_, ?_, ?_, ?_⟩
  · intro r
    exact mem_GetUserRechargeHistory s userID f _ rfl r
  · intro r hr
    rw [(orderByDesc_perm _ _).count_eq]
    unfold sqlWhere
    apply List.count_filter
    rw [List.all_eq_true]
    exact (history_conditions_iff userID f r).2 hr
  · exact orderByDesc_sorted _ _
  · intro hf
    subst hf
    refine (orderByDesc_perm _ _).trans ?_
    simp [sqlWhere, optCond]

end store

namespace store

open models

/-- C11 on the sample ledger: the Success recharges of user 1 between 500 and
5000 minor units. -/
theorem C11_witness :
    ∃ res, GetUserRechargeHistory examples.ledgerDB 1
        { Status := some "Success", MinAmount := some 500, MaxAmount := some 5000 } = .ok res ∧
      res.map (fun r => r.ID) = [1] ∧
      res.Sorted (fun a b => b.CreatedAt ≤ a.CreatedAt) :=
  (C11_history_filter examples.ledgerDB 1
    { Status := some "Success", MinAmount := some 500, MaxAmount := some 5000 }).imp
    (fun _ h => ⟨h.1, by
      have := h.1
      simp only [GetUserRechargeHistory, Except.ok.injEq] at this
      rw [← this]
      decide, h.2.2.2.1⟩)

end store

namespace handlers

open models store float64

/-- When `GET /recharges` accepts a query with the end date `d`, the filter it
builds has the last instant of day `d` as its end bound, and the same query
without the end date is accepted with the same filter minus that bound. -/
theorem rechargeHistoryFilters_end (normalize : String → String) (q : RechargeHistoryQuery)
    (f : RechargeHistoryFilters) (d : Int)
    (h : rechargeHistoryFilters normalize q = .ok f) (hend : q.end_date = .valid d) :
    f.EndDate = some (endOfDay (dayStart d)) ∧
      rechargeHistoryFilters normalize { q with end_date := .absent } =
        .ok { f with EndDate := none } := by
  have he : dateBound (Param.valid d) endOfDay = .ok (some (endOfDay (dayStart d))) := rfl
  have ha : dateBound (Param.absent : Param Int) endOfDay = .ok none := rfl
  unfold rechargeHistoryFilters at h ⊢
  simp only [hend, he, ha] at h ⊢
  cases h1 : dateBound q.start_date truncateDay with
  | error c => simp [h1] at h
  | ok sd =>
    simp only [h1] at h ⊢
    by_cases hc : crossed sd (some (endOfDay (dayStart d))) = true
    · simp [hc] at h
    · simp only [hc] at h
      have hc2 : crossed sd none = false := by cases sd <;> rfl
      simp only [hc2]
      cases h2 : amountBound q.min_amount with
      | error c => simp [h2] at h
      | ok mn =>
        simp only [h2] at h ⊢
        cases h3 : amountBound q.max_amount with
        | error c => simp [h3] at h
        | ok mx =>
          simp only [h3] at h ⊢
          by_cases hc3 : crossed mn mx = true
          · simp [hc3] at h
          · simp only [hc3] at h ⊢
            cases h4 : statusBound normalize ["Success", "Failed", "Pending"] q.status with
            | error c => simp [h4] at h
            | ok st =>
              simp only [h4] at h ⊢
              simp at h
              subst h
              simp

/-- The same for `GET /my-campaigns`, where the end bound is the start of day
`d`. -/
theorem campaignFilters_end (normalize : String → String) (q : ListingQuery)
    (f : CampaignFilters) (d : Int)
    (h : campaignFilters normalize q = .ok f) (hend : q.end_date = .valid d) :
    f.EndDate = some (dayStart d) ∧
      campaignFilters normalize { q with end_date := .absent } =
        .ok { f with EndDate := none } := by
  have he : dateBound (Param.valid d) id = .ok (some (dayStart d)) := rfl
  have ha : dateBound (Param.absent : Param Int) id = .ok none := rfl
  unfold campaignFilters at h ⊢
  simp only [hend, he, ha] at h ⊢
  cases h1 : dateBound q.start_date id with
  | error c => simp [h1] at h
  | ok sd =>
    simp only [h1] at h ⊢
    by_cases hc : crossed sd (some (dayStart d)) = true
    · simp [hc] at h
    · simp only [hc] at h
      have hc2 : crossed sd none = false := by cases sd <;> rfl
      simp only [hc2]
      cases h4 : statusBound normalize
          ["Pending", "Approved", "Rejected", "Cancelled", "Active", "Completed"]
          q.status with
      | error c => simp [h4] at h
      | ok st =>
        simp only [h4] at h ⊢
        simp at h
        subst h
        simp

/-- The last instant of day `d` is the instant before day `d + 1` starts. -/
theorem le_endOfDay_iff (t : Time) (d : Int) :
    t ≤ endOfDay (dayStart d) ↔ t < dayStart (d + 1) := by
  have key : ∀ x : Int, x ≤ d * 86400000000000 + 86400000000000 - 1 ↔
      x < (d + 1) * 86400000000000 := by
    intro x
    constructor <;> intro h <;> linarith
  exact key t

end handlers

namespace store

open models

/-- The rows `GetAdCampaignsByUserID` returns, as a set. -/
theorem mem_GetAdCampaignsByUserID (s : DB) (userID : Int) (f : CampaignFilters)
    (c : CampaignWithAdDetails) :
    c ∈ orderByDesc (fun c => c.CreatedAt) (sqlWhere
        ([fun c => c.UserID == userID]
          ++ optCond f.Status (fun st c => c.Status == st)
          ++ optCond f.StartDate (fun t c => decide (c.StartDate ≥ t))
          ++ optCond f.EndDate (fun t c => decide (c.EndDate ≤ t)) :
          List (CampaignWithAdDetails → Bool)) (campaignsJoinAds s)) ↔
      c ∈ campaignsJoinAds s ∧ c.UserID = userID ∧
        (∀ st, f.Status = some st → c.Status = st) ∧
        (∀ t, f.StartDate = some t → t ≤ c.StartDate) ∧
        (∀ t, f.EndDate = some t → c.EndDate ≤ t) := by
  rw [(orderByDesc_perm _ _).mem_iff, mem_sqlWhere]
  obtain ⟨sd, ed, st⟩ := f
  cases sd <;> cases ed <;> cases st <;> simp [optCond]

/-- The rows `GetInvoiceRequestsByUserID` returns, as a set. -/
theorem mem_GetInvoiceRequestsByUserID (s : DB) (userID : Int) (f : InvoiceRequestFilter)
    (r : InvoiceRequest) :
    r ∈ orderByDesc (fun r => r.RequestedAt) (sqlWhere
        ([fun r => r.UserID == userID]
          ++ optCond f.Status (fun st r => r.Status == st)
          ++ optCond f.StartDate (fun t r => decide (r.RequestedAt ≥ t))
          ++ optCond f.EndDate (fun t r => decide (r.RequestedAt ≤ endOfDay t)) :
          List (InvoiceRequest → Bool)) s.invoice_requests) ↔
      r ∈ s.invoice_requests ∧ r.UserID = userID ∧
        (∀ st, f.Status = some st → r.Status = st) ∧
        (∀ t, f.StartDate = some t → t ≤ r.RequestedAt) ∧
        (∀ t, f.EndDate = some t → r.RequestedAt ≤ endOfDay t) := by
  rw [(orderByDesc_perm _ _).mem_iff, mem_sqlWhere]
  obtain ⟨st, sd, ed⟩ := f
  cases sd <;> cases ed <;> cases st <;> simp [optCond]

end store

namespace handlers

open models store float64

/-- Adding an end bound to a recharge-history filter adds exactly the
condition on the creation time. -/
theorem HistoryMatch_end (userID : Int) (f : RechargeHistoryFilters) (e : Time)
    (r : RechargeTransaction) (he : f.EndDate = some e) :
    spec.HistoryMatch userID f r ↔
      spec.HistoryMatch userID { f with EndDate := none } r ∧ r.CreatedAt ≤ e := by
  unfold spec.HistoryMatch
  simp only [he]
  constructor
  · rintro ⟨h1, h2, h3, h4, h5, h6⟩
    exact ⟨⟨h1, h2, h3, by simp, h5, h6⟩, h4 e rfl⟩
  · rintro ⟨⟨h1, h2, h3, _, h5, h6⟩, h4⟩
    refine ⟨h1, h2, h3, ?_, h5, h6⟩
    intro t ht
    simp only [Option.some.injEq] at ht
    rw [← ht]
    exact h4

/-- Recharge history: the end date `d` of an accepted query keeps exactly the
rows created before day `d + 1` starts. -/
theorem recharge_history_end_bound (s : DB) (userID : Int) (normalize : String → String)
    (d : Int) (q : RechargeHistoryQuery) (rows : List RechargeTransaction)
    (hend : q.end_date = .valid d)
    (h : GetRechargeHistoryHandler s userID normalize q = { Code := 200, Data := some rows }) :
    ∃ rows0, GetRechargeHistoryHandler s userID normalize { q with end_date := .absent } =
        { Code := 200, Data := some rows0 } ∧
      ∀ r, r ∈ rows ↔ r ∈ rows0 ∧ r.CreatedAt < dayStart (d + 1) := by
  unfold GetRechargeHistoryHandler at h ⊢
  cases hf : rechargeHistoryFilters normalize q with
  | error c => simp [hf] at h
  | ok f =>
    obtain ⟨hfe, hf0⟩ := rechargeHistoryFilters_end normalize q f d hf hend
    rw [hf0]
    simp only [hf] at h
    cases hres : GetUserRechargeHistory s userID f with
    | error e => simp [GetUserRechargeHistory] at hres
    | ok res =>
      simp only [hres, Reply.mk.injEq, Option.some.injEq, true_and] at h
      subst h
      cases hres0 : GetUserRechargeHistory s userID { f with EndDate := none } with
      | error e => simp [GetUserRechargeHistory] at hres0
      | ok res0 =>
        refine ⟨res0, by simp only [hres0], ?_⟩
        intro r
        rw [mem_GetUserRechargeHistory s userID f res hres r,
          mem_GetUserRechargeHistory s userID _ res0 hres0 r,
          HistoryMatch_end userID f _ r hfe, le_endOfDay_iff]
        tauto

/-- Invoice listing: the end date `d` keeps exactly the requests made before
day `d + 1` starts. -/
theorem invoice_listing_end_bound (s : DB) (userID : Int) (d : Int) (q : ListingQuery)
    (hend : q.end_date = .valid d) :
    ∃ rows rows0, GetUserInvoicesHandler s userID q = { Code := 200, Data := some rows } ∧
      GetUserInvoicesHandler s userID { q with end_date := .absent } =
        { Code := 200, Data := some rows0 } ∧
      ∀ r, r ∈ rows ↔ r ∈ rows0 ∧ r.RequestedAt < dayStart (d + 1) := by
  refine ⟨_, _, rfl, rfl, ?_⟩
  intro r
  rw [mem_GetInvoiceRequestsByUserID, mem_GetInvoiceRequestsByUserID]
  simp only [invoiceFilters, hend]
  rw [← le_endOfDay_iff]
  constructor
  · rintro ⟨h1, h2, h3, h4, h5⟩
    exact ⟨⟨h1, h2, h3, h4, by simp⟩, h5 _ rfl⟩
  · rintro ⟨⟨h1, h2, h3, h4, _⟩, h5⟩
    refine ⟨h1, h2, h3, h4, ?_⟩
    intro t ht
    simp only [Option.some.injEq] at ht
    rw [← ht]
    exact h5

/-- Campaign listing: the end date `d` of an accepted query keeps exactly the
campaigns whose end date is not after the start of day `d`. -/
theorem campaign_listing_end_bound (s : DB) (userID : Int) (normalize : String → String)
    (d : Int) (q : ListingQuery) (rows : List CampaignWithAdDetails)
    (hend : q.end_date = .valid d)
    (h : GetUserCampaignsHandler s userID normalize q = { Code := 200, Data := some rows }) :
    ∃ rows0, GetUserCampaignsHandler s userID normalize { q with end_date := .absent } =
        { Code := 200, Data := some rows0 } ∧
      ∀ c, c ∈ rows ↔ c ∈ rows0 ∧ c.EndDate ≤ dayStart d := by
  unfold GetUserCampaignsHandler at h ⊢
  cases hf : campaignFilters normalize q with
  | error c => simp [hf] at h
  | ok f =>
    obtain ⟨hfe, hf0⟩ := campaignFilters_end normalize q f d hf hend
    rw [hf0]
    simp only [hf, GetAdCampaignsByUserID, Reply.mk.injEq, Option.some.injEq, true_and] at h
    subst h
    refine ⟨_, rfl, ?_⟩
    intro c
    rw [mem_GetAdCampaignsByUserID, mem_GetAdCampaignsByUserID]
    simp only [hfe]
    constructor
    · rintro ⟨h1, h2, h3, h4, h5⟩
      exact ⟨⟨h1, h2, h3, h4, by simp⟩, h5 _ rfl⟩
    · rintro ⟨⟨h1, h2, h3, h4, _⟩, h5⟩
      refine ⟨h1, h2, h3, h4, ?_⟩
      intro t ht
      simp only [Option.some.injEq] at ht
      rw [← ht]
      exact h5

/-- C12, as stated, fails for the campaign listing.  In the sample store
campaign 2 ends at noon of day 10 and campaign 3 is created one hour into day
10; `GET /my-campaigns` with end date 10 returns neither, only campaign 1:
the bound is compared, as the start of day 10, with the campaign's end date. -/
theorem C12_counterexample :
    (∃ c ∈ examples.listingDB.ad_campaigns, c.ID = 2 ∧ c.UserID = 1 ∧
      dayStart 10 ≤ c.EndDate ∧ c.EndDate < dayStart 11) ∧
    (∃ c ∈ examples.listingDB.ad_campaigns, c.ID = 3 ∧ c.UserID = 1 ∧
      dayStart 10 ≤ c.CreatedAt ∧ c.CreatedAt < dayStart 11) ∧
    (GetUserCampaignsHandler examples.listingDB 1 id {}).Data.map
      (fun rows => rows.map (fun c => c.ID)) = some [3, 2, 1] ∧
    (GetUserCampaignsHandler examples.listingDB 1 id { end_date := .valid 10 }).Data.map
      (fun rows => rows.map (fun c => c.ID)) = some [1] := by
  decide

/-- C12, amended. In recharge history and in invoice listing an end date `d`
is expanded to the last instant of day `d`: of the rows the query selects
without the end date, exactly those with a timestamp before the start of day
`d + 1` are returned.  In campaign listing the end date is not expanded: of the
campaigns the query selects without it, exactly those whose end date is not
after the start of day `d` are returned. -/
theorem C12_end_date_bound (s : DB) (userID : Int) (normalize : String → String) (d : Int) :
    (∀ q rows, q.end_date = .valid d →
      GetRechargeHistoryHandler s userID normalize q = { Code := 200, Data := some rows } →
      ∃ rows0, GetRechargeHistoryHandler s userID normalize { q with end_date := .absent } =
          { Code := 200, Data := some rows0 } ∧
        ∀ r, r ∈ rows ↔ r ∈ rows0 ∧ r.CreatedAt < dayStart (d + 1)) ∧
    (∀ q, q.end_date = .valid d →
      ∃ rows rows0, GetUserInvoicesHandler s userID q = { Code := 200, Data := some rows } ∧
        GetUserInvoicesHandler s userID { q with end_date := .absent } =
          { Code := 200, Data := some rows0 } ∧
        ∀ r, r ∈ rows ↔ r ∈ rows0 ∧ r.RequestedAt < dayStart (d + 1)) ∧
    (∀ q rows, q.end_date = .valid d →
      GetUserCampaignsHandler s userID normalize q = { Code := 200, Data := some rows } →
      ∃ rows0, GetUserCampaignsHandler s userID normalize { q with end_date := .absent } =
          { Code := 200, Data := some rows0 } ∧
        ∀ c, c ∈ rows ↔ c ∈ rows0 ∧ c.EndDate ≤ dayStart d) :=
  ⟨fun q rows hend h => recharge_history_end_bound s userID normalize d q rows hend h,
   fun q hend => invoice_listing_end_bound s userID d q hend,
   fun q rows hend h => campaign_listing_end_bound s userID normalize d q rows hend h⟩

end handlers

namespace handlers

open models store float64

/-- C12 amended, on the sample stores: recharge history of user 1 up to day 0
and the campaign listing of user 1 up to day 10. -/
theorem C12_witness :
    (∃ rows0, GetRechargeHistoryHandler examples.ledgerDB 1 id {} =
        { Code := 200, Data := some rows0 } ∧
      ∀ r, r ∈ ((GetRechargeHistoryHandler examples.ledgerDB 1 id
          { end_date := .valid 0 }).Data.getD []) ↔
        r ∈ rows0 ∧ r.CreatedAt < dayStart (0 + 1)) ∧
    (∃ rows0, GetUserCampaignsHandler examples.campaignDB 1 id {} =
        { Code := 200, Data := some rows0 } ∧
      ∀ c, c ∈ ((GetUserCampaignsHandler examples.campaignDB 1 id
          { end_date := .valid 10 }).Data.getD []) ↔
        c ∈ rows0 ∧ c.EndDate ≤ dayStart 10) :=
  ⟨(C12_end_date_bound examples.ledgerDB 1 id 0).1 { end_date := .valid 0 } _ rfl (by decide),
   (C12_end_date_bound examples.campaignDB 1 id 10).2.2 { end_date := .valid 10 } _ rfl
     (by decide)⟩

end handlers

namespace store

open models

/-- A campaign found by id is a row of the table and carries that id. -/
theorem campaignByID_some (s : DB) (id : Int) (c : AdCampaign)
    (h : campaignByID s id = some c) : c ∈ s.ad_campaigns ∧ c.ID = id := by
  refine ⟨List.mem_of_find?_eq_some h, ?_⟩
  have := List.find?_some h
  simpa using this

/-- An advertisement found by id is a row of the table and carries that id. -/
theorem advertisementByID_some (s : DB) (id : Int) (a : Advertisement)
    (h : advertisementByID s id = some a) : a ∈ s.advertisements ∧ a.ID = id := by
  refine ⟨List.mem_of_find?_eq_some h, ?_⟩
  have := List.find?_some h
  simpa using this

/-- C13 on the sample store: campaign 2 belongs to user 1 and is Rejected, yet
the owner's cancellation succeeds, in the store and through
`CancelCampaignHandler`, and leaves it Cancelled; the same happens to the
Active campaign 3. -/
theorem C13_cancel_ignores_current_status :
    (campaignByID examples.campaignDB 2).map (fun c => (c.UserID, c.Status)) =
      some (1, "Rejected") ∧
    (UpdateAdCampaignStatusByUser examples.campaignDB 500 2 1 "Cancelled").1 = .ok () ∧
    (campaignByID (UpdateAdCampaignStatusByUser examples.campaignDB 500 2 1 "Cancelled").2
      2).map (fun c => c.Status) = some "Cancelled" ∧
    (handlers.CancelCampaignHandler examples.campaignDB 500 1 (.valid 2)).1.Code = 200 ∧
    (campaignByID examples.campaignDB 3).map (fun c => (c.UserID, c.Status)) =
      some (1, "Active") ∧
    (UpdateAdCampaignStatusByUser examples.campaignDB 500 3 1 "Cancelled").1 = .ok () ∧
    (campaignByID (UpdateAdCampaignStatusByUser examples.campaignDB 500 3 1 "Cancelled").2
      3).map (fun c => c.Status) = some "Cancelled" := by
  decide

/-- C14. Owner cancellation (`UpdateAdCampaignStatusByUser` with status
Cancelled, as `CancelCampaignHandler` calls it).  When no campaign with id
`campaignID` belongs to `userID` (no such campaign, or another owner) it
returns `ErrNotFound`, the handler answers 404, and the database is unchanged.
When the campaign belongs to `userID`, the campaign is Cancelled afterwards
with the update time, and all its other fields, all other campaigns and all
other tables are unchanged; the call returns nil and the handler answers 200
whenever this changes the campaign, that is unless it was already Cancelled
with this very update time. -/
theorem C14_owner_cancellation (s : DB) (now : Time) (campaignID userID : Int) :
    ((∀ x ∈ s.ad_campaigns, x.ID = campaignID → x.UserID ≠ userID) →
      UpdateAdCampaignStatusByUser s now campaignID userID "Cancelled" =
        (.error .ErrNotFound, s) ∧
      (0 < campaignID →
        handlers.CancelCampaignHandler s now userID (.valid campaignID) =
          ({ Code := 404 }, s))) ∧
    (∀ x, campaignByID s campaignID = some x → x.UserID = userID →
      ∃ s', (UpdateAdCampaignStatusByUser s now campaignID userID "Cancelled").2 = s' ∧
        (({ x with Status := "Cancelled", UpdatedAt := now } : AdCampaign) ≠ x →
          UpdateAdCampaignStatusByUser s now campaignID userID "Cancelled" = (.ok (), s') ∧
          (0 < campaignID →
            handlers.CancelCampaignHandler s now userID (.valid campaignID) =
              ({ Code := 200 }, s'))) ∧
        campaignByID s' campaignID =
          some { x with Status := "Cancelled", UpdatedAt := now } ∧
        s'.ad_campaigns.filter (fun y => y.ID != campaignID) =
          s.ad_campaigns.filter (fun y => y.ID != campaignID) ∧
        { s' with ad_campaigns := s.ad_campaigns } = s) := by
  constructor
  · intro hno
    have hall : ∀ x ∈ s.ad_campaigns,
        (x.ID == campaignID && x.UserID == userID) = false := by
      intro x hx
      by_cases hid : x.ID = campaignID
      · have := hno x hx hid
        simp [hid, this]
      · simp [hid]
    have hz := rowsAffected_of_no_match s.ad_campaigns
      (fun x => x.ID == campaignID && x.UserID == userID)
      (fun c => { c with Status := "Cancelled", UpdatedAt := now }) hall
    have hstore : UpdateAdCampaignStatusByUser s now campaignID userID "Cancelled" =
        (.error .ErrNotFound, s) := by
      simp only [UpdateAdCampaignStatusByUser, hz, if_true]
      rw [sqlUpdate_of_no_match _ _ _ hall]
    refine ⟨hstore, ?_⟩
    intro hpos
    have hn : ¬ campaignID ≤ 0 := not_le.2 hpos
    simp only [handlers.CancelCampaignHandler, hn, if_false, hstore]
  · intro x hx hown
    obtain ⟨hmem, hid⟩ := campaignByID_some s campaignID x hx
    refine ⟨_, UpdateAdCampaignStatusByUser_state s now campaignID userID "Cancelled",
      ?_, ?_, ?_, rfl⟩
    · intro hne
      have hz : rowsAffected s.ad_campaigns
          (fun x => x.ID == campaignID && x.UserID == userID)
          (fun c => { c with Status := "Cancelled", UpdatedAt := now }) ≠ 0 :=
        rowsAffected_ne_zero _ _ _ x hmem (by simp [hid, hown]) hne
      have hstore : UpdateAdCampaignStatusByUser s now campaignID userID "Cancelled" =
          (.ok (), { s with
            ad_campaigns := sqlUpdate s.ad_campaigns
              (fun x => x.ID == campaignID && x.UserID == userID)
              (fun c => { c with Status := "Cancelled", UpdatedAt := now }) }) := by
        simp only [UpdateAdCampaignStatusByUser, if_neg hz]
      refine ⟨hstore, ?_⟩
      intro hpos
      have hn : ¬ campaignID ≤ 0 := not_le.2 hpos
      simp only [handlers.CancelCampaignHandler, hn, if_false, hstore]
    · unfold campaignByID at hx ⊢
      simp only
      rw [find?_sqlUpdate _ _ _ _ (by intro _; rfl), hx]
      simp [hid, hown]
    · simp only
      apply filter_sqlUpdate
      · intro y hy
        simp at hy
        simp [hy.1]
      · intro y hy
        simp at hy
        simp [hy.1]

/-- C14 on the sample store: user 2 cannot cancel campaign 4 of user 1, user 1
can. -/
theorem C14_witness :
    UpdateAdCampaignStatusByUser examples.campaignDB 500 4 2 "Cancelled" =
      (.error .ErrNotFound, examples.campaignDB) ∧
    ∃ s', UpdateAdCampaignStatusByUser examples.campaignDB 500 4 1 "Cancelled" = (.ok (), s') ∧
      (campaignByID s' 4).map (fun c => (c.Status, c.UpdatedAt)) = some ("Cancelled", 500) :=
  ⟨((C14_owner_cancellation examples.campaignDB 500 4 2).1 (by decide)).1,
   ((C14_owner_cancellation examples.campaignDB 500 4 1).2 _ rfl rfl).imp
     (fun _ h => ⟨(h.2.1 (by decide)).1, by rw [h.2.2.1]; rfl⟩)⟩

end store

namespace store

open models

/-- `GetRandomActiveCampaign` returns `ErrNotFound` exactly when no campaign
has status Active with the current time inside its window. -/
theorem GetRandomActiveCampaign_notFound_iff (s : DB) (now : Time) (rand : Nat) :
    GetRandomActiveCampaign s now rand = .error .ErrNotFound ↔
      ∀ c ∈ s.ad_campaigns, ¬ (c.Status = "Active" ∧ c.StartDate ≤ now ∧ now ≤ c.EndDate) := by
  unfold GetRandomActiveCampaign
  simp only
  generalize hrows : s.ad_campaigns.filter
    (fun c => c.Status == "Active" && decide (c.StartDate ≤ now) && decide (c.EndDate ≥ now)) = rows
  have hnil : rows = [] ↔
      ∀ c ∈ s.ad_campaigns, ¬ (c.Status = "Active" ∧ c.StartDate ≤ now ∧ now ≤ c.EndDate) := by
    rw [← hrows, List.filter_eq_nil_iff]
    constructor
    · intro h c hc hcond
      apply h c hc
      simp [hcond.1, hcond.2.1, hcond.2.2]
    · intro h c hc hb
      apply h c hc
      simpa [and_assoc] using hb
  rw [← hnil]
  cases hget : rows[rand % rows.length]? with
  | none =>
    simp only [true_iff]
    rw [List.getElem?_eq_none_iff] at hget
    by_contra hne
    have hpos : 0 < rows.length := List.length_pos.2 hne
    exact absurd (Nat.mod_lt rand hpos) (not_lt.2 hget)
  | some c =>
    simp only [reduceCtorEq, false_iff]
    intro hnil'
    rw [hnil'] at hget
    simp at hget

/-- A campaign returned by `GetRandomActiveCampaign` is a row of the store with
status Active whose window contains the current time. -/
theorem GetRandomActiveCampaign_ok (s : DB) (now : Time) (rand : Nat) (c : AdCampaign)
    (h : GetRandomActiveCampaign s now rand = .ok c) :
    c ∈ s.ad_campaigns ∧ c.Status = "Active" ∧ c.StartDate ≤ now ∧ now ≤ c.EndDate := by
  unfold GetRandomActiveCampaign at h
  simp only at h
  generalize hrows : s.ad_campaigns.filter
    (fun c => c.Status == "Active" && decide (c.StartDate ≤ now) && decide (c.EndDate ≥ now)) = rows
    at h
  cases hget : rows[rand % rows.length]? with
  | none => simp [hget] at h
  | some c0 =>
    simp only [hget, Except.ok.injEq] at h
    subst h
    have hmem : c0 ∈ rows := List.getElem?_mem hget
    rw [← hrows, List.mem_filter] at hmem
    obtain ⟨h1, h2⟩ := hmem
    simp only [Bool.and_eq_true, beq_iff_eq, decide_eq_true_eq] at h2
    exact ⟨h1, h2.1.1, h2.1.2, h2.2⟩

/-- C15 on the store of the end-to-end scenario: campaign 1 is Approved with
the window from day 5 to day 10, the current time is the start of day 7, and
`GetRandomActiveCampaign` returns `ErrNotFound` whatever the random draw,
because it selects the status Active only. -/
theorem C15_approved_campaign_not_served :
    (campaignByID examples.e2eApproved 1).map (fun c => (c.Status, c.StartDate, c.EndDate)) =
      some ("Approved", dayStart 5, dayStart 10) ∧
    dayStart 5 ≤ dayStart 7 ∧ dayStart 7 ≤ dayStart 10 ∧
    ∀ rand, GetRandomActiveCampaign examples.e2eApproved (dayStart 7) rand =
      .error .ErrNotFound := by
  set_option maxRecDepth 100000 in
  refine ⟨by decide, by decide, by decide, ?_⟩
  intro rand
  rw [GetRandomActiveCampaign_notFound_iff]
  decide

/-- C16. A campaign returned by `GetRandomActiveCampaign` is a campaign of the
store, its status is eligible (it is Active, hence one of Approved and Active,
and none of Pending, Rejected, Cancelled, Completed), and the current time lies
in its window: `StartDate ≤ now ≤ EndDate`. -/
theorem C16_selected_campaign_is_eligible (s : DB) (now : Time) (rand : Nat) (c : AdCampaign)
    (h : GetRandomActiveCampaign s now rand = .ok c) :
    c ∈ s.ad_campaigns ∧ (c.Status = "Approved" ∨ c.Status = "Active") ∧
      c.StartDate ≤ now ∧ now ≤ c.EndDate ∧
      c.Status ≠ "Pending" ∧ c.Status ≠ "Rejected" ∧ c.Status ≠ "Cancelled" ∧
      c.Status ≠ "Completed" := by
  obtain ⟨h1, h2, h3, h4⟩ := GetRandomActiveCampaign_ok s now rand c h
  refine ⟨h1, Or.inr h2, h3, h4, ?_, ?_, ?_, ?_⟩ <;> rw [h2] <;> decide

/-- C16 on the sample store, at the start of day 7: the Active campaign 3 is
returned. -/
theorem C16_witness :
    GetRandomActiveCampaign examples.campaignDB (dayStart 7) 0 =
      .ok { ID := 3, AdvertisementID := 1, UserID := 1, StartDate := dayStart 5,
            EndDate := dayStart 10 + 43200000000000, Status := "Active",
            CreatedAt := 300, UpdatedAt := 300 } ∧
    dayStart 5 ≤ dayStart 7 ∧ dayStart 7 ≤ dayStart 10 + 43200000000000 :=
  ⟨by decide,
   (C16_selected_campaign_is_eligible examples.campaignDB (dayStart 7) 0
      { ID := 3, AdvertisementID := 1, UserID := 1, StartDate := dayStart 5,
        EndDate := dayStart 10 + 43200000000000, Status := "Active",
        CreatedAt := 300, UpdatedAt := 300 } (by decide)).2.2.1,
   (C16_selected_campaign_is_eligible examples.campaignDB (dayStart 7) 0
      { ID := 3, AdvertisementID := 1, UserID := 1, StartDate := dayStart 5,
        EndDate := dayStart 10 + 43200000000000, Status := "Active",
        CreatedAt := 300, UpdatedAt := 300 } (by decide)).2.2.2.1⟩

end store

namespace handlers

open models store float64

/-- C17, the end-to-end scenario run on the code.  The recharge of 50.00 brings
the balance to 5000, the creative is submitted (201) and approved (200), the
campaign is requested (201) and approved (200).  Then, inside the window,
`GetAdHandler` answers 200 without any creative and logs nothing, whatever the
random draw; the click is logged and redirected to the creative's target; the
event log ends with 0 Impressions and 1 Click. -/
theorem C17_end_to_end_serves_nothing :
    GetUserBalance examples.freshDB 1 = .ok 0 ∧
    GetUserBalance examples.e2eRecharged 1 = .ok 5000 ∧
    (SubmitAdHandler examples.e2eRecharged 1
      (some { Title := "Shoes", ImageURL := "https://img.example/shoes.png",
              TargetURL := "https://shop.example/shoes" })).1 =
      { Code := 201, Data := some 1 } ∧
    (advertisementByID examples.e2eSubmitted 1).map (fun a => a.Status) = some "Pending" ∧
    (ReviewAdHandler examples.e2eSubmitted (.valid 1) (some "Approved")).1.Code = 200 ∧
    (advertisementByID examples.e2eAdApproved 1).map (fun a => a.Status) = some "Approved" ∧
    (RequestCampaignHandler examples.e2eAdApproved 30 1
      (some { AdvertisementID := 1, StartDate := some 5, EndDate := some 10 })).1 =
      { Code := 201, Data := some 1 } ∧
    (campaignByID examples.e2eRequested 1).map (fun c => c.Status) = some "Pending" ∧
    (ReviewCampaignHandler examples.e2eRequested (.valid 1) (some "Approved")).1.Code = 200 ∧
    (campaignByID examples.e2eApproved 1).map (fun c => (c.Status, c.StartDate, c.EndDate)) =
      some ("Approved", dayStart 5, dayStart 10) ∧
    (∀ rand, GetAdHandler examples.e2eApproved (dayStart 7) rand true =
      ({ Code := 200, Data := none }, examples.e2eApproved)) ∧
    examples.e2eServed.ad_events = [] ∧
    (AdClickHandler examples.e2eServed (dayStart 7 + 1) true (some 1) (some 1)).1 =
      { Code := 302, Data := some "https://shop.example/shoes" } ∧
    examples.e2eClicked.ad_events =
      [{ ID := 1, EventType := "Click", AdvertisementID := 1, CampaignID := 1, UserID := 1,
         EventTimestamp := dayStart 7 + 1 }] ∧
    (examples.e2eClicked.ad_events.filter (fun e => e.EventType == "Impression")).length = 0 ∧
    (examples.e2eClicked.ad_events.filter (fun e => e.EventType == "Click")).length = 1 := by
  refine ⟨by decide, by decide, by decide, by decide, by decide, by decide, by decide,
    by decide, by decide, by decide, ?_, by decide, by decide, by decide, by decide,
    by decide⟩
  intro rand
  have h : GetRandomActiveCampaign examples.e2eApproved (dayStart 7) rand =
      .error .ErrNotFound := by
    rw [GetRandomActiveCampaign_notFound_iff]
    decide
  simp only [GetAdHandler, h]

end handlers

namespace handlers

open models store float64

/-- Days are ordered like their starting instants. -/
theorem dayStart_lt_iff (a b : Int) : dayStart a < dayStart b ↔ a < b := by
  have key : ∀ x y : Int, x * 86400000000000 < y * 86400000000000 ↔ x < y := by
    intro x y
    constructor <;> intro h <;> omega
  exact key a b

/-- `GetAdvertisementByID` in terms of the lookup by id. -/
theorem GetAdvertisementByID_eq (s : DB) (adID : Int) :
    GetAdvertisementByID s adID =
      match advertisementByID s adID with
      | some a => .ok a
      | none => .error .ErrNotFound := rfl

/-- `GetAdCampaignByID` in terms of the lookup by id. -/
theorem GetAdCampaignByID_eq (s : DB) (campaignID : Int) :
    GetAdCampaignByID s campaignID =
      match campaignByID s campaignID with
      | some c => .ok c
      | none => .error .ErrNotFound := rfl

/-- `RequestCampaignHandler` once the request has passed the checks on the id
and the dates: what remains are the checks on the creative. -/
theorem RequestCampaignHandler_checked (s : DB) (now : Time) (userID : Int)
    (req : CampaignRequestData) (sd ed : Int)
    (hid : 0 < req.AdvertisementID) (hs : req.StartDate = some sd)
    (he : req.EndDate = some ed) (hle : sd ≤ ed) :
    RequestCampaignHandler s now userID (some req) =
      match advertisementByID s req.AdvertisementID with
      | none => ({ Code := 404 }, s)
      | some ad =>
        if ad.UserID ≠ userID then ({ Code := 403 }, s)
        else if ad.Status ≠ "Approved" then ({ Code := 400 }, s)
        else
          ({ Code := 201, Data := some s.ad_campaigns_seq },
           { s with
             ad_campaigns := s.ad_campaigns ++
               [{ ID := s.ad_campaigns_seq, AdvertisementID := req.AdvertisementID,
                  UserID := userID, StartDate := dayStart sd, EndDate := dayStart ed,
                  Status := "Pending", CreatedAt := now, UpdatedAt := now }],
             ad_campaigns_seq := s.ad_campaigns_seq + 1 }) := by
  have h1 : ¬ req.AdvertisementID ≤ 0 := not_le.2 hid
  have h2 : ¬ dayStart ed < dayStart sd := by
    rw [dayStart_lt_iff]
    exact not_lt.2 hle
  simp only [RequestCampaignHandler, h1, if_false, hs, he, h2, GetAdvertisementByID_eq]
  cases hget : advertisementByID s req.AdvertisementID with
  | none => rfl
  | some ad =>
    simp only
    by_cases hu : ad.UserID = userID
    · by_cases hst : ad.Status = "Approved"
      · simp [hu, hst, CreateAdCampaign]
      · simp [hu, hst]
    · simp [hu]

/-- `RequestCampaignHandler` on a request whose id is not positive, or one of
whose dates is malformed, or whose dates are inverted: 400, nothing written. -/
theorem RequestCampaignHandler_malformed (s : DB) (now : Time) (userID : Int)
    (req : CampaignRequestData)
    (h : req.AdvertisementID ≤ 0 ∨ req.StartDate = none ∨ req.EndDate = none ∨
      ∃ sd ed, req.StartDate = some sd ∧ req.EndDate = some ed ∧ ed < sd) :
    RequestCampaignHandler s now userID (some req) = ({ Code := 400 }, s) := by
  unfold RequestCampaignHandler
  simp only
  by_cases h1 : req.AdvertisementID ≤ 0
  · simp [h1]
  · simp only [h1, if_false]
    cases hs : req.StartDate with
    | none => rfl
    | some sd =>
      cases he : req.EndDate with
      | none => rfl
      | some ed =>
        simp only
        have hlt : ed < sd := by
          rcases h with h | h | h | ⟨sd', ed', h3, h4, h5⟩
          · exact absurd h h1
          · rw [hs] at h; cases h
          · rw [he] at h; cases h
          · rw [hs] at h3; rw [he] at h4
            cases h3; cases h4
            exact h5
        have : dayStart ed < dayStart sd := (dayStart_lt_iff ed sd).2 hlt
        simp [this]

/-- C18, as stated, fails on the error kind for a missing creative: the sample
store has no creative 99, and the request is answered 404 Not Found, not 400
Bad Request; no campaign is created. -/
theorem C18_counterexample :
    advertisementByID examples.campaignDB 99 = none ∧
    RequestCampaignHandler examples.campaignDB 500 1
      (some { AdvertisementID := 99, StartDate := some 5, EndDate := some 10 }) =
      ({ Code := 404 }, examples.campaignDB) := by
  decide

/-- C18, amended. `RequestCampaignHandler` creates a campaign exactly when the
creative id is positive, both dates are well-formed with the end not before
the start, and the creative exists, belongs to the requester and is Approved;
the campaign is appended with status Pending and the requested creative, owner
and dates, and its id is returned with 201.  Otherwise nothing is written and
the answer is 400 for a non-positive id, a malformed date or inverted dates,
then 404 when the creative does not exist, 403 when it belongs to another
user, and 400 when it is not Approved. -/
theorem C18_request_campaign (s : DB) (now : Time) (userID : Int) (req : CampaignRequestData) :
    (∀ sd ed ad, 0 < req.AdvertisementID → req.StartDate = some sd → req.EndDate = some ed →
      sd ≤ ed → advertisementByID s req.AdvertisementID = some ad →
      ad.UserID = userID → ad.Status = "Approved" →
      RequestCampaignHandler s now userID (some req) =
        ({ Code := 201, Data := some s.ad_campaigns_seq },
         { s with
           ad_campaigns := s.ad_campaigns ++
             [{ ID := s.ad_campaigns_seq, AdvertisementID := req.AdvertisementID,
                UserID := userID, StartDate := dayStart sd, EndDate := dayStart ed,
                Status := "Pending", CreatedAt := now, UpdatedAt := now }],
           ad_campaigns_seq := s.ad_campaigns_seq + 1 })) ∧
    ((req.AdvertisementID ≤ 0 ∨ req.StartDate = none ∨ req.EndDate = none ∨
        ∃ sd ed, req.StartDate = some sd ∧ req.EndDate = some ed ∧ ed < sd) →
      RequestCampaignHandler s now userID (some req) = ({ Code := 400 }, s)) ∧
    (∀ sd ed, 0 < req.AdvertisementID → req.StartDate = some sd → req.EndDate = some ed →
      sd ≤ ed → advertisementByID s req.AdvertisementID = none →
      RequestCampaignHandler s now userID (some req) = ({ Code := 404 }, s)) ∧
    (∀ sd ed ad, 0 < req.AdvertisementID → req.StartDate = some sd → req.EndDate = some ed →
      sd ≤ ed → advertisementByID s req.AdvertisementID = some ad → ad.UserID ≠ userID →
      RequestCampaignHandler s now userID (some req) = ({ Code := 403 }, s)) ∧
    (∀ sd ed ad, 0 < req.AdvertisementID → req.StartDate = some sd → req.EndDate = some ed →
      sd ≤ ed → advertisementByID s req.AdvertisementID = some ad → ad.UserID = userID →
      ad.Status ≠ "Approved" →
      RequestCampaignHandler s now userID (some req) = ({ Code := 400 }, s)) ∧
    ((RequestCampaignHandler s now userID (some req)).1.Code = 201 ↔
      spec.CampaignRequestOK s userID req) := by
  refine ⟨?_, RequestCampaignHandler_malformed s now userID req, ?_, ?_, ?_, ?_⟩
  · intro sd ed ad hid hs he hle hget hu hst
    rw [RequestCampaignHandler_checked s now userID req sd ed hid hs he hle, hget]
    simp [hu, hst]
  · intro sd ed hid hs he hle hget
    rw [RequestCampaignHandler_checked s now userID req sd ed hid hs he hle, hget]
  · intro sd ed ad hid hs he hle hget hu
    rw [RequestCampaignHandler_checked s now userID req sd ed hid hs he hle, hget]
    simp [hu]
  · intro sd ed ad hid hs he hle hget hu hst
    rw [RequestCampaignHandler_checked s now userID req sd ed hid hs he hle, hget]
    simp [hu, hst]
  · constructor
    · intro hcode
      by_cases hbad : req.AdvertisementID ≤ 0 ∨ req.StartDate = none ∨ req.EndDate = none ∨
          ∃ sd ed, req.StartDate = some sd ∧ req.EndDate = some ed ∧ ed < sd
      · rw [RequestCampaignHandler_malformed s now userID req hbad] at hcode
        simp at hcode
      · simp only [not_or, not_le, not_exists, not_and, not_lt] at hbad
        obtain ⟨hid, hs, he, hle⟩ := hbad
        obtain ⟨sd, hs⟩ := Option.ne_none_iff_exists'.1 hs
        obtain ⟨ed, he⟩ := Option.ne_none_iff_exists'.1 he
        have hle' := hle sd ed hs he
        rw [RequestCampaignHandler_checked s now userID req sd ed hid hs he hle'] at hcode
        refine ⟨hid, sd, ed, hs, he, hle', ?_⟩
        cases hget : advertisementByID s req.AdvertisementID with
        | none => simp [hget] at hcode
        | some ad =>
          simp only [hget] at hcode
          by_cases hu : ad.UserID = userID
          · by_cases hst : ad.Status = "Approved"
            · exact ⟨ad, rfl, hu, hst⟩
            · simp [hu, hst] at hcode
          · simp [hu] at hcode
    · rintro ⟨hid, sd, ed, hs, he, hle, ad, hget, hu, hst⟩
      rw [RequestCampaignHandler_checked s now userID req sd ed hid hs he hle, hget]
      simp [hu, hst]

/-- C18 amended, on the sample store: user 1 requests a campaign for the
approved creative 1 from day 5 to day 10. -/
theorem C18_witness :
    spec.CampaignRequestOK examples.campaignDB 1
      { AdvertisementID := 1, StartDate := some 5, EndDate := some 10 } ∧
    (RequestCampaignHandler examples.campaignDB 500 1
      (some { AdvertisementID := 1, StartDate := some 5, EndDate := some 10 })).1 =
      { Code := 201, Data := some 5 } :=
  ⟨((C18_request_campaign examples.campaignDB 500 1
      { AdvertisementID := 1, StartDate := some 5, EndDate := some 10 }).2.2.2.2.2).1
      (by decide),
   congrArg Prod.fst ((C18_request_campaign examples.campaignDB 500 1
      { AdvertisementID := 1, StartDate := some 5, EndDate := some 10 }).1 5 10
      { ID := 1, Title := "Shoes", ImageURL := "https://img.example/shoes.png",
        TargetURL := "https://shop.example/shoes", UserID := 1, Status := "Approved" }
      (by decide) rfl rfl (by decide) (by decide) rfl rfl)⟩

end handlers

namespace store

open models

/-- Setting the status of an advertisement changes the row exactly when the
status is another one. -/
theorem advertisement_status_unchanged_iff (a : Advertisement) (status : String) :
    ({ a with Status := status } : Advertisement) = a ↔ a.Status = status := by
  cases a
  simp [eq_comm]

/-- Setting the status of a campaign changes the row exactly when the status
is another one. -/
theorem campaign_status_unchanged_iff (c : AdCampaign) (status : String) :
    ({ c with Status := status } : AdCampaign) = c ↔ c.Status = status := by
  cases c
  simp [eq_comm]

/-- `UpdateAdvertisementStatus` returns `ErrNotFound` exactly when every
advertisement with the id already has the status, which includes the case
that there is none; the database is then unchanged. -/
theorem UpdateAdvertisementStatus_notFound_iff (s : DB) (adID : Int) (status : String) :
    ((UpdateAdvertisementStatus s adID status).1 = .error .ErrNotFound ↔
      ∀ a ∈ s.advertisements, a.ID = adID → a.Status = status) ∧
    ((UpdateAdvertisementStatus s adID status).1 = .error .ErrNotFound →
      (UpdateAdvertisementStatus s adID status).2 = s) := by
  have hz := rowsAffected_eq_zero_iff_unchanged s.advertisements (fun a => a.ID == adID)
    (fun a => { a with Status := status })
  have hiff : (UpdateAdvertisementStatus s adID status).1 = .error .ErrNotFound ↔
      ∀ a ∈ s.advertisements, (a.ID == adID) = true →
        ({ a with Status := status } : Advertisement) = a := by
    rw [← hz]
    unfold UpdateAdvertisementStatus
    simp only
    split_ifs with h <;> simp [h]
  refine ⟨?_, ?_⟩
  · rw [hiff]
    simp only [advertisement_status_unchanged_iff, beq_iff_eq]
  · intro h
    rw [UpdateAdvertisementStatus_state, sqlUpdate_of_unchanged _ _ _ (hiff.1 h)]

/-- `UpdateAdCampaignStatus` returns `ErrNotFound` exactly when every campaign
with the id already has the status, which includes the case that there is
none; the database is then unchanged. -/
theorem UpdateAdCampaignStatus_notFound_iff (s : DB) (campaignID : Int) (status : String) :
    ((UpdateAdCampaignStatus s campaignID status).1 = .error .ErrNotFound ↔
      ∀ c ∈ s.ad_campaigns, c.ID = campaignID → c.Status = status) ∧
    ((UpdateAdCampaignStatus s campaignID status).1 = .error .ErrNotFound →
      (UpdateAdCampaignStatus s campaignID status).2 = s) := by
  have hz := rowsAffected_eq_zero_iff_unchanged s.ad_campaigns (fun c => c.ID == campaignID)
    (fun c => { c with Status := status })
  have hiff : (UpdateAdCampaignStatus s campaignID status).1 = .error .ErrNotFound ↔
      ∀ c ∈ s.ad_campaigns, (c.ID == campaignID) = true →
        ({ c with Status := status } : AdCampaign) = c := by
    rw [← hz]
    unfold UpdateAdCampaignStatus
    simp only
    split_ifs with h <;> simp [h]
  refine ⟨?_, ?_⟩
  · rw [hiff]
    simp only [campaign_status_unchanged_iff, beq_iff_eq]
  · intro h
    rw [UpdateAdCampaignStatus_state, sqlUpdate_of_unchanged _ _ _ (hiff.1 h)]

/-- C19 on the sample store.  Creative 1 exists and is Approved; approving it
again changes no row, `RowsAffected` is 0, `UpdateAdvertisementStatus` returns
`ErrNotFound` and `ReviewAdHandler` answers 404 Not Found for an advertisement
that exists.  The same happens to the Approved campaign 1 with
`UpdateAdCampaignStatus` and `ReviewCampaignHandler`.  In general each method
returns `ErrNotFound` exactly when every row with the id already has the
target status (in particular when there is none), and then changes nothing; in
every case the database after the call is the one before it with the status
of the rows with that id set to the target.  Rejecting the Approved creative 1
and approving the Rejected campaign 2 return nil, and the unknown id 99 gives
`ErrNotFound`. -/
theorem C19_review_to_current_status_not_found :
    (advertisementByID examples.campaignDB 1).map (fun a => a.Status) = some "Approved" ∧
    UpdateAdvertisementStatus examples.campaignDB 1 "Approved" =
      (.error .ErrNotFound, examples.campaignDB) ∧
    handlers.ReviewAdHandler examples.campaignDB (.valid 1) (some "Approved") =
      ({ Code := 404 }, examples.campaignDB) ∧
    (campaignByID examples.campaignDB 1).map (fun c => c.Status) = some "Approved" ∧
    UpdateAdCampaignStatus examples.campaignDB 1 "Approved" =
      (.error .ErrNotFound, examples.campaignDB) ∧
    handlers.ReviewCampaignHandler examples.campaignDB (.valid 1) (some "Approved") =
      ({ Code := 404 }, examples.campaignDB) ∧
    (∀ (s : DB) (id : Int) (status : String),
      ((UpdateAdvertisementStatus s id status).1 = .error .ErrNotFound ↔
        ∀ a ∈ s.advertisements, a.ID = id → a.Status = status) ∧
      ((UpdateAdCampaignStatus s id status).1 = .error .ErrNotFound ↔
        ∀ c ∈ s.ad_campaigns, c.ID = id → c.Status = status) ∧
      (UpdateAdvertisementStatus s id status).2 =
        { s with advertisements := sqlUpdate s.advertisements (fun a => a.ID == id)
                   (fun a => { a with Status := status }) } ∧
      (UpdateAdCampaignStatus s id status).2 =
        { s with ad_campaigns := sqlUpdate s.ad_campaigns (fun c => c.ID == id)
                   (fun c => { c with Status := status }) }) ∧
    (UpdateAdvertisementStatus examples.campaignDB 1 "Rejected").1 = .ok () ∧
    (advertisementByID (UpdateAdvertisementStatus examples.campaignDB 1 "Rejected").2 1).map
      (fun a => a.Status) = some "Rejected" ∧
    (UpdateAdCampaignStatus examples.campaignDB 2 "Approved").1 = .ok () ∧
    (campaignByID (UpdateAdCampaignStatus examples.campaignDB 2 "Approved").2 2).map
      (fun c => c.Status) = some "Approved" ∧
    UpdateAdvertisementStatus examples.campaignDB 99 "Approved" =
      (.error .ErrNotFound, examples.campaignDB) ∧
    UpdateAdCampaignStatus examples.campaignDB 99 "Approved" =
      (.error .ErrNotFound, examples.campaignDB) := by
  set_option maxRecDepth 100000 in
  refine ⟨by decide, by decide, by decide, by decide, by decide, by decide, ?_, by decide,
    by decide, by decide, by decide, by decide, by decide⟩
  intro s id status
  exact ⟨(UpdateAdvertisementStatus_notFound_iff s id status).1,
    (UpdateAdCampaignStatus_notFound_iff s id status).1,
    UpdateAdvertisementStatus_state s id status, UpdateAdCampaignStatus_state s id status⟩

end store

namespace handlers

open models store float64

/-- C20. With positive ids, an existing campaign and an existing creative
that is the campaign's creative and has a non-empty target URL, and the event
insert going through, `AdClickHandler` answers with the 302 redirect to the
creative's target URL and appends exactly one event to `ad_events`: a Click
with that creative, that campaign and the campaign owner as user; the earlier
events and the rest of the database are unchanged. -/
theorem C20_record_click (s : DB) (now : Time) (campaignID adID : Int)
    (camp : AdCampaign) (ad : Advertisement)
    (hc : 0 < campaignID) (ha : 0 < adID)
    (hcamp : campaignByID s campaignID = some camp)
    (had : advertisementByID s adID = some ad)
    (hmatch : camp.AdvertisementID = ad.ID) (hurl : ad.TargetURL ≠ "") :
    AdClickHandler s now true (some campaignID) (some adID) =
      ({ Code := 302, Data := some ad.TargetURL },
       { s with
         ad_events := s.ad_events ++
           [{ ID := s.ad_events_seq, EventType := "Click", AdvertisementID := adID,
              CampaignID := campaignID, UserID := camp.UserID, EventTimestamp := now }],
         ad_events_seq := s.ad_events_seq + 1 }) := by
  have h1 : ¬ campaignID ≤ 0 := not_le.2 hc
  have h2 : ¬ adID ≤ 0 := not_le.2 ha
  simp [AdClickHandler, h1, h2, GetAdCampaignByID_eq, GetAdvertisementByID_eq, hcamp, had,
    hmatch, hurl, LogAdEvent]

/-- C20 on the sample store: the click on campaign 1 and creative 1. -/
theorem C20_witness :
    AdClickHandler examples.campaignDB 900 true (some 1) (some 1) =
      ({ Code := 302, Data := some "https://shop.example/shoes" },
       { examples.campaignDB with
         ad_events :=
           [{ ID := 1, EventType := "Click", AdvertisementID := 1, CampaignID := 1,
              UserID := 1, EventTimestamp := 900 }],
         ad_events_seq := 2 }) :=
  C20_record_click examples.campaignDB 900 1 1
    { ID := 1, AdvertisementID := 1, UserID := 1, StartDate := dayStart 5,
      EndDate := dayStart 10, Status := "Approved", CreatedAt := 100, UpdatedAt := 100 }
    { ID := 1, Title := "Shoes", ImageURL := "https://img.example/shoes.png",
      TargetURL := "https://shop.example/shoes", UserID := 1, Status := "Approved" }
    (by decide) (by decide) (by decide) (by decide) rfl (by decide)

end handlers

/-! ### Clicks and impressions: errors, logged events, logging failures -/

namespace store

open models

/-- No campaign is stored under `id` exactly when no row carries that id. -/
theorem campaignByID_none_iff (s : DB) (id : Int) :
    campaignByID s id = none ↔ ∀ c ∈ s.ad_campaigns, c.ID ≠ id := by
  simp [campaignByID, List.find?_eq_none]

/-- No advertisement is stored under `id` exactly when no row carries that id. -/
theorem advertisementByID_none_iff (s : DB) (id : Int) :
    advertisementByID s id = none ↔ ∀ a ∈ s.advertisements, a.ID ≠ id := by
  simp [advertisementByID, List.find?_eq_none]

end store

namespace handlers

open models store float64

/-- `AdClickHandler` with positive ids, once both rows have been found: the
match check, the event insert, and the check of the target URL. -/
theorem AdClickHandler_found (s : DB) (now : Time) (dbOK : Bool) (campaignID adID : Int)
    (camp : AdCampaign) (ad : Advertisement) (hc : 0 < campaignID) (ha : 0 < adID)
    (hcamp : campaignByID s campaignID = some camp)
    (had : advertisementByID s adID = some ad) :
    AdClickHandler s now dbOK (some campaignID) (some adID) =
      if camp.AdvertisementID ≠ ad.ID then ({ Code := 400 }, s)
      else
        let s1 := (LogAdEvent s dbOK
          { ID := 0, EventType := "Click", AdvertisementID := adID, CampaignID := campaignID,
            UserID := camp.UserID, EventTimestamp := now }).2
        if ad.TargetURL = "" then ({ Code := 500 }, s1)
        else ({ Code := 302, Data := some ad.TargetURL }, s1) := by
  have h1 : ¬ campaignID ≤ 0 := not_le.2 hc
  have h2 : ¬ adID ≤ 0 := not_le.2 ha
  simp [AdClickHandler, h1, h2, GetAdCampaignByID_eq, GetAdvertisementByID_eq, hcamp, had]

/-- `AdClickHandler` with positive ids when the campaign or the advertisement
is not in the store: 404 and no write. -/
theorem AdClickHandler_missing (s : DB) (now : Time) (dbOK : Bool) (campaignID adID : Int)
    (hc : 0 < campaignID) (ha : 0 < adID)
    (h : campaignByID s campaignID = none ∨ advertisementByID s adID = none) :
    AdClickHandler s now dbOK (some campaignID) (some adID) = ({ Code := 404 }, s) := by
  have h1 : ¬ campaignID ≤ 0 := not_le.2 hc
  have h2 : ¬ adID ≤ 0 := not_le.2 ha
  rcases h with h | h
  · simp [AdClickHandler, h1, h2, GetAdCampaignByID_eq, h]
  · cases hcamp : campaignByID s campaignID with
    | none => simp [AdClickHandler, h1, h2, GetAdCampaignByID_eq, hcamp]
    | some camp =>
      simp [AdClickHandler, h1, h2, GetAdCampaignByID_eq, GetAdvertisementByID_eq, hcamp, h]

/-- C21. For positive ids `AdClickHandler` answers 404 Not Found when no
campaign or no advertisement carries the given id, 400 Bad Request when both
exist but the advertisement is not the campaign's advertisement, and 500
Internal Server Error when they match and the advertisement's target URL is
empty.  In the 404 and 400 cases the database, and so the event log, is
unchanged, whether or not an event insert would succeed. -/
theorem C21_record_click_errors (s : DB) (now : Time) (dbOK : Bool) (campaignID adID : Int)
    (hc : 0 < campaignID) (ha : 0 < adID) :
    (((∀ c ∈ s.ad_campaigns, c.ID ≠ campaignID) ∨ (∀ a ∈ s.advertisements, a.ID ≠ adID)) →
      AdClickHandler s now dbOK (some campaignID) (some adID) = ({ Code := 404 }, s)) ∧
    (∀ camp ad, campaignByID s campaignID = some camp → advertisementByID s adID = some ad →
      camp.AdvertisementID ≠ ad.ID →
      AdClickHandler s now dbOK (some campaignID) (some adID) = ({ Code := 400 }, s)) ∧
    (∀ camp ad, campaignByID s campaignID = some camp → advertisementByID s adID = some ad →
      camp.AdvertisementID = ad.ID → ad.TargetURL = "" →
      (AdClickHandler s now dbOK (some campaignID) (some adID)).1 = { Code := 500 }) := by
  refine ⟨?_, ?_, ?_⟩
  · intro h
    apply AdClickHandler_missing s now dbOK campaignID adID hc ha
    rw [campaignByID_none_iff, advertisementByID_none_iff]
    exact h
  · intro camp ad hcamp had hne
    rw [AdClickHandler_found s now dbOK campaignID adID camp ad hc ha hcamp had]
    simp [hne]
  · intro camp ad hcamp had heq hurl
    rw [AdClickHandler_found s now dbOK campaignID adID camp ad hc ha hcamp had]
    simp [heq, hurl]

/-- C21 on the sample store: campaign 77 does not exist (404), creative 2 is
not the creative of campaign 1 (400), and creative 2 of campaign 5 has no target
URL (500); the first two leave the store as it was. -/
theorem C21_witness :
    AdClickHandler examples.clickDB 900 true (some 77) (some 1) =
      ({ Code := 404 }, examples.clickDB) ∧
    AdClickHandler examples.clickDB 900 true (some 1) (some 2) =
      ({ Code := 400 }, examples.clickDB) ∧
    (AdClickHandler examples.clickDB 900 true (some 5) (some 2)).1 = { Code := 500 } :=
  ⟨(C21_record_click_errors examples.clickDB 900 true 77 1 (by decide) (by decide)).1
      (Or.inl (by decide)),
   (C21_record_click_errors examples.clickDB 900 true 1 2 (by decide) (by decide)).2.1
      { ID := 1, AdvertisementID := 1, UserID := 1, StartDate := dayStart 5,
        EndDate := dayStart 10, Status := "Approved", CreatedAt := 100, UpdatedAt := 100 }
      { ID := 2, Title := "Hats", ImageURL := "https://img.example/hats.png",
        TargetURL := "", UserID := 2, Status := "Pending" }
      (by decide) (by decide) (by decide),
   (C21_record_click_errors examples.clickDB 900 true 5 2 (by decide) (by decide)).2.2
      { ID := 5, AdvertisementID := 2, UserID := 2, StartDate := dayStart 5,
        EndDate := dayStart 10, Status := "Approved", CreatedAt := 500, UpdatedAt := 500 }
      { ID := 2, Title := "Hats", ImageURL := "https://img.example/hats.png",
        TargetURL := "", UserID := 2, Status := "Pending" }
      (by decide) (by decide) (by decide) (by decide)⟩

/-- C22. When `GetAdHandler` selects a campaign, finds its creative and the
event insert goes through, it answers 200 with the creative and appends
exactly one event to `ad_events`: an Impression carrying the creative's id,
the campaign's id and the campaign owner's user id, at the current time; the
rest of the database is unchanged.  When the selection finds no campaign (200
without data) or the campaign's creative is missing (500) the database, and
so the event log, is unchanged. -/
theorem C22_impression_logged (s : DB) (now : Time) (rand : Nat) :
    (∀ camp ad, GetRandomActiveCampaign s now rand = .ok camp →
      advertisementByID s camp.AdvertisementID = some ad →
      GetAdHandler s now rand true =
        ({ Code := 200,
           Data := some { CampaignID := camp.ID, AdvertisementID := ad.ID, Title := ad.Title,
                          ImageURL := ad.ImageURL, TargetURL := ad.TargetURL } },
         { s with
           ad_events := s.ad_events ++
             [{ ID := s.ad_events_seq, EventType := "Impression", AdvertisementID := ad.ID,
                CampaignID := camp.ID, UserID := camp.UserID, EventTimestamp := now }],
           ad_events_seq := s.ad_events_seq + 1 })) ∧
    (∀ dbOK, GetRandomActiveCampaign s now rand = .error .ErrNotFound →
      GetAdHandler s now rand dbOK = ({ Code := 200 }, s)) ∧
    (∀ dbOK camp, GetRandomActiveCampaign s now rand = .ok camp →
      (∀ a ∈ s.advertisements, a.ID ≠ camp.AdvertisementID) →
      GetAdHandler s now rand dbOK = ({ Code := 500 }, s)) := by
  refine ⟨?_, ?_, ?_⟩
  · intro camp ad hsel had
    simp [GetAdHandler, hsel, GetAdvertisementByID_eq, had, LogAdEvent]
  · intro dbOK hsel
    simp [GetAdHandler, hsel]
  · intro dbOK camp hsel had
    rw [← advertisementByID_none_iff] at had
    simp [GetAdHandler, hsel, GetAdvertisementByID_eq, had]

/-- C22 on the sample stores: at the start of day 7 the Active campaign 3 is
served and one Impression is appended; on day 20 nothing is served and nothing
logged; with the creative removed the answer is 500 and nothing is logged. -/
theorem C22_witness :
    GetAdHandler examples.campaignDB (dayStart 7) 0 true =
      ({ Code := 200,
         Data := some { CampaignID := 3, AdvertisementID := 1, Title := "Shoes",
                        ImageURL := "https://img.example/shoes.png",
                        TargetURL := "https://shop.example/shoes" } },
       { examples.campaignDB with
         ad_events :=
           [{ ID := 1, EventType := "Impression", AdvertisementID := 1, CampaignID := 3,
              UserID := 1, EventTimestamp := dayStart 7 }],
         ad_events_seq := 2 }) ∧
    GetAdHandler examples.campaignDB (dayStart 20) 0 true =
      ({ Code := 200 }, examples.campaignDB) ∧
    GetAdHandler { examples.servingDB with advertisements := [] } (dayStart 7) 0 true =
      ({ Code := 500 }, { examples.servingDB with advertisements := [] }) :=
  ⟨(C22_impression_logged examples.campaignDB (dayStart 7) 0).1
      { ID := 3, AdvertisementID := 1, UserID := 1, StartDate := dayStart 5,
        EndDate := dayStart 10 + 43200000000000, Status := "Active",
        CreatedAt := 300, UpdatedAt := 300 }
      { ID := 1, Title := "Shoes", ImageURL := "https://img.example/shoes.png",
        TargetURL := "https://shop.example/shoes", UserID := 1, Status := "Approved" }
      (by decide) (by decide),
   (C22_impression_logged examples.campaignDB (dayStart 20) 0).2.1 true (by decide),
   (C22_impression_logged { examples.servingDB with advertisements := [] } (dayStart 7) 0).2.2
      true
      { ID := 1, AdvertisementID := 1, UserID := 1, StartDate := dayStart 5,
        EndDate := dayStart 10, Status := "Active", CreatedAt := 100, UpdatedAt := 100 }
      (by decide) (by decide)⟩

/-- C23. A failing event insert is not passed on: the reply of `GetAdHandler`
(status code and the campaign and creative returned) and the reply of
`AdClickHandler` (status code and redirect target) are the same with a failing
insert as with a successful one, and with a failing insert the handler leaves
the whole database as it was; a successful insert changes only the event log
and its counter, so users and balances, recharge transactions, campaigns,
advertisements and invoice requests are kept.  On the sample store the insert does fail, and the Active
campaign 3 is still served and the click on campaign 1 still redirected. -/
theorem C23_logging_failure_isolated (s : DB) (now : Time) (rand : Nat)
    (campaignIDArg adIDArg : Option Int) (event : AdEvent) :
    (GetAdHandler s now rand false).1 = (GetAdHandler s now rand true).1 ∧
    (AdClickHandler s now false campaignIDArg adIDArg).1 =
      (AdClickHandler s now true campaignIDArg adIDArg).1 ∧
    (GetAdHandler s now rand false).2 = s ∧
    (AdClickHandler s now false campaignIDArg adIDArg).2 = s ∧
    LogAdEvent s false event = (.error (.Errorf "store: failed to log ad event"), s) ∧
    spec.BusinessDataKept s (GetAdHandler s now rand true).2 ∧
    spec.BusinessDataKept s (AdClickHandler s now true campaignIDArg adIDArg).2 ∧
    GetAdHandler examples.campaignDB (dayStart 7) 0 false =
      ({ Code := 200,
         Data := some { CampaignID := 3, AdvertisementID := 1, Title := "Shoes",
                        ImageURL := "https://img.example/shoes.png",
                        TargetURL := "https://shop.example/shoes" } },
       examples.campaignDB) ∧
    AdClickHandler examples.campaignDB 900 false (some 1) (some 1) =
      ({ Code := 302, Data := some "https://shop.example/shoes" }, examples.campaignDB) := by
  have hget : ∀ dbOK, (GetAdHandler s now rand dbOK).1 = (GetAdHandler s now rand true).1 ∧
      ((GetAdHandler s now rand dbOK).2 = s ∨
        (dbOK = true ∧ ∃ e, (GetAdHandler s now rand dbOK).2 =
          { s with ad_events := s.ad_events ++ [e], ad_events_seq := s.ad_events_seq + 1 })) := by
    intro dbOK
    unfold GetAdHandler
    cases hsel : GetRandomActiveCampaign s now rand with
    | error e => cases e <;> simp
    | ok camp =>
      cases had : GetAdvertisementByID s camp.AdvertisementID with
      | error e => simp [had]
      | ok ad => cases dbOK <;> simp [had, LogAdEvent]
  have hclick : ∀ dbOK, (AdClickHandler s now dbOK campaignIDArg adIDArg).1 =
        (AdClickHandler s now true campaignIDArg adIDArg).1 ∧
      ((AdClickHandler s now dbOK campaignIDArg adIDArg).2 = s ∨
        (dbOK = true ∧ ∃ e, (AdClickHandler s now dbOK campaignIDArg adIDArg).2 =
          { s with ad_events := s.ad_events ++ [e], ad_events_seq := s.ad_events_seq + 1 })) := by
    intro dbOK
    unfold AdClickHandler
    cases campaignIDArg with
    | none => simp
    | some campaignID =>
      cases adIDArg with
      | none => simp
      | some adID =>
        simp only
        split_ifs with hpos
        · simp
        · cases hcamp : GetAdCampaignByID s campaignID with
          | error e => simp [hcamp]
          | ok camp =>
            cases had : GetAdvertisementByID s adID with
            | error e => simp [hcamp, had]
            | ok ad =>
              simp only [hcamp, had]
              split_ifs with hm hurl
              · simp
              · cases dbOK <;> simp [LogAdEvent]
              · cases dbOK <;> simp [LogAdEvent]
  refine ⟨(hget false).1, (hclick false).1, ?_, ?_, rfl, ?_, ?_, by decide, by decide⟩
  · rcases (hget false).2 with h | ⟨h, _⟩
    · exact h
    · cases h
  · rcases (hclick false).2 with h | ⟨h, _⟩
    · exact h
    · cases h
  · rcases (hget true).2 with h2 | ⟨_, e, h2⟩ <;> rw [h2] <;> simp [spec.BusinessDataKept]
  · rcases (hclick true).2 with h2 | ⟨_, e, h2⟩ <;> rw [h2] <;> simp [spec.BusinessDataKept]

end handlers

/-! ### Invoices: the successful total and the invoice request -/

namespace store

open models

/-- The sum that `GetSuccessfulRechargeTotalInRange` selects is the successful
total of the specification. -/
theorem successfulRows_sum (userID : Int) (startDate endDate : Time)
    (rows : List RechargeTransaction) :
    ((sqlWhere
      [fun r => r.UserID == userID, fun r => r.Status == "Success",
       fun r => decide (r.CreatedAt ≥ startDate),
       fun r => decide (r.CreatedAt ≤ endOfDay endDate)] rows).map (fun r => r.Amount)).sum =
      spec.successfulTotal userID startDate endDate rows := by
  induction rows with
  | nil => rfl
  | cons r rest ih =>
    unfold sqlWhere at ih ⊢
    by_cases h : r.UserID = userID ∧ r.Status = "Success" ∧ startDate ≤ r.CreatedAt ∧
        r.CreatedAt ≤ endOfDay endDate
    · have hf : ([fun r => r.UserID == userID, fun r => r.Status == "Success",
          fun r => decide (r.CreatedAt ≥ startDate),
          fun r => decide (r.CreatedAt ≤ endOfDay endDate)] :
          List (RechargeTransaction → Bool)).all (fun c => c r) = true := by
        simp [h.1, h.2.1, h.2.2.1, h.2.2.2]
      simp only [List.filter_cons, hf, if_true, List.map_cons, List.sum_cons, ih]
      simp only [spec.successfulTotal, if_pos h]
    · have hf : ([fun r => r.UserID == userID, fun r => r.Status == "Success",
          fun r => decide (r.CreatedAt ≥ startDate),
          fun r => decide (r.CreatedAt ≤ endOfDay endDate)] :
          List (RechargeTransaction → Bool)).all (fun c => c r) = false := by
        rw [Bool.eq_false_iff]
        intro hall
        apply h
        simpa [and_assoc] using hall
      simp only [List.filter_cons, hf, Bool.false_eq_true, if_false, ih]
      simp only [spec.successfulTotal, if_neg h]

/-- `GetSuccessfulRechargeTotalInRange` returns the successful total of the
specification, and never an error. -/
theorem GetSuccessfulRechargeTotalInRange_eq (s : DB) (userID : Int)
    (startDate endDate : Time) :
    GetSuccessfulRechargeTotalInRange s userID startDate endDate =
      .ok (spec.successfulTotal userID startDate endDate s.recharge_transactions) := by
  unfold GetSuccessfulRechargeTotalInRange
  simp only
  rw [successfulRows_sum]

/-- Rows of which none counts add nothing to the successful total. -/
theorem successfulTotal_append_others (userID : Int) (start stop : Time)
    (rows others : List RechargeTransaction)
    (h : ∀ r ∈ others, ¬ (r.UserID = userID ∧ r.Status = "Success" ∧ start ≤ r.CreatedAt ∧
      r.CreatedAt ≤ endOfDay stop)) :
    spec.successfulTotal userID start stop (rows ++ others) =
      spec.successfulTotal userID start stop rows := by
  induction rows with
  | nil =>
    induction others with
    | nil => rfl
    | cons r rest ih =>
      have hr := h r (List.mem_cons_self _ _)
      have ih2 := ih (fun x hx => h x (List.mem_cons_of_mem _ hx))
      simp only [List.nil_append] at ih2 ⊢
      simp only [spec.successfulTotal, if_neg hr]
      exact ih2
  | cons r rest ih =>
    show spec.successfulTotal userID start stop (r :: (rest ++ others)) = _
    simp only [spec.successfulTotal, ih]

/-- C26. `GetSuccessfulRechargeTotalInRange` returns, without error, the sum
of the amounts of exactly the recharge transactions of the user that have
status Success and were created between the start date and the last instant
of the day of the end date.  Rows that are not such (Pending or Failed rows,
rows of other users, rows outside the period) add nothing, and the result is 0
when no row counts.  On the sample store the Success amounts 1000 and 2000 of
user 1 next to a Failed 5000 give 3000. -/
theorem C26_successful_total (s : DB) (userID : Int) (startDate endDate : Time) :
    GetSuccessfulRechargeTotalInRange s userID startDate endDate =
      .ok (spec.successfulTotal userID startDate endDate s.recharge_transactions) ∧
    (∀ others : List RechargeTransaction,
      (∀ r ∈ others, ¬ (r.UserID = userID ∧ r.Status = "Success" ∧ startDate ≤ r.CreatedAt ∧
        r.CreatedAt ≤ endOfDay endDate)) →
      GetSuccessfulRechargeTotalInRange
        { s with recharge_transactions := s.recharge_transactions ++ others }
        userID startDate endDate =
      GetSuccessfulRechargeTotalInRange s userID startDate endDate) ∧
    ((∀ r ∈ s.recharge_transactions,
        ¬ (r.UserID = userID ∧ r.Status = "Success" ∧ startDate ≤ r.CreatedAt ∧
          r.CreatedAt ≤ endOfDay endDate)) →
      GetSuccessfulRechargeTotalInRange s userID startDate endDate = .ok 0) ∧
    GetSuccessfulRechargeTotalInRange examples.invoiceDB 1 (dayStart 3) (dayStart 4) =
      .ok 3000 := by
  refine ⟨GetSuccessfulRechargeTotalInRange_eq s userID startDate endDate, ?_, ?_, by decide⟩
  · intro others h
    rw [GetSuccessfulRechargeTotalInRange_eq, GetSuccessfulRechargeTotalInRange_eq]
    simp only
    rw [successfulTotal_append_others userID startDate endDate _ others h]
  · intro h
    rw [GetSuccessfulRechargeTotalInRange_eq]
    have := successfulTotal_append_others userID startDate endDate [] s.recharge_transactions h
    simp only [List.nil_append] at this
    rw [this]
    rfl

/-- C26 on the sample store: user 2 has no Success recharge from day 10 to day
11, so the total is 0; and the Failed, Pending, late and foreign rows of the
store add nothing to the 3000 of user 1. -/
theorem C26_witness :
    GetSuccessfulRechargeTotalInRange examples.invoiceDB 2 (dayStart 10) (dayStart 11) = .ok 0 ∧
    GetSuccessfulRechargeTotalInRange
      { examples.invoiceDB with
        recharge_transactions := examples.invoiceDB.recharge_transactions ++
          [{ ID := 7, UserID := 1, Amount := 5000, Status := "Failed",
             CreatedAt := dayStart 3 + 7, UpdatedAt := dayStart 3 + 7 }] }
      1 (dayStart 3) (dayStart 4) =
    GetSuccessfulRechargeTotalInRange examples.invoiceDB 1 (dayStart 3) (dayStart 4) :=
  ⟨(C26_successful_total examples.invoiceDB 2 (dayStart 10) (dayStart 11)).2.2.1 (by decide),
   (C26_successful_total examples.invoiceDB 1 (dayStart 3) (dayStart 4)).2.1
     [{ ID := 7, UserID := 1, Amount := 5000, Status := "Failed",
        CreatedAt := dayStart 3 + 7, UpdatedAt := dayStart 3 + 7 }] (by decide)⟩

end store

namespace handlers

open models store float64

/-- `RequestInvoiceHandler` refuses a body that cannot be decoded, an empty
billing title or address, a malformed date and an end date before the start
date with 400, and writes nothing. -/
theorem RequestInvoiceHandler_malformed (s : DB) (now : Time) (userID : Int)
    (body : Option InvoiceRequestPayload)
    (h : ∀ payload, body = some payload →
      payload.BillingTitle = "" ∨ payload.BillingAddress = "" ∨ payload.StartDate = none ∨
      payload.EndDate = none ∨
      ∃ a b, payload.StartDate = some a ∧ payload.EndDate = some b ∧ b < a) :
    RequestInvoiceHandler s now userID body = ({ Code := 400 }, s) := by
  cases body with
  | none => rfl
  | some payload =>
    by_cases h1 : payload.BillingTitle = ""
    · simp [RequestInvoiceHandler, h1]
    · by_cases h2 : payload.BillingAddress = ""
      · simp [RequestInvoiceHandler, h1, h2]
      · rcases h payload rfl with h3 | h3 | h3 | h3 | ⟨a, b, ha, hb, hlt⟩
        · exact absurd h3 h1
        · exact absurd h3 h2
        · simp [RequestInvoiceHandler, h1, h2, h3]
        · cases hs : payload.StartDate <;> simp [RequestInvoiceHandler, h1, h2, h3, hs]
        · have hlt2 : dayStart b < dayStart a := (dayStart_lt_iff b a).2 hlt
          simp [RequestInvoiceHandler, h1, h2, ha, hb, hlt2]

/-- C27. For a request with a billing title, a billing address and two
well-formed dates of which the end is not before the start,
`RequestInvoiceHandler` computes the successful total of the caller for the
period on the current database.  When that total is not positive it answers
400 and leaves the database, and so the invoice requests, unchanged.  Otherwise
it answers 201 with the new id and appends exactly one invoice request: status
Pending, the caller as owner, the requested period, the computed total as
amount, and the current time as request time. -/
theorem C27_request_invoice (s : DB) (now : Time) (userID : Int)
    (payload : InvoiceRequestPayload) (startDay endDay : Int)
    (htitle : payload.BillingTitle ≠ "") (haddr : payload.BillingAddress ≠ "")
    (hstart : payload.StartDate = some startDay) (hend : payload.EndDate = some endDay)
    (hle : startDay ≤ endDay) :
    GetSuccessfulRechargeTotalInRange s userID (dayStart startDay) (dayStart endDay) =
      .ok (spec.successfulTotal userID (dayStart startDay) (dayStart endDay)
        s.recharge_transactions) ∧
    (spec.successfulTotal userID (dayStart startDay) (dayStart endDay)
        s.recharge_transactions ≤ 0 →
      RequestInvoiceHandler s now userID (some payload) = ({ Code := 400 }, s)) ∧
    (0 < spec.successfulTotal userID (dayStart startDay) (dayStart endDay)
        s.recharge_transactions →
      RequestInvoiceHandler s now userID (some payload) =
        ({ Code := 201, Data := some s.invoice_requests_seq },
         { s with
           invoice_requests := s.invoice_requests ++
             [{ ID := s.invoice_requests_seq, UserID := userID, Status := "Pending",
                InvoicePeriodStart := dayStart startDay, InvoicePeriodEnd := dayStart endDay,
                TotalAmount := spec.successfulTotal userID (dayStart startDay)
                  (dayStart endDay) s.recharge_transactions,
                BillingTitle := payload.BillingTitle,
                TaxID := if payload.TaxID = "" then none else some payload.TaxID,
                BillingAddress := payload.BillingAddress, RequestedAt := now }],
           invoice_requests_seq := s.invoice_requests_seq + 1 })) := by
  have hnlt : ¬ dayStart endDay < dayStart startDay := by
    rw [dayStart_lt_iff]
    exact not_lt.2 hle
  have htot := GetSuccessfulRechargeTotalInRange_eq s userID (dayStart startDay)
    (dayStart endDay)
  refine ⟨htot, ?_, ?_⟩
  · intro h
    simp [RequestInvoiceHandler, htitle, haddr, hstart, hend, hnlt, htot, h]
  · intro h
    have h2 : ¬ spec.successfulTotal userID (dayStart startDay) (dayStart endDay)
        s.recharge_transactions ≤ 0 := not_le.2 h
    by_cases htax : payload.TaxID = ""
    · simp [RequestInvoiceHandler, htitle, haddr, hstart, hend, hnlt, htot, h2,
        CreateInvoiceRequest, htax]
    · simp [RequestInvoiceHandler, htitle, haddr, hstart, hend, hnlt, htot, h2,
        CreateInvoiceRequest, htax]

/-- C27 on the sample store: user 1 asks for an invoice over days 3 to 4 and
one Pending request over 3000 is stored; user 2 asks for days 10 to 11, where
the total is 0, and is answered 400 with nothing stored. -/
theorem C27_witness :
    RequestInvoiceHandler examples.invoiceDB 99 1
      (some { StartDate := some 3, EndDate := some 4, BillingTitle := "Ann Ltd",
              BillingAddress := "1 Main St" }) =
      ({ Code := 201, Data := some 1 },
       { examples.invoiceDB with
         invoice_requests :=
           [{ ID := 1, UserID := 1, Status := "Pending", InvoicePeriodStart := dayStart 3,
              InvoicePeriodEnd := dayStart 4, TotalAmount := 3000, BillingTitle := "Ann Ltd",
              BillingAddress := "1 Main St", RequestedAt := 99 }],
         invoice_requests_seq := 2 }) ∧
    RequestInvoiceHandler examples.invoiceDB 99 2
      (some { StartDate := some 10, EndDate := some 11, BillingTitle := "Bob Ltd",
              BillingAddress := "2 Main St" }) = ({ Code := 400 }, examples.invoiceDB) :=
  ⟨(C27_request_invoice examples.invoiceDB 99 1
      { StartDate := some 3, EndDate := some 4, BillingTitle := "Ann Ltd",
        BillingAddress := "1 Main St" } 3 4
      (by decide) (by decide) rfl rfl (by decide)).2.2 (by decide),
   (C27_request_invoice examples.invoiceDB 99 2
      { StartDate := some 10, EndDate := some 11, BillingTitle := "Bob Ltd",
        BillingAddress := "2 Main St" } 10 11
      (by decide) (by decide) rfl rfl (by decide)).2.1 (by decide)⟩

end handlers

/-! ### The serving window and the click-through rate -/

namespace store

open models

/-- C28. `GetRandomActiveCampaign` compares the stored end date with the
current instant, so the window closes at 00:00 of the end date instead of
including that day: for every database, a campaign whose end date is stored as
day `d` at 00:00 is never returned at an instant after that midnight.  On the
sample store, whose Active campaign 1 runs from day 5 to day 10, the campaign
is returned at every instant of its start date (day 5) and at 00:00 of day 10,
and at every later instant, so for the rest of day 10, nothing is found. -/
theorem C28_window_closes_at_midnight_of_end_date :
    (∀ (s : DB) (c : AdCampaign) (d : Int) (k rand : Nat),
      GetRandomActiveCampaign s (dayStart d + 1 + k) rand ≠
        .ok { c with EndDate := dayStart d }) ∧
    (campaignByID examples.servingDB 1).map (fun c => (c.Status, c.StartDate, c.EndDate)) =
      some ("Active", dayStart 5, dayStart 10) ∧
    (∀ (k : Fin 86400000000000) (rand : Nat),
      (GetRandomActiveCampaign examples.servingDB (dayStart 5 + k.val) rand).map
        (fun c => c.ID) = .ok 1) ∧
    (∀ rand : Nat,
      (GetRandomActiveCampaign examples.servingDB (dayStart 10) rand).map
        (fun c => c.ID) = .ok 1) ∧
    (∀ k rand : Nat,
      GetRandomActiveCampaign examples.servingDB (dayStart 10 + 1 + k) rand =
        .error .ErrNotFound) := by
  have hwin : ∀ (now : Time) (rand : Nat), dayStart 5 ≤ now → now ≤ dayStart 10 →
      (GetRandomActiveCampaign examples.servingDB now rand).map (fun c => c.ID) = .ok 1 := by
    intro now rand h1 h2
    simp [GetRandomActiveCampaign, examples.servingDB, h1, h2, Nat.mod_one]
    rfl
  refine ⟨?_, by decide, ?_, ?_, ?_⟩
  · intro s c d k rand h
    have h4 := (GetRandomActiveCampaign_ok s _ rand _ h).2.2.2
    have key : ∀ x : Int, ¬ (x + 1 + (k : Int) ≤ x) := by intro x; omega
    exact key _ h4
  · intro k rand
    apply hwin
    · have key : ∀ x : Int, x ≤ x + (k.val : Int) := by intro x; omega
      exact key _
    · have hk := k.isLt
      have key : (5 : Int) * 86400000000000 + (k.val : Int) ≤ 10 * 86400000000000 := by omega
      exact key
  · intro rand
    exact hwin _ rand (by decide) (le_refl _)
  · intro k rand
    rw [GetRandomActiveCampaign_notFound_iff]
    intro c hc hcond
    have hend : c.EndDate = dayStart 10 := by
      simp [examples.servingDB] at hc
      rw [hc]
    have h4 := hcond.2.2
    rw [hend] at h4
    have key : ∀ x : Int, ¬ (x + 1 + (k : Int) ≤ x) := by intro x; omega
    exact key _ h4

end store

namespace handlers

open models store float64

/-- C25 on the row with 160 impressions and 23 clicks, where `clicks * 10000 /
impressions` is 1437.5 and the rate of the specification is 14.38:
`withCTR` divides first, which gives the float64 below 0.14375, and the two
products with 100 stay below 14.375 and 1437.5, so `math.Round` gives 1437 and
the CTR is the float64 of 14.37, not that of 14.38.  On the rows with 200
impressions and 37 clicks and with 1 impression and 1 click the CTR is the
float64 of 18.5 and of 100, and without impressions it is 0.  Through
`GetAdPerformanceHandler` the sample event log of user 1 is reported with a CTR
of 50 for the row with 2 impressions and 1 click and 0 for the row without
clicks. -/
theorem C25_ctr_of_23_in_160_is_1437 :
    spec.ctrHundredths 23 160 = 1438 ∧
    div (ofInt64 23) (ofInt64 160) = .fin false 5179139571476070 (-55) ∧
    toRat (.fin false 5179139571476070 (-55)) < 23 / 160 ∧
    mul (mul (.fin false 5179139571476070 (-55)) (.fin false 100 0)) (.fin false 100 0) =
      .fin false 6322191859711999 (-42) ∧
    toRat (.fin false 6322191859711999 (-42)) < 2875 / 2 ∧
    mathRound (.fin false 6322191859711999 (-42)) = .fin false 1437 0 ∧
    (withCTR { CampaignID := 1, CampaignName := "", AdvertisementID := 1, AdTitle := "",
               Impressions := 160, Clicks := 23 }).CTR = ofRat false 1437 100 ∧
    ofRat false 1437 100 ≠ ofRat false 1438 100 ∧
    spec.ctrHundredths 37 200 = 1850 ∧
    (withCTR { CampaignID := 1, CampaignName := "", AdvertisementID := 1, AdTitle := "",
               Impressions := 200, Clicks := 37 }).CTR = ofRat false 1850 100 ∧
    toRat (ofRat false 1850 100) = 37 / 2 ∧
    spec.ctrHundredths 1 1 = 10000 ∧
    (withCTR { CampaignID := 1, CampaignName := "", AdvertisementID := 1, AdTitle := "",
               Impressions := 1, Clicks := 1 }).CTR = ofRat false 10000 100 ∧
    toRat (ofRat false 10000 100) = 100 ∧
    (∀ row : AdPerformanceSummary,
      (withCTR { row with Impressions := 0 }).CTR = .fin false 0 0) ∧
    (∀ clicks : Int, spec.ctrHundredths clicks 0 = 0) ∧
    (GetAdPerformanceHandler examples.eventsDB examples.campaignName (dayStart 7 + 5) 1 {}).Data.map
      (fun rows => rows.map (fun r => (r.CampaignID, r.Impressions, r.Clicks, r.CTR))) =
      some [(1, 2, 1, ofRat false 5000 100), (3, 1, 0, .fin false 0 0)] := by
  set_option maxRecDepth 100000 in
  refine ⟨by decide, by decide, ?_, by decide, ?_, by decide, by decide, by decide, by decide,
    by decide, ?_, by decide, by decide, ?_, ?_, ?_, by decide⟩
  · norm_num [toRat]
  · norm_num [toRat]
  · have h : ofRat false 1850 100 = .fin false 5207287069147136 (-48) := by decide
    rw [h]
    norm_num [toRat]
  · have h : ofRat false 10000 100 = .fin false 7036874417766400 (-46) := by decide
    rw [h]
    norm_num [toRat]
  · intro row
    simp [withCTR]
  · intro clicks
    simp [spec.ctrHundredths]

end handlers

/-! ### What the request handlers can write to campaigns and events -/

namespace store

open models

/-- A row after an UPDATE is a row of before, or the rewriting of one. -/
theorem mem_sqlUpdate {α : Type} (rows : List α) (wh : α → Bool) (set : α → α) (c : α)
    (h : c ∈ sqlUpdate rows wh set) : c ∈ rows ∨ ∃ r ∈ rows, c = set r := by
  unfold sqlUpdate at h
  rw [List.mem_map] at h
  obtain ⟨r, hr, hc⟩ := h
  by_cases hw : wh r = true
  · rw [if_pos hw] at hc
    exact Or.inr ⟨r, hr, hc.symm⟩
  · rw [if_neg hw] at hc
    exact Or.inl (hc ▸ hr)

end store

namespace handlers

open models store float64

/-- A database with the same campaigns and events has nothing served either. -/
theorem NothingServed_of_eq (s s1 : DB) (h1 : s1.ad_campaigns = s.ad_campaigns)
    (h2 : s1.ad_events = s.ad_events) (h : spec.NothingServed s) : spec.NothingServed s1 := by
  unfold spec.NothingServed at h ⊢
  rw [h1, h2]
  exact h

/-- An UPDATE of campaigns that sets one of the handlers' statuses keeps
nothing served. -/
theorem NothingServed_update (s : DB) (wh : AdCampaign → Bool) (set : AdCampaign → AdCampaign)
    (hset : ∀ c, (set c).Status ∈ spec.handlerStatuses) (h : spec.NothingServed s) :
    spec.NothingServed { s with ad_campaigns := sqlUpdate s.ad_campaigns wh set } := by
  refine ⟨?_, h.2⟩
  intro c hc
  rcases mem_sqlUpdate _ _ _ _ hc with hc | ⟨r, _, hc⟩
  · exact h.1 c hc
  · rw [hc]
    exact hset r

/-- `SubmitAdHandler` writes to advertisements only. -/
theorem SubmitAdHandler_frame (s : DB) (userID : Int) (body : Option SubmitAdRequest) :
    (SubmitAdHandler s userID body).2.ad_campaigns = s.ad_campaigns ∧
    (SubmitAdHandler s userID body).2.ad_events = s.ad_events := by
  unfold SubmitAdHandler
  cases body with
  | none => simp
  | some req =>
    simp only
    split_ifs <;> simp [CreateAdvertisement]

/-- `ReviewAdHandler` leaves the database as it is or updates the status of
advertisements. -/
theorem ReviewAdHandler_state (s : DB) (id : Param Int) (body : Option String) :
    (ReviewAdHandler s id body).2 = s ∨
    ∃ adID status, (ReviewAdHandler s id body).2 = (UpdateAdvertisementStatus s adID status).2 := by
  unfold ReviewAdHandler
  cases id with
  | absent => exact Or.inl rfl
  | invalid => exact Or.inl rfl
  | valid adID =>
    simp only
    split_ifs with hpos
    · exact Or.inl rfl
    · cases hget : GetAdvertisementByID s adID with
      | error e => cases e <;> exact Or.inl rfl
      | ok ad =>
        cases body with
        | none => exact Or.inl rfl
        | some status =>
          simp only
          split_ifs with hst
          · exact Or.inl rfl
          · refine Or.inr ⟨adID, TrimSpace status, ?_⟩
            split <;> (rename_i heq; rw [heq])

/-- `ReviewCampaignHandler` leaves the database as it is or sets the status of
campaigns to Approved or Rejected. -/
theorem ReviewCampaignHandler_state (s : DB) (id : Param Int) (body : Option String) :
    (ReviewCampaignHandler s id body).2 = s ∨
    ∃ campaignID status, (status = "Approved" ∨ status = "Rejected") ∧
      (ReviewCampaignHandler s id body).2 = (UpdateAdCampaignStatus s campaignID status).2 := by
  unfold ReviewCampaignHandler
  cases id with
  | absent => exact Or.inl rfl
  | invalid => exact Or.inl rfl
  | valid campaignID =>
    simp only
    split_ifs with hpos
    · exact Or.inl rfl
    · cases body with
      | none => exact Or.inl rfl
      | some status =>
        simp only
        split_ifs with hst
        · exact Or.inl rfl
        · have hst2 : TrimSpace status = "Approved" ∨ TrimSpace status = "Rejected" := by
            by_contra hcon
            push_neg at hcon
            apply hst
            simp [hcon.1, hcon.2]
          refine Or.inr ⟨campaignID, TrimSpace status, hst2, ?_⟩
          split <;> (rename_i heq; rw [heq])

/-- `CancelCampaignHandler` leaves the database as it is or sets the status of
campaigns to Cancelled. -/
theorem CancelCampaignHandler_state (s : DB) (now : Time) (userID : Int) (id : Param Int) :
    (CancelCampaignHandler s now userID id).2 = s ∨
    ∃ campaignID, (CancelCampaignHandler s now userID id).2 =
      (UpdateAdCampaignStatusByUser s now campaignID userID "Cancelled").2 := by
  unfold CancelCampaignHandler
  cases id with
  | absent => exact Or.inl rfl
  | invalid => exact Or.inl rfl
  | valid campaignID =>
    simp only
    split_ifs with hpos
    · exact Or.inl rfl
    · refine Or.inr ⟨campaignID, ?_⟩
      split <;> (rename_i heq; rw [heq])

/-- `RequestCampaignHandler` leaves the database as it is or appends one
Pending campaign. -/
theorem RequestCampaignHandler_state (s : DB) (now : Time) (userID : Int)
    (body : Option CampaignRequestData) :
    (RequestCampaignHandler s now userID body).2 = s ∨
    ∃ c : AdCampaign, c.Status = "Pending" ∧
      (RequestCampaignHandler s now userID body).2 =
        { s with ad_campaigns := s.ad_campaigns ++ [c],
                 ad_campaigns_seq := s.ad_campaigns_seq + 1 } := by
  cases body with
  | none => exact Or.inl rfl
  | some reqData =>
    unfold RequestCampaignHandler
    simp only
    split_ifs with hpos
    · exact Or.inl rfl
    · cases hs : reqData.StartDate with
      | none => exact Or.inl rfl
      | some startDay =>
        cases he : reqData.EndDate with
        | none => exact Or.inl rfl
        | some endDay =>
          simp only
          split_ifs with hlt
          · exact Or.inl rfl
          · cases hget : GetAdvertisementByID s reqData.AdvertisementID with
            | error e => cases e <;> exact Or.inl rfl
            | ok ad =>
              simp only
              split_ifs with hown hst
              · exact Or.inl rfl
              · exact Or.inl rfl
              · exact Or.inr
                  ⟨{ ID := s.ad_campaigns_seq, AdvertisementID := reqData.AdvertisementID,
                     UserID := userID, StartDate := dayStart startDay,
                     EndDate := dayStart endDay, Status := "Pending", CreatedAt := now,
                     UpdatedAt := now }, rfl, rfl⟩

/-- `AdClickHandler` leaves the database as it is or appends one Click. -/
theorem AdClickHandler_state (s : DB) (now : Time) (dbOK : Bool)
    (campaignIDArg adIDArg : Option Int) :
    (AdClickHandler s now dbOK campaignIDArg adIDArg).2 = s ∨
    ∃ e : AdEvent, e.EventType = "Click" ∧
      (AdClickHandler s now dbOK campaignIDArg adIDArg).2 =
        { s with ad_events := s.ad_events ++ [e], ad_events_seq := s.ad_events_seq + 1 } := by
  unfold AdClickHandler
  cases campaignIDArg with
  | none => exact Or.inl rfl
  | some campaignID =>
    cases adIDArg with
    | none => exact Or.inl rfl
    | some adID =>
      simp only
      split_ifs with hpos
      · exact Or.inl rfl
      · cases hcamp : GetAdCampaignByID s campaignID with
        | error e => exact Or.inl rfl
        | ok camp =>
          cases had : GetAdvertisementByID s adID with
          | error e => exact Or.inl rfl
          | ok ad =>
            simp only
            cases dbOK with
            | false => split_ifs <;> exact Or.inl rfl
            | true =>
              split_ifs
              · exact Or.inl rfl
              · exact Or.inr
                  ⟨{ ID := s.ad_events_seq, EventType := "Click", AdvertisementID := adID,
                     CampaignID := campaignID, UserID := camp.UserID,
                     EventTimestamp := now }, rfl, rfl⟩
              · exact Or.inr
                  ⟨{ ID := s.ad_events_seq, EventType := "Click", AdvertisementID := adID,
                     CampaignID := campaignID, UserID := camp.UserID,
                     EventTimestamp := now }, rfl, rfl⟩

/-- `RechargeHandler` writes to users and recharge transactions only. -/
theorem RechargeHandler_frame (s : DB) (now : Time) (userID : Int) (Amount : F64)
    (paymentSuccess : Bool) :
    (RechargeHandler s now userID Amount paymentSuccess).2.ad_campaigns = s.ad_campaigns ∧
    (RechargeHandler s now userID Amount paymentSuccess).2.ad_events = s.ad_events := by
  have hopen : (RechargeHandler_open s now userID Amount).2.ad_campaigns = s.ad_campaigns ∧
      (RechargeHandler_open s now userID Amount).2.ad_events = s.ad_events := by
    unfold RechargeHandler_open
    simp only [CreateRechargeTransaction]
    split_ifs <;> exact ⟨rfl, rfl⟩
  have hupd : ∀ (s1 : DB) (id : Int) (st tx : String),
      (UpdateRechargeTransactionStatus s1 now id st tx).2.ad_campaigns = s1.ad_campaigns ∧
      (UpdateRechargeTransactionStatus s1 now id st tx).2.ad_events = s1.ad_events := by
    intro s1 id st tx
    unfold UpdateRechargeTransactionStatus
    simp only
    split_ifs <;> exact ⟨rfl, rfl⟩
  have hproc : ∀ (s1 : DB) (a id : Int) (tx : String),
      (ProcessSuccessfulRecharge s1 now userID a id tx).2.ad_campaigns = s1.ad_campaigns ∧
      (ProcessSuccessfulRecharge s1 now userID a id tx).2.ad_events = s1.ad_events := by
    intro s1 a id tx
    unfold ProcessSuccessfulRecharge
    simp only
    split_ifs <;> exact ⟨rfl, rfl⟩
  unfold RechargeHandler
  split
  · rename_i resp s1 heq
    have := hopen
    rw [heq] at this
    exact this
  · rename_i a id s1 heq
    have h1 := hopen
    rw [heq] at h1
    simp only at h1
    split_ifs
    · simp only
      split
      · rename_i e s2 heq2
        have h2 := hproc s1 a id ("SIM_TX_" ++ toString now ++ "_" ++ toString id)
        rw [heq2] at h2
        have h3 := hupd s2 id "Failed" "PROCESSING_ERROR"
        exact ⟨h3.1.trans (h2.1.trans h1.1), h3.2.trans (h2.2.trans h1.2)⟩
      · rename_i u s2 heq2
        have h2 := hproc s1 a id ("SIM_TX_" ++ toString now ++ "_" ++ toString id)
        rw [heq2] at h2
        exact ⟨h2.1.trans h1.1, h2.2.trans h1.2⟩
    · have h3 := hupd s1 id "Failed" ("SIM_FAIL_" ++ toString now ++ "_" ++ toString id)
      exact ⟨h3.1.trans h1.1, h3.2.trans h1.2⟩

/-- `RequestInvoiceHandler` writes to invoice requests only. -/
theorem RequestInvoiceHandler_frame (s : DB) (now : Time) (userID : Int)
    (body : Option InvoiceRequestPayload) :
    (RequestInvoiceHandler s now userID body).2.ad_campaigns = s.ad_campaigns ∧
    (RequestInvoiceHandler s now userID body).2.ad_events = s.ad_events := by
  cases body with
  | none => exact ⟨rfl, rfl⟩
  | some payload =>
    unfold RequestInvoiceHandler
    simp only
    split_ifs with h1 h2
    · exact ⟨rfl, rfl⟩
    · exact ⟨rfl, rfl⟩
    · cases hs : payload.StartDate with
      | none => exact ⟨rfl, rfl⟩
      | some startDay =>
        cases he : payload.EndDate with
        | none => exact ⟨rfl, rfl⟩
        | some endDay =>
          simp only
          split_ifs with hlt
          · exact ⟨rfl, rfl⟩
          · rw [GetSuccessfulRechargeTotalInRange_eq]
            simp only
            split_ifs with htot <;> exact ⟨rfl, rfl⟩
    · cases hs : payload.StartDate with
      | none => exact ⟨rfl, rfl⟩
      | some startDay =>
        cases he : payload.EndDate with
        | none => exact ⟨rfl, rfl⟩
        | some endDay =>
          simp only
          split_ifs with hlt
          · exact ⟨rfl, rfl⟩
          · rw [GetSuccessfulRechargeTotalInRange_eq]
            simp only
            split_ifs with htot <;> exact ⟨rfl, rfl⟩

/-- With nothing served so far, `GetAdHandler` finds no campaign and writes
nothing. -/
theorem GetAdHandler_nothing (s : DB) (now : Time) (rand : Nat) (dbOK : Bool)
    (h : spec.NothingServed s) :
    GetRandomActiveCampaign s now rand = .error .ErrNotFound ∧
    GetAdHandler s now rand dbOK = ({ Code := 200 }, s) := by
  have hnf : GetRandomActiveCampaign s now rand = .error .ErrNotFound := by
    rw [GetRandomActiveCampaign_notFound_iff]
    intro c hc hcond
    have hst := h.1 c hc
    rw [hcond.1] at hst
    revert hst
    decide
  refine ⟨hnf, ?_⟩
  simp [GetAdHandler, hnf]

/-- Serving one request keeps nothing served. -/
theorem NothingServed_serve (s : DB) (req : Request) (h : spec.NothingServed s) :
    spec.NothingServed (req.serve s) := by
  cases req with
  | submitAd userID body =>
    exact NothingServed_of_eq s _ (SubmitAdHandler_frame s userID body).1
      (SubmitAdHandler_frame s userID body).2 h
  | reviewAd id body =>
    show spec.NothingServed (ReviewAdHandler s id body).2
    rcases ReviewAdHandler_state s id body with h1 | ⟨adID, status, h1⟩
    · rw [h1]; exact h
    · rw [h1, UpdateAdvertisementStatus_state]
      exact NothingServed_of_eq s _ rfl rfl h
  | requestCampaign now userID body =>
    show spec.NothingServed (RequestCampaignHandler s now userID body).2
    rcases RequestCampaignHandler_state s now userID body with h1 | ⟨c, hc, h1⟩
    · rw [h1]; exact h
    · rw [h1]
      refine ⟨?_, h.2⟩
      intro c1 hc1
      simp only [List.mem_append, List.mem_singleton] at hc1
      rcases hc1 with hc1 | hc1
      · exact h.1 c1 hc1
      · rw [hc1, hc]; decide
  | reviewCampaign id body =>
    show spec.NothingServed (ReviewCampaignHandler s id body).2
    rcases ReviewCampaignHandler_state s id body with h1 | ⟨campaignID, status, hst, h1⟩
    · rw [h1]; exact h
    · rw [h1, UpdateAdCampaignStatus_state]
      apply NothingServed_update s _ _ _ h
      intro c
      rcases hst with hst | hst <;> rw [hst] <;> simp [spec.handlerStatuses]
  | cancelCampaign now userID id =>
    show spec.NothingServed (CancelCampaignHandler s now userID id).2
    rcases CancelCampaignHandler_state s now userID id with h1 | ⟨campaignID, h1⟩
    · rw [h1]; exact h
    · rw [h1, UpdateAdCampaignStatusByUser_state]
      apply NothingServed_update s _ _ _ h
      intro c
      simp [spec.handlerStatuses]
  | getAd now rand dbOK =>
    show spec.NothingServed (GetAdHandler s now rand dbOK).2
    rw [(GetAdHandler_nothing s now rand dbOK h).2]
    exact h
  | adClick now dbOK campaignIDArg adIDArg =>
    show spec.NothingServed (AdClickHandler s now dbOK campaignIDArg adIDArg).2
    rcases AdClickHandler_state s now dbOK campaignIDArg adIDArg with h1 | ⟨e, he, h1⟩
    · rw [h1]; exact h
    · rw [h1]
      refine ⟨h.1, ?_⟩
      intro e1 he1
      simp only [List.mem_append, List.mem_singleton] at he1
      rcases he1 with he1 | he1
      · exact h.2 e1 he1
      · rw [he1, he]; decide
  | recharge now userID Amount paymentSuccess =>
    exact NothingServed_of_eq s _ (RechargeHandler_frame s now userID Amount paymentSuccess).1
      (RechargeHandler_frame s now userID Amount paymentSuccess).2 h
  | requestInvoice now userID body =>
    exact NothingServed_of_eq s _ (RequestInvoiceHandler_frame s now userID body).1
      (RequestInvoiceHandler_frame s now userID body).2 h

/-- Serving any sequence of requests keeps nothing served. -/
theorem NothingServed_serveAll (reqs : List Request) :
    ∀ s : DB, spec.NothingServed s → spec.NothingServed (serveAll s reqs) := by
  induction reqs with
  | nil => intro s h; exact h
  | cons req rest ih =>
    intro s h
    exact ih (req.serve s) (NothingServed_serve s req h)

/-- C29. From a database without campaigns and events, after any sequence of
requests to the handlers that write (submit and review advertisement, request,
review and cancel campaign, get ad, ad click, recharge, request invoice), every
campaign has one of the statuses Pending, Approved, Rejected and Cancelled, and
so neither Active nor Completed.  Hence in every such state
`GetRandomActiveCampaign` returns `ErrNotFound` at every time and draw,
`GetAdHandler` answers 200 without an ad and writes nothing, and the event log
holds no Impression. -/
theorem C29_handlers_never_activate (s0 : DB) (reqs : List Request) (now : Time) (rand : Nat)
    (hc : s0.ad_campaigns = []) (he : s0.ad_events = []) :
    (∀ c ∈ (serveAll s0 reqs).ad_campaigns,
      c.Status = "Pending" ∨ c.Status = "Approved" ∨ c.Status = "Rejected" ∨
        c.Status = "Cancelled") ∧
    (∀ c ∈ (serveAll s0 reqs).ad_campaigns, c.Status ≠ "Active" ∧ c.Status ≠ "Completed") ∧
    GetRandomActiveCampaign (serveAll s0 reqs) now rand = .error .ErrNotFound ∧
    (∀ dbOK, GetAdHandler (serveAll s0 reqs) now rand dbOK =
      ({ Code := 200 }, serveAll s0 reqs)) ∧
    (∀ e ∈ (serveAll s0 reqs).ad_events, e.EventType ≠ "Impression") := by
  have h0 : spec.NothingServed s0 := by
    unfold spec.NothingServed
    rw [hc, he]
    simp
  have h := NothingServed_serveAll reqs s0 h0
  have hmem : ∀ c ∈ (serveAll s0 reqs).ad_campaigns,
      c.Status = "Pending" ∨ c.Status = "Approved" ∨ c.Status = "Rejected" ∨
        c.Status = "Cancelled" := by
    intro c hcm
    have := h.1 c hcm
    simpa [spec.handlerStatuses] using this
  refine ⟨hmem, ?_, (GetAdHandler_nothing _ now rand true h).1,
    fun dbOK => (GetAdHandler_nothing _ now rand dbOK h).2, h.2⟩
  intro c hcm
  rcases hmem c hcm with h1 | h1 | h1 | h1 <;> rw [h1] <;> decide

/-- C29 on the end-to-end run from the store with two users: creative
submitted and approved, campaign requested for days 5 to 10 and approved, then
an ad request and a click on day 7.  The campaign is Approved, nothing is
found to serve on day 7, and the log holds the Click only. -/
theorem C29_witness :
    GetRandomActiveCampaign
      (serveAll examples.freshDB
        [.submitAd 1 (some { Title := "Shoes", ImageURL := "https://img.example/shoes.png",
                             TargetURL := "https://shop.example/shoes" }),
         .reviewAd (.valid 1) (some "Approved"),
         .requestCampaign 50 1 (some { AdvertisementID := 1, StartDate := some 5,
                                       EndDate := some 10 }),
         .reviewCampaign (.valid 1) (some "Approved"),
         .getAd (dayStart 7) 0 true,
         .adClick (dayStart 7 + 1) true (some 1) (some 1)])
      (dayStart 7) 0 = .error .ErrNotFound ∧
    (serveAll examples.freshDB
        [.submitAd 1 (some { Title := "Shoes", ImageURL := "https://img.example/shoes.png",
                             TargetURL := "https://shop.example/shoes" }),
         .reviewAd (.valid 1) (some "Approved"),
         .requestCampaign 50 1 (some { AdvertisementID := 1, StartDate := some 5,
                                       EndDate := some 10 }),
         .reviewCampaign (.valid 1) (some "Approved"),
         .getAd (dayStart 7) 0 true,
         .adClick (dayStart 7 + 1) true (some 1) (some 1)]).ad_campaigns.map
      (fun c => (c.ID, c.Status)) = [(1, "Approved")] ∧
    (serveAll examples.freshDB
        [.submitAd 1 (some { Title := "Shoes", ImageURL := "https://img.example/shoes.png",
                             TargetURL := "https://shop.example/shoes" }),
         .reviewAd (.valid 1) (some "Approved"),
         .requestCampaign 50 1 (some { AdvertisementID := 1, StartDate := some 5,
                                       EndDate := some 10 }),
         .reviewCampaign (.valid 1) (some "Approved"),
         .getAd (dayStart 7) 0 true,
         .adClick (dayStart 7 + 1) true (some 1) (some 1)]).ad_events.map
      (fun e => e.EventType) = ["Click"] := by
  set_option maxRecDepth 100000 in
  exact ⟨(C29_handlers_never_activate examples.freshDB _ (dayStart 7) 0 rfl rfl).2.2.1,
    by decide, by decide⟩

end handlers

/-! ### The performance summary -/

namespace store

open models

/-- In a table with unique ids the rows with a given id are the row that the
lookup by id finds. -/
theorem filter_eq_find?_toList {α : Type} (key : α → Int) (l : List α) (k : Int)
    (h : (l.map key).Nodup) :
    l.filter (fun x => k == key x) = (l.find? (fun x => key x == k)).toList := by
  induction l with
  | nil => rfl
  | cons x xs ih =>
    rw [List.map_cons, List.nodup_cons] at h
    by_cases hk : key x = k
    · have hnone : xs.filter (fun y => k == key y) = [] := by
        rw [List.filter_eq_nil_iff]
        intro y hy hky
        apply h.1
        have hyk : k = key y := by simpa using hky
        rw [hk, hyk]
        exact List.mem_map_of_mem key hy
      simp [List.filter_cons, List.find?_cons, hk, hnone]
    · have hk2 : ¬ k = key x := fun e => hk e.symm
      simp [List.filter_cons, List.find?_cons, hk, hk2, ih h.2]

/-- Concatenating optional results is `filterMap`. -/
theorem flatMap_toList {α β : Type} (g : α → Option β) (l : List α) :
    l.flatMap (fun x => (g x).toList) = l.filterMap g := by
  induction l with
  | nil => rfl
  | cons x xs ih =>
    cases h : g x <;> simp [List.flatMap_cons, List.filterMap_cons, h, ih]

/-- With unique campaign ids and advertisement ids the join has one row for
each event whose campaign and advertisement exist. -/
theorem eventsJoinCampaignsAds_eq (s : DB)
    (hcamp : (s.ad_campaigns.map (fun c => c.ID)).Nodup)
    (hads : (s.advertisements.map (fun a => a.ID)).Nodup) :
    eventsJoinCampaignsAds s = s.ad_events.filterMap (joinRow s) := by
  unfold eventsJoinCampaignsAds
  rw [← flatMap_toList]
  congr 1
  funext evt
  have h1 := filter_eq_find?_toList (fun c : AdCampaign => c.ID) s.ad_campaigns
    evt.CampaignID hcamp
  have h2 := filter_eq_find?_toList (fun a : Advertisement => a.ID) s.advertisements
    evt.AdvertisementID hads
  simp only at h1 h2
  rw [h1, h2]
  unfold joinRow campaignByID advertisementByID
  cases s.ad_campaigns.find? (fun c => c.ID == evt.CampaignID) <;>
    cases s.advertisements.find? (fun a => a.ID == evt.AdvertisementID) <;> simp

/-- A joined row carries its event, and the campaign and advertisement found
under the event's ids. -/
theorem joinRow_eq_some (s : DB) (e : AdEvent) (r : AdEvent × AdCampaign × Advertisement) :
    joinRow s e = some r ↔
      campaignByID s e.CampaignID = some r.2.1 ∧
      advertisementByID s e.AdvertisementID = some r.2.2 ∧ r.1 = e := by
  unfold joinRow
  obtain ⟨e1, c1, a1⟩ := r
  cases campaignByID s e.CampaignID <;> cases advertisementByID s e.AdvertisementID <;>
    simp [eq_comm, and_assoc, and_comm, and_left_comm]

/-- The conjunction of the conditions `GetAdPerformanceSummary` collects is
the matching of the event. -/
theorem performance_conditions (userID : Int) (f : AdPerformanceFilter)
    (r : AdEvent × AdCampaign × Advertisement) :
    (([fun r => r.1.UserID == userID]
        ++ optCond f.StartDate (fun t r => decide (r.1.EventTimestamp ≥ t))
        ++ optCond f.EndDate (fun t r => decide (r.1.EventTimestamp ≤ endOfDay t))
        ++ optCond f.CampaignID (fun c r => r.1.CampaignID == c) :
        List (AdEvent × AdCampaign × Advertisement → Bool)).all (fun c => c r)) =
      decide (spec.EventMatch userID f r.1) := by
  obtain ⟨sd, ed, cid⟩ := f
  rw [Bool.eq_iff_iff]
  unfold spec.EventMatch
  cases sd <;> cases ed <;> cases cid <;> simp [optCond]

/-- The rows `GetAdPerformanceSummary` groups: the joined rows of the matching
events. -/
theorem performance_rows (s : DB) (userID : Int) (f : AdPerformanceFilter)
    (hcamp : (s.ad_campaigns.map (fun c => c.ID)).Nodup)
    (hads : (s.advertisements.map (fun a => a.ID)).Nodup) :
    sqlWhere
      ([fun r => r.1.UserID == userID]
        ++ optCond f.StartDate (fun t r => decide (r.1.EventTimestamp ≥ t))
        ++ optCond f.EndDate (fun t r => decide (r.1.EventTimestamp ≤ endOfDay t))
        ++ optCond f.CampaignID (fun c r => r.1.CampaignID == c))
      (eventsJoinCampaignsAds s) =
    (s.ad_events.filter (fun e => decide (spec.EventMatch userID f e))).filterMap
      (joinRow s) := by
  rw [eventsJoinCampaignsAds_eq s hcamp hads]
  unfold sqlWhere
  simp only [performance_conditions]
  generalize s.ad_events = l
  induction l with
  | nil => rfl
  | cons e l ih =>
    cases hj : joinRow s e with
    | none =>
      rw [List.filterMap_cons_none hj, ih, List.filter_cons]
      split_ifs
      · rw [List.filterMap_cons_none hj]
      · rfl
    | some r =>
      have hr : r.1 = e := ((joinRow_eq_some s e r).1 hj).2.2
      rw [List.filterMap_cons_some hj, List.filter_cons, List.filter_cons, ih, hr]
      split_ifs
      · rw [List.filterMap_cons_some hj]
      · rfl

/-- The group keys of the matching events. -/
theorem mem_performance_keys (s : DB) (campaignName : AdCampaign → String) (userID : Int)
    (f : AdPerformanceFilter) (k : Int × String × Int × String) :
    k ∈ ((s.ad_events.filter (fun e => decide (spec.EventMatch userID f e))).filterMap
        (joinRow s)).map (groupKey campaignName) ↔
      ∃ e ∈ s.ad_events, spec.EventMatch userID f e ∧ e.CampaignID = k.1 ∧
        e.AdvertisementID = k.2.2.1 ∧
        ∃ c a, campaignByID s k.1 = some c ∧ advertisementByID s k.2.2.1 = some a ∧
          k = (k.1, campaignName c, k.2.2.1, a.Title) := by
  simp only [List.mem_map, List.mem_filterMap, List.mem_filter, decide_eq_true_eq]
  constructor
  · rintro ⟨r, ⟨e, ⟨he, hm⟩, hj⟩, hk⟩
    obtain ⟨h1, h2, h3⟩ := (joinRow_eq_some s e r).1 hj
    subst hk
    refine ⟨e, he, hm, ?_, ?_, r.2.1, r.2.2, ?_, ?_, rfl⟩
    · simp [groupKey, h3]
    · simp [groupKey, h3]
    · simpa [groupKey, h3] using h1
    · simpa [groupKey, h3] using h2
  · rintro ⟨e, he, hm, hc, ha, c, a, h1, h2, hk⟩
    refine ⟨(e, c, a), ⟨e, ⟨he, hm⟩, ?_⟩, ?_⟩
    · rw [joinRow_eq_some]
      exact ⟨by rw [hc]; exact h1, by rw [ha]; exact h2, rfl⟩
    · rw [hk]
      simp [groupKey, hc, ha]

/-- The aggregate of a group counts the matching events of its pair and of
the event type. -/
theorem sumCase_rows (s : DB) (campaignName : AdCampaign → String) (m : AdEvent → Bool)
    (campaignID adID : Int) (c : AdCampaign) (a : Advertisement) (eventType : String)
    (hc : campaignByID s campaignID = some c) (ha : advertisementByID s adID = some a)
    (l : List AdEvent) :
    sumCase campaignName ((l.filter m).filterMap (joinRow s))
        (campaignID, campaignName c, adID, a.Title) eventType =
      ((l.filter (fun e => m e && e.CampaignID == campaignID && e.AdvertisementID == adID &&
        e.EventType == eventType)).length : Int) := by
  induction l with
  | nil => rfl
  | cons e l ih =>
    unfold sumCase at ih ⊢
    rw [List.filter_cons, List.filter_cons]
    by_cases hm : m e = true
    · rw [if_pos hm]
      cases hj : joinRow s e with
      | none =>
        rw [List.filterMap_cons_none hj, ih]
        have hne : ¬ (e.CampaignID = campaignID ∧ e.AdvertisementID = adID) := by
          rintro ⟨h1, h2⟩
          unfold joinRow at hj
          rw [h1, h2, hc, ha] at hj
          cases hj
        have : (m e && e.CampaignID == campaignID && e.AdvertisementID == adID &&
            e.EventType == eventType) = false := by
          rw [Bool.eq_false_iff]
          intro hcon
          simp only [Bool.and_eq_true, beq_iff_eq] at hcon
          exact hne ⟨hcon.1.1.2, hcon.1.2⟩
        rw [this]
        rfl
      | some r =>
        obtain ⟨h1, h2, h3⟩ := (joinRow_eq_some s e r).1 hj
        rw [List.filterMap_cons_some hj, List.filter_cons]
        by_cases hpair : e.CampaignID = campaignID ∧ e.AdvertisementID = adID
        · have hrc : r.2.1 = c := by
            rw [hpair.1, hc] at h1
            exact (Option.some.inj h1).symm
          have hra : r.2.2 = a := by
            rw [hpair.2, ha] at h2
            exact (Option.some.inj h2).symm
          have hkey : (groupKey campaignName r == (campaignID, campaignName c, adID, a.Title))
              = true := by
            simp [groupKey, h3, hpair.1, hpair.2, hrc, hra]
          rw [if_pos hkey, List.map_cons, List.sum_cons, ih, h3]
          by_cases ht : e.EventType = eventType
          · simp [hm, hpair.1, hpair.2, ht]
            ring
          · simp [hm, hpair.1, hpair.2, ht]
        · have hkey : ¬ (groupKey campaignName r == (campaignID, campaignName c, adID, a.Title))
              = true := by
            intro hcon
            apply hpair
            simp only [groupKey, h3, beq_iff_eq, Prod.mk.injEq] at hcon
            exact ⟨hcon.1, hcon.2.2.1⟩
          rw [if_neg hkey, ih]
          have : (m e && e.CampaignID == campaignID && e.AdvertisementID == adID &&
              e.EventType == eventType) = false := by
            rw [Bool.eq_false_iff]
            intro hcon
            simp only [Bool.and_eq_true, beq_iff_eq] at hcon
            exact hpair ⟨hcon.1.1.2, hcon.1.2⟩
          rw [this]
          rfl
    · rw [if_neg hm, ih]
      have : (m e && e.CampaignID == campaignID && e.AdvertisementID == adID &&
          e.EventType == eventType) = false := by
        simp [hm]
      rw [this]
      rfl

/-- `ORDER BY` on the group keys only rearranges them. -/
theorem orderByCampaignAd_perm (keys : List (Int × String × Int × String)) :
    (orderByCampaignAd keys).Perm keys :=
  List.perm_insertionSort _ keys

/-- What `GetAdPerformanceSummary` returns in a store with unique campaign ids
and advertisement ids: no pair of campaign and advertisement twice; a row for
exactly the pairs of the matching events whose campaign and advertisement
exist; and in each row the numbers of matching Impressions and Clicks of its
pair. -/
theorem GetAdPerformanceSummary_spec (s : DB) (campaignName : AdCampaign → String)
    (userID : Int) (filters : AdPerformanceFilter)
    (hcamp : (s.ad_campaigns.map (fun c => c.ID)).Nodup)
    (hads : (s.advertisements.map (fun a => a.ID)).Nodup) :
    ∃ rows, GetAdPerformanceSummary s campaignName userID filters = .ok rows ∧
      (rows.map (fun r => (r.CampaignID, r.AdvertisementID))).Nodup ∧
      (∀ campaignID adID,
        (campaignID, adID) ∈ rows.map (fun r => (r.CampaignID, r.AdvertisementID)) ↔
          ∃ e ∈ s.ad_events, spec.EventMatch userID filters e ∧ e.CampaignID = campaignID ∧
            e.AdvertisementID = adID ∧ campaignByID s campaignID ≠ none ∧
            advertisementByID s adID ≠ none) ∧
      (∀ r ∈ rows,
        r.Impressions =
          spec.eventCount s userID filters r.CampaignID r.AdvertisementID "Impression" ∧
        r.Clicks = spec.eventCount s userID filters r.CampaignID r.AdvertisementID "Click") := by
  refine ⟨_, rfl, ?_, ?_, ?_⟩
  · simp only [performance_rows s userID filters hcamp hads, List.map_map]
    apply List.Nodup.map_on
    · intro x hx y hy hxy
      rw [(orderByCampaignAd_perm _).mem_iff, List.mem_dedup, mem_performance_keys] at hx hy
      obtain ⟨_, _, _, _, _, c1, a1, hc1, ha1, hk1⟩ := hx
      obtain ⟨_, _, _, _, _, c2, a2, hc2, ha2, hk2⟩ := hy
      simp only [Function.comp, Prod.mk.injEq] at hxy
      rw [hxy.1, hc2] at hc1
      rw [hxy.2, ha2] at ha1
      rw [hk1, hk2, hxy.1, hxy.2, Option.some.inj hc1, Option.some.inj ha1]
    · exact (orderByCampaignAd_perm _).nodup_iff.2 (List.nodup_dedup _)
  · intro campaignID adID
    simp only [performance_rows s userID filters hcamp hads, List.map_map, List.mem_map,
      Function.comp, Prod.mk.injEq]
    constructor
    · rintro ⟨k, hk, h1, h2⟩
      rw [(orderByCampaignAd_perm _).mem_iff, List.mem_dedup, mem_performance_keys] at hk
      obtain ⟨e, he, hm, hec, hea, c, a, hc, ha, _⟩ := hk
      refine ⟨e, he, hm, hec.trans h1, hea.trans h2, ?_, ?_⟩
      · rw [← h1, hc]; simp
      · rw [← h2, ha]; simp
    · rintro ⟨e, he, hm, hec, hea, hc, ha⟩
      obtain ⟨c, hc⟩ := Option.ne_none_iff_exists'.1 hc
      obtain ⟨a, ha⟩ := Option.ne_none_iff_exists'.1 ha
      refine ⟨(campaignID, campaignName c, adID, a.Title), ?_, rfl, rfl⟩
      rw [(orderByCampaignAd_perm _).mem_iff, List.mem_dedup, mem_performance_keys]
      exact ⟨e, he, hm, hec, hea, c, a, hc, ha, rfl⟩
  · intro r hr
    simp only [performance_rows s userID filters hcamp hads, List.mem_map] at hr
    obtain ⟨k, hk, hr⟩ := hr
    rw [(orderByCampaignAd_perm _).mem_iff, List.mem_dedup, mem_performance_keys] at hk
    obtain ⟨_, _, _, _, _, c, a, hc, ha, hkeq⟩ := hk
    subst hr
    simp only [performance_rows s userID filters hcamp hads]
    rw [hkeq]
    simp only
    rw [sumCase_rows s campaignName _ k.1 k.2.2.1 c a "Impression" hc ha,
      sumCase_rows s campaignName _ k.1 k.2.2.1 c a "Click" hc ha]
    exact ⟨rfl, rfl⟩

end store

/-! ### The performance summary and the click log: the claims -/

namespace store

open models

/-- C24, counterexample: in the sample event log user 1 has a matching event
for campaign 9 and creative 1, but campaign 9 is not in the store, the join
drops the event, and the summary has no row for the pair (9, 1), whatever the
campaign names are. -/
theorem C24_counterexample :
    (∃ e ∈ examples.eventsDB.ad_events,
      spec.EventMatch 1 {} e ∧ e.CampaignID = 9 ∧ e.AdvertisementID = 1) ∧
    ∀ campaignName : AdCampaign → String,
      ∃ rows, GetAdPerformanceSummary examples.eventsDB campaignName 1 {} = .ok rows ∧
        (9, 1) ∉ rows.map (fun r => (r.CampaignID, r.AdvertisementID)) := by
  refine ⟨by decide, ?_⟩
  intro campaignName
  obtain ⟨rows, h1, _, h3, _⟩ := GetAdPerformanceSummary_spec examples.eventsDB campaignName 1 {}
    (by decide) (by decide)
  refine ⟨rows, h1, ?_⟩
  rw [h3]
  rintro ⟨e, _, _, _, _, hc, _⟩
  exact hc (by decide)

/-- C24. In a store with unique campaign ids and advertisement ids
`GetAdPerformanceSummary` returns, without error, a list in which no pair of
campaign and advertisement occurs twice; a pair has a row exactly when some
event of the user that matches the filter (timestamp from the start date to
the last instant of the day of the end date, campaign equal, each where set)
carries that pair and both the campaign and the advertisement are in the
store; and each row's impressions and clicks are the numbers of matching
Impression and Click events of its pair.  Pairs without such an event have no
row. -/
theorem C24_performance_summary (s : DB) (campaignName : AdCampaign → String)
    (userID : Int) (filters : AdPerformanceFilter)
    (hcamp : (s.ad_campaigns.map (fun c => c.ID)).Nodup)
    (hads : (s.advertisements.map (fun a => a.ID)).Nodup) :
    ∃ rows, GetAdPerformanceSummary s campaignName userID filters = .ok rows ∧
      (rows.map (fun r => (r.CampaignID, r.AdvertisementID))).Nodup ∧
      (∀ campaignID adID,
        (campaignID, adID) ∈ rows.map (fun r => (r.CampaignID, r.AdvertisementID)) ↔
          ∃ e ∈ s.ad_events, spec.EventMatch userID filters e ∧ e.CampaignID = campaignID ∧
            e.AdvertisementID = adID ∧ campaignByID s campaignID ≠ none ∧
            advertisementByID s adID ≠ none) ∧
      (∀ r ∈ rows,
        r.Impressions =
          spec.eventCount s userID filters r.CampaignID r.AdvertisementID "Impression" ∧
        r.Clicks = spec.eventCount s userID filters r.CampaignID r.AdvertisementID "Click") :=
  GetAdPerformanceSummary_spec s campaignName userID filters hcamp hads

/-- C24 on the sample event log: the summary of user 1 without a filter has
one row for campaign 1 and creative 1 with 2 impressions and 1 click and one
row for campaign 3 and creative 1 with 1 impression and no click. -/
theorem C24_witness :
    ∃ rows, GetAdPerformanceSummary examples.eventsDB examples.campaignName 1 {} = .ok rows ∧
      rows.map (fun r => (r.CampaignID, r.AdvertisementID, r.Impressions, r.Clicks)) =
        [(1, 1, 2, 1), (3, 1, 1, 0)] ∧
      (rows.map (fun r => (r.CampaignID, r.AdvertisementID))).Nodup :=
  (C24_performance_summary examples.eventsDB examples.campaignName 1 {}
    (by decide) (by decide)).imp
    (fun rows h => ⟨h.1, by
      have h2 : (GetAdPerformanceSummary examples.eventsDB examples.campaignName 1 {}).map
          (fun rows => rows.map
            (fun r => (r.CampaignID, r.AdvertisementID, r.Impressions, r.Clicks))) =
          .ok [(1, 1, 2, 1), (3, 1, 1, 0)] := by
        set_option maxRecDepth 100000 in decide
      rw [h.1] at h2
      exact Except.ok.inj h2, h.2.1⟩)

/-- One more matching Click of the pair raises the count of the pair's Clicks
by one. -/
theorem eventCount_append_click (s : DB) (userID : Int) (filters : AdPerformanceFilter)
    (e : AdEvent) (seq : Int) (hm : spec.EventMatch userID filters e)
    (ht : e.EventType = "Click") :
    spec.eventCount { s with ad_events := s.ad_events ++ [e], ad_events_seq := seq }
        userID filters e.CampaignID e.AdvertisementID "Click" =
      spec.eventCount s userID filters e.CampaignID e.AdvertisementID "Click" + 1 := by
  unfold spec.eventCount
  simp only [List.filter_append, List.length_append, Nat.cast_add]
  congr 1
  simp [List.filter_cons, hm, ht]

end store

namespace handlers

open models store float64

/-- C30. For positive ids and a working event insert, `AdClickHandler` appends
an event exactly when the campaign and the advertisement both exist and the
advertisement is the campaign's advertisement.  In that case the database after
the call is the one before it with one Click of the pair appended, whatever the
target URL is: with an empty target URL the answer is 500, with a non-empty one
the 302 redirect.  Either way a later `GetAdPerformanceSummary` of the
campaign owner whose filter matches the Click has a row for the pair whose
clicks are the matching Clicks of before plus one (campaign and advertisement
ids being unique). -/
theorem C30_click_logged_before_redirect (s : DB) (now : Time) (campaignID adID : Int)
    (hc : 0 < campaignID) (ha : 0 < adID) :
    ((∃ e, (AdClickHandler s now true (some campaignID) (some adID)).2.ad_events =
        s.ad_events ++ [e]) ↔
      ∃ camp ad, campaignByID s campaignID = some camp ∧ advertisementByID s adID = some ad ∧
        camp.AdvertisementID = ad.ID) ∧
    (∀ camp ad, campaignByID s campaignID = some camp → advertisementByID s adID = some ad →
      camp.AdvertisementID = ad.ID →
      (AdClickHandler s now true (some campaignID) (some adID)).2 =
        { s with
          ad_events := s.ad_events ++
            [{ ID := s.ad_events_seq, EventType := "Click", AdvertisementID := adID,
               CampaignID := campaignID, UserID := camp.UserID, EventTimestamp := now }],
          ad_events_seq := s.ad_events_seq + 1 } ∧
      (ad.TargetURL = "" →
        (AdClickHandler s now true (some campaignID) (some adID)).1 = { Code := 500 }) ∧
      (ad.TargetURL ≠ "" →
        (AdClickHandler s now true (some campaignID) (some adID)).1 =
          { Code := 302, Data := some ad.TargetURL }) ∧
      ∀ (campaignName : AdCampaign → String) (filters : AdPerformanceFilter),
        (s.ad_campaigns.map (fun c => c.ID)).Nodup →
        (s.advertisements.map (fun a => a.ID)).Nodup →
        spec.EventMatch camp.UserID filters
          { ID := s.ad_events_seq, EventType := "Click", AdvertisementID := adID,
            CampaignID := campaignID, UserID := camp.UserID, EventTimestamp := now } →
        ∃ rows, GetAdPerformanceSummary
            (AdClickHandler s now true (some campaignID) (some adID)).2
            campaignName camp.UserID filters = .ok rows ∧
          ∃ r ∈ rows, r.CampaignID = campaignID ∧ r.AdvertisementID = adID ∧
            r.Clicks =
              spec.eventCount s camp.UserID filters campaignID adID "Click" + 1) := by
  have hfound : ∀ camp ad, campaignByID s campaignID = some camp →
      advertisementByID s adID = some ad → camp.AdvertisementID = ad.ID →
      AdClickHandler s now true (some campaignID) (some adID) =
        (if ad.TargetURL = "" then { Code := 500 }
         else { Code := 302, Data := some ad.TargetURL },
         { s with
           ad_events := s.ad_events ++
             [{ ID := s.ad_events_seq, EventType := "Click", AdvertisementID := adID,
                CampaignID := campaignID, UserID := camp.UserID, EventTimestamp := now }],
           ad_events_seq := s.ad_events_seq + 1 }) := by
    intro camp ad hcamp had hmatch
    rw [AdClickHandler_found s now true campaignID adID camp ad hc ha hcamp had]
    by_cases hurl : ad.TargetURL = "" <;> simp [hmatch, hurl, LogAdEvent]
  refine ⟨?_, ?_⟩
  · constructor
    · rintro ⟨e, he⟩
      cases hcamp : campaignByID s campaignID with
      | none =>
        rw [AdClickHandler_missing s now true campaignID adID hc ha (Or.inl hcamp)] at he
        simp at he
      | some camp =>
        cases had : advertisementByID s adID with
        | none =>
          rw [AdClickHandler_missing s now true campaignID adID hc ha (Or.inr had)] at he
          simp at he
        | some ad =>
          by_cases hmatch : camp.AdvertisementID = ad.ID
          · exact ⟨camp, ad, rfl, rfl, hmatch⟩
          · rw [AdClickHandler_found s now true campaignID adID camp ad hc ha hcamp had] at he
            simp [hmatch] at he
    · rintro ⟨camp, ad, hcamp, had, hmatch⟩
      rw [hfound camp ad hcamp had hmatch]
      exact ⟨_, rfl⟩
  · intro camp ad hcamp had hmatch
    rw [hfound camp ad hcamp had hmatch]
    refine ⟨rfl, ?_, ?_, ?_⟩
    · intro hurl
      simp [hurl]
    · intro hurl
      simp [hurl]
    · intro campaignName filters hnc hna hm
      simp only
      obtain ⟨rows, h1, _, h3, h4⟩ := GetAdPerformanceSummary_spec
        { s with
          ad_events := s.ad_events ++
            [{ ID := s.ad_events_seq, EventType := "Click", AdvertisementID := adID,
               CampaignID := campaignID, UserID := camp.UserID, EventTimestamp := now }],
          ad_events_seq := s.ad_events_seq + 1 }
        campaignName camp.UserID filters hnc hna
      refine ⟨rows, h1, ?_⟩
      have hmem : (campaignID, adID) ∈
          rows.map (fun r => (r.CampaignID, r.AdvertisementID)) := by
        rw [h3]
        refine ⟨_, List.mem_append_right _ (List.mem_singleton_self _), hm, rfl, rfl, ?_, ?_⟩
        · show campaignByID s campaignID ≠ none
          rw [hcamp]; simp
        · show advertisementByID s adID ≠ none
          rw [had]; simp
      rw [List.mem_map] at hmem
      obtain ⟨r, hr, hpair⟩ := hmem
      simp only [Prod.mk.injEq] at hpair
      refine ⟨r, hr, hpair.1, hpair.2, ?_⟩
      rw [(h4 r hr).2, hpair.1, hpair.2]
      exact eventCount_append_click s camp.UserID filters
        { ID := s.ad_events_seq, EventType := "Click", AdvertisementID := adID,
          CampaignID := campaignID, UserID := camp.UserID, EventTimestamp := now }
        (s.ad_events_seq + 1) hm rfl

/-- C30 on the sample store: creative 2 of campaign 5 has no target URL; the
click is answered 500, the Click is in the log, and the summary of the owner,
user 2, counts it. -/
theorem C30_witness :
    (AdClickHandler examples.clickDB 900 true (some 5) (some 2)).1 = { Code := 500 } ∧
    (AdClickHandler examples.clickDB 900 true (some 5) (some 2)).2.ad_events =
      [{ ID := 1, EventType := "Click", AdvertisementID := 2, CampaignID := 5, UserID := 2,
         EventTimestamp := 900 }] ∧
    ∃ rows, GetAdPerformanceSummary
        (AdClickHandler examples.clickDB 900 true (some 5) (some 2)).2
        examples.campaignName 2 {} = .ok rows ∧
      ∃ r ∈ rows, r.CampaignID = 5 ∧ r.AdvertisementID = 2 ∧ r.Clicks = 1 := by
  obtain ⟨hstate, h500, _, hsum⟩ :=
    (C30_click_logged_before_redirect examples.clickDB 900 5 2 (by decide) (by decide)).2
      { ID := 5, AdvertisementID := 2, UserID := 2, StartDate := dayStart 5,
        EndDate := dayStart 10, Status := "Approved", CreatedAt := 500, UpdatedAt := 500 }
      { ID := 2, Title := "Hats", ImageURL := "https://img.example/hats.png",
        TargetURL := "", UserID := 2, Status := "Pending" }
      (by decide) (by decide) (by decide)
  obtain ⟨rows, hrows, r, hr, h1, h2, h3⟩ :=
    hsum examples.campaignName {} (by decide) (by decide) (by decide)
  refine ⟨h500 rfl, ?_, rows, hrows, r, hr, h1, h2, ?_⟩
  · rw [hstate]
    decide
  · rw [h3]
    decide

end handlers
